import Mathlib

/-!
Verification of the slsk-rs Soulseek client library.

This file shallowly embeds the wire codec (src/protocol.rs), the message
catalogs (src/peer.rs, src/peer_init.rs, src/distributed.rs, src/server.rs)
and selected application logic (src/bin/debug.rs, src/bin/tui/client.rs,
src/bin/tui/app.rs) into Lean, and proves or refutes the specified
properties.

Byte buffers are `List Nat` (each element a byte value 0..255).  A reader
is a function from a buffer to a result together with the remaining buffer;
this mirrors the `bytes::Buf` cursor used by the Rust code: on error the
cursor keeps whatever was already consumed, exactly as a `&mut impl Buf`
does when a `?` propagates an error mid-way through a read.
-/

set_option maxHeartbeats 4000000
set_option maxRecDepth 10000

/-- Byte buffers: lists of byte values. -/
abbrev Bytes := List Nat

/-- Errors of the codec, mirroring `Error` in src/error.rs.
`panicked` models an out-of-bounds `copy_to_slice`, which panics in Rust
rather than returning an error. -/
inductive Err where
  | bufferUnderflow (needed available : Nat)
  | utf8
  | invalidMessageCode (code : Nat)
  | invalidPeerInitCode (code : Nat)
  | invalidDistributedCode (code : Nat)
  | invalidConnectionType (s : Bytes)
  | invalidUserStatus (v : Nat)
  | invalidTransferDirection (v : Nat)
  | protocolErr
  | decompressionErr
  | uploadPermissionErr
  | obfuscationErr
  | panicked
  deriving DecidableEq, Repr

deriving instance DecidableEq for Except

/-- A reader over a byte cursor; the second component is the remaining
buffer (also on error, matching Rust's `&mut impl Buf` semantics). -/
def RdM (α : Type) : Type := Bytes → Except Err α × Bytes

instance : Monad RdM where
  pure a := fun bs => (Except.ok a, bs)
  bind m f := fun bs =>
    match m bs with
    | (Except.ok a, bs') => f a bs'
    | (Except.error e, bs') => (Except.error e, bs')

theorem RdM.pure_run {α : Type} (a : α) (bs : Bytes) :
    (pure a : RdM α) bs = (Except.ok a, bs) := rfl

theorem RdM.bind_run {α β : Type} (m : RdM α) (f : α → RdM β) (bs : Bytes) :
    (m >>= f) bs =
      match m bs with
      | (Except.ok a, bs') => f a bs'
      | (Except.error e, bs') => (Except.error e, bs') := rfl

/-- Value of a little-endian byte list. -/
def leVal (l : Bytes) : Nat := l.foldr (fun b acc => b + 256 * acc) 0

/-- `u8::read_from` (src/protocol.rs:80-90). -/
def readU8 : RdM Nat := fun bs =>
  if bs.length < 1 then (Except.error (Err.bufferUnderflow 1 bs.length), bs)
  else (Except.ok (leVal (bs.take 1)), bs.drop 1)

/-- `u16::read_from` (src/protocol.rs:98-108). -/
def readU16 : RdM Nat := fun bs =>
  if bs.length < 2 then (Except.error (Err.bufferUnderflow 2 bs.length), bs)
  else (Except.ok (leVal (bs.take 2)), bs.drop 2)

/-- `u32::read_from` (src/protocol.rs:116-126). -/
def readU32 : RdM Nat := fun bs =>
  if bs.length < 4 then (Except.error (Err.bufferUnderflow 4 bs.length), bs)
  else (Except.ok (leVal (bs.take 4)), bs.drop 4)

/-- `u64::read_from` (src/protocol.rs:152-162). -/
def readU64 : RdM Nat := fun bs =>
  if bs.length < 8 then (Except.error (Err.bufferUnderflow 8 bs.length), bs)
  else (Except.ok (leVal (bs.take 8)), bs.drop 8)

/-- `i32::read_from` (src/protocol.rs:134-144): little-endian two's
complement. -/
def readI32 : RdM Int := fun bs =>
  if bs.length < 4 then (Except.error (Err.bufferUnderflow 4 bs.length), bs)
  else
    let n := leVal (bs.take 4)
    (Except.ok (if n < 2 ^ 31 then (n : Int) else (n : Int) - 2 ^ 32), bs.drop 4)

/-- `bool::read_from` (src/protocol.rs:170-175). -/
def readBool : RdM Bool := do
  let b ← readU8
  pure (b != 0)

/-- Little-endian bytes of `n` truncated to `k` bytes (the `put_uXX_le`
family; truncation models Rust's `as uXX` casts). -/
def leBytes (k n : Nat) : Bytes :=
  match k with
  | 0 => []
  | k + 1 => n % 256 :: leBytes k (n / 256)

def w8 (n : Nat) : Bytes := leBytes 1 n
def w16 (n : Nat) : Bytes := leBytes 2 n
def w32 (n : Nat) : Bytes := leBytes 4 n
def w64 (n : Nat) : Bytes := leBytes 8 n

/-- `i32::write_to`: two's complement, little-endian. -/
def wi32 (i : Int) : Bytes := w32 ((i % (2 ^ 32 : Int)).toNat)

/-- `bool::write_to` (src/protocol.rs:177-181). -/
def wbool (b : Bool) : Bytes := [if b then 1 else 0]

/-- Length of the UTF-8 sequence led by byte `b` (0 when `b` cannot lead a
sequence). -/
def utf8SeqLen (b : Nat) : Nat :=
  if b < 128 then 1
  else if 194 ≤ b ∧ b ≤ 223 then 2
  else if 224 ≤ b ∧ b ≤ 239 then 3
  else if 240 ≤ b ∧ b ≤ 244 then 4
  else 0

/-- Valid range of continuation byte number `idx` after lead byte `b`
(RFC 3629 ranges). -/
def utf8ContOk (b idx c : Nat) : Bool :=
  let lo := if idx = 1 ∧ b = 224 then 160 else if idx = 1 ∧ b = 240 then 144 else 128
  let hi := if idx = 1 ∧ b = 237 then 159 else if idx = 1 ∧ b = 244 then 143 else 191
  lo ≤ c && c ≤ hi

def validUtf8Fuel : Nat → Bytes → Bool
  | _, [] => true
  | 0, _ :: _ => false
  | fuel + 1, b :: rest =>
    let n := utf8SeqLen b
    if n = 0 then false
    else if rest.length + 1 < n then false
    else
      (List.range (n - 1)).all (fun i => utf8ContOk b (i + 1) (rest.getD i 0)) &&
        validUtf8Fuel fuel (rest.drop (n - 1))

/-- UTF-8 validity of a byte list (the check performed by Rust's
`String::from_utf8`). -/
def validUtf8 (bs : Bytes) : Bool := validUtf8Fuel bs.length bs

/-- `String::read_from` (src/protocol.rs:183-196): u32 length prefix, then
that many bytes, validated as UTF-8.  Note the length prefix is consumed
even when the body is short. -/
def readStr : RdM Bytes := do
  let len ← readU32
  fun bs =>
    if bs.length < len then (Except.error (Err.bufferUnderflow len bs.length), bs)
    else if validUtf8 (bs.take len) then (Except.ok (bs.take len), bs.drop len)
    else (Except.error Err.utf8, bs.drop len)

/-- `String::write_to` (src/protocol.rs:198-203). -/
def wstr (s : Bytes) : Bytes := w32 s.length ++ s

/-- IPv4 address as four octets a.b.c.d. -/
structure Ipv4 where
  a : Nat
  b : Nat
  c : Nat
  d : Nat
  deriving DecidableEq, Repr

/-- `Ipv4Addr::read_from` (src/protocol.rs:232-248): four bytes in
reverse order d, c, b, a. -/
def readIp : RdM Ipv4 := fun bs =>
  if bs.length < 4 then (Except.error (Err.bufferUnderflow 4 bs.length), bs)
  else
    match bs with
    | d :: c :: b :: a :: rest => (Except.ok ⟨a, b, c, d⟩, rest)
    | _ => (Except.error Err.panicked, bs)

/-- `Ipv4Addr::write_to` (src/protocol.rs:250-259). -/
def wip (ip : Ipv4) : Bytes := [ip.d, ip.c, ip.b, ip.a]

/-- `read_bytes` (src/protocol.rs:213-224): u32 length prefix + raw bytes. -/
def readBytesLen : RdM Bytes := do
  let len ← readU32
  fun bs =>
    if bs.length < len then (Except.error (Err.bufferUnderflow len bs.length), bs)
    else (Except.ok (bs.take len), bs.drop len)

/-- `copy_to_slice` of `n` bytes with no prior bound check (panics when
short, e.g. the picture bytes in `UserInfoResponse`). -/
def copyN (n : Nat) : RdM Bytes := fun bs =>
  if bs.length < n then (Except.error Err.panicked, bs)
  else (Except.ok (bs.take n), bs.drop n)

/-- `buf.chunk().to_vec()` followed by `advance`: grab every remaining
byte (used by the zlib-compressed peer messages). -/
def takeAll : RdM Bytes := fun bs => (Except.ok bs, [])

/-- `buf.has_remaining()`. -/
def hasRemaining : RdM Bool := fun bs => (Except.ok (!bs.isEmpty), bs)

/-- Read `n` items sequentially (the loop body of `read_list`). -/
def readN (n : Nat) (rd : RdM α) : RdM (List α) :=
  match n with
  | 0 => pure []
  | n + 1 => do
    let x ← rd
    let xs ← readN n rd
    pure (x :: xs)

/-- `read_list` (src/protocol.rs:295-306). -/
def readList (rd : RdM α) : RdM (List α) := do
  let count ← readU32
  readN count rd

/-- `write_list` (src/protocol.rs:309-318). -/
def wlist (w : α → Bytes) (xs : List α) : Bytes :=
  w32 xs.length ++ xs.foldr (fun x acc => w x ++ acc) []

-- Basic length/arithmetic facts about the writers.

theorem leBytes_length (k n : Nat) : (leBytes k n).length = k := by
  induction k generalizing n with
  | zero => rfl
  | succ k ih => simp [leBytes, ih]

theorem leVal_leBytes (k n : Nat) (h : n < 256 ^ k) : leVal (leBytes k n) = n := by
  induction k generalizing n with
  | zero => simp [leBytes, leVal]; omega
  | succ k ih =>
    have h2 : n / 256 < 256 ^ k := by
      rw [Nat.div_lt_iff_lt_mul (by norm_num)]
      calc n < 256 ^ (k + 1) := h
        _ = 256 ^ k * 256 := by ring
    simp [leBytes, leVal] at *
    rw [ih (n / 256) h2]
    omega

theorem take_append_of_length {l r : Bytes} {k : Nat} (h : l.length = k) :
    (l ++ r).take k = l := by
  subst h; simp

theorem drop_append_of_length {l r : Bytes} {k : Nat} (h : l.length = k) :
    (l ++ r).drop k = r := by
  subst h; simp

/-- Generic success lemma for the fixed-width readers. -/
theorem readU8_ok (n : Nat) (h : n < 256) (r : Bytes) :
    readU8 (w8 n ++ r) = (Except.ok n, r) := by
  have hl : (w8 n).length = 1 := leBytes_length 1 n
  simp only [readU8, List.length_append, hl]
  rw [if_neg (by omega), take_append_of_length hl, drop_append_of_length hl]
  simp only [w8]
  rw [leVal_leBytes 1 n (by simpa using h)]

theorem readU16_ok (n : Nat) (h : n < 2 ^ 16) (r : Bytes) :
    readU16 (w16 n ++ r) = (Except.ok n, r) := by
  have hl : (w16 n).length = 2 := leBytes_length 2 n
  simp only [readU16, List.length_append, hl]
  rw [if_neg (by omega), take_append_of_length hl, drop_append_of_length hl]
  simp only [w16]
  rw [leVal_leBytes 2 n (by norm_num at h ⊢; omega)]

theorem readU32_ok (n : Nat) (h : n < 2 ^ 32) (r : Bytes) :
    readU32 (w32 n ++ r) = (Except.ok n, r) := by
  have hl : (w32 n).length = 4 := leBytes_length 4 n
  simp only [readU32, List.length_append, hl]
  rw [if_neg (by omega), take_append_of_length hl, drop_append_of_length hl]
  simp only [w32]
  rw [leVal_leBytes 4 n (by norm_num at h ⊢; omega)]

theorem readU64_ok (n : Nat) (h : n < 2 ^ 64) (r : Bytes) :
    readU64 (w64 n ++ r) = (Except.ok n, r) := by
  have hl : (w64 n).length = 8 := leBytes_length 8 n
  simp only [readU64, List.length_append, hl]
  rw [if_neg (by omega), take_append_of_length hl, drop_append_of_length hl]
  simp only [w64]
  rw [leVal_leBytes 8 n (by norm_num at h ⊢; omega)]

theorem readI32_ok (i : Int) (h1 : -(2 ^ 31) ≤ i) (h2 : i < 2 ^ 31) (r : Bytes) :
    readI32 (wi32 i ++ r) = (Except.ok i, r) := by
  have hn : ((i % (2 ^ 32 : Int)).toNat) < 2 ^ 32 := by
    have := Int.emod_nonneg i (by norm_num : (2 ^ 32 : Int) ≠ 0)
    have := Int.emod_lt_of_pos i (by norm_num : (0 : Int) < 2 ^ 32)
    omega
  have hl : (wi32 i).length = 4 := leBytes_length 4 _
  simp only [readI32, wi32, List.length_append, hl] at *
  rw [if_neg (by omega), take_append_of_length hl, drop_append_of_length hl]
  simp only [w32]
  rw [leVal_leBytes 4 _ (by norm_num at hn ⊢; omega)]
  congr 1
  congr 1
  split <;> omega

theorem readBool_ok (b : Bool) (r : Bytes) :
    readBool (wbool b ++ r) = (Except.ok b, r) := by
  cases b <;>
    simp [readBool, wbool, RdM.bind_run, readU8_ok 0 (by norm_num),
      readU8_ok 1 (by norm_num), RdM.pure_run]
  · exact readU8_ok 0 (by norm_num) r ▸ rfl
  · exact readU8_ok 1 (by norm_num) r ▸ rfl

theorem readStr_ok (s : Bytes) (hv : validUtf8 s = true) (hl : s.length < 2 ^ 32)
    (r : Bytes) : readStr (wstr s ++ r) = (Except.ok s, r) := by
  simp only [readStr, wstr, List.append_assoc, RdM.bind_run,
    readU32_ok s.length hl]
  rw [if_neg (by simp)]
  rw [take_append_of_length rfl, drop_append_of_length rfl]
  simp [hv]

theorem readIp_ok (ip : Ipv4) (r : Bytes) :
    readIp (wip ip ++ r) = (Except.ok ip, r) := by
  simp [readIp, wip]

theorem readN_ok {α : Type} (rd : RdM α) (w : α → Bytes) (xs : List α)
    (hall : ∀ x ∈ xs, ∀ r, rd (w x ++ r) = (Except.ok x, r)) (r : Bytes) :
    readN xs.length rd (xs.foldr (fun x acc => w x ++ acc) [] ++ r) =
      (Except.ok xs, r) := by
  induction xs with
  | nil => simp [readN, RdM.pure_run]
  | cons x xs ih =>
    simp only [List.length_cons, List.foldr_cons, List.append_assoc, readN,
      RdM.bind_run, hall x (List.mem_cons_self x xs),
      ih (fun y hy => hall y (List.mem_cons_of_mem x hy)), RdM.pure_run]

theorem readList_ok {α : Type} (rd : RdM α) (w : α → Bytes) (xs : List α)
    (hall : ∀ x ∈ xs, ∀ r, rd (w x ++ r) = (Except.ok x, r))
    (hn : xs.length < 2 ^ 32) (r : Bytes) :
    readList rd (wlist w xs ++ r) = (Except.ok xs, r) := by
  simp only [readList, wlist, List.append_assoc, RdM.bind_run,
    readU32_ok xs.length hn]
  exact readN_ok rd w xs hall r

-- ----------------------------------------------------------------------
-- Frame probe (src/peer_init.rs:122-133)
-- ----------------------------------------------------------------------

/-- `peer_init_message_size` (src/peer_init.rs:122-133). -/
def peer_init_message_size (buf : Bytes) : Option Nat :=
  if buf.length < 4 then none
  else
    let msg_len := leVal (buf.take 4)
    let total := 4 + msg_len
    if buf.length ≥ total then some total else none

-- ----------------------------------------------------------------------
-- Search rate limiter (src/bin/tui/client.rs:30-100)
-- ----------------------------------------------------------------------

def SEARCH_RATE_LIMIT_MAX : Nat := 34

def SEARCH_RATE_LIMIT_WINDOW : Int := 220

/-- `SearchRateLimiter::prune_old_searches`: pop timestamps from the front
while they are older than `now - 220 s`.  The while-loop that pops the
front while it satisfies the condition is exactly `dropWhile`.  Time is
modelled in whole seconds as integers. -/
def prune_old_searches (now : Int) (l : List Int) : List Int :=
  l.dropWhile (fun ts => ts < now - SEARCH_RATE_LIMIT_WINDOW)

/-- `SearchRateLimiter::can_search`: prune, then compare against the cap.
(The Rust method also stores the pruned deque back into the limiter; only
the returned boolean and the pruned list matter here.) -/
def can_search (now : Int) (l : List Int) : Bool :=
  (prune_old_searches now l).length < SEARCH_RATE_LIMIT_MAX

/-- `SearchRateLimiter::record_search`: push the current instant at the
back of the deque. -/
def record_search (now : Int) (l : List Int) : List Int := l ++ [now]

theorem peer_init_message_size_eq (buf : Bytes) :
    peer_init_message_size buf =
      if buf.length < 4 then none
      else if buf.length ≥ 4 + leVal (buf.take 4) then
        some (4 + leVal (buf.take 4))
      else none := rfl

theorem dropWhile_sorted_eq_filter (c : Int) (l : List Int)
    (hs : l.Sorted (· ≤ ·)) :
    l.dropWhile (fun ts => ts < c) = l.filter (fun ts => c ≤ ts) := by
  induction l with
  | nil => rfl
  | cons a l ih =>
    rw [List.sorted_cons] at hs
    by_cases ha : a < c
    · rw [List.dropWhile_cons, if_pos (by simpa using ha), List.filter_cons,
        if_neg (by simp; omega)]
      exact ih hs.2
    · rw [List.dropWhile_cons, if_neg (by simpa using ha), List.filter_cons,
        if_pos (by simp; omega)]
      congr 1
      symm
      rw [List.filter_eq_self]
      intro t ht
      have := hs.1 t ht
      simp
      omega

/-- C3: `peer_init_message_size(b)` returns `Some n` exactly when the
buffer holds at least 4 bytes, `n` is 4 plus the little-endian u32
declared in the first four bytes, and at least `n` bytes are present; and
it returns `None` on every strict truncation of such a complete frame. -/
theorem C3_frame_probe (b : Bytes) :
    (∀ n, peer_init_message_size b = some n ↔
      (4 ≤ b.length ∧ n = 4 + leVal (b.take 4) ∧ n ≤ b.length)) ∧
    (∀ n, peer_init_message_size b = some n →
      ∀ k, k < n → peer_init_message_size (b.take k) = none) := by
  constructor
  · intro n
    rw [peer_init_message_size_eq]
    constructor
    · intro h
      split_ifs at h with h1 h2 <;> simp_all <;> omega
    · rintro ⟨h1, h2, h3⟩
      rw [if_neg (by omega), if_pos (by omega)]
      simp [h2]
  · intro n hn k hk
    rw [peer_init_message_size_eq] at hn
    have hmain : 4 ≤ b.length ∧ n = 4 + leVal (b.take 4) ∧ n ≤ b.length := by
      split_ifs at hn with h1 h2 <;> simp_all <;> omega
    obtain ⟨h1, h2, h3⟩ := hmain
    have hkl : (b.take k).length = k := by
      rw [List.length_take]; omega
    rw [peer_init_message_size_eq]
    by_cases hc : k < 4
    · rw [if_pos (by omega)]
    · rw [if_neg (by omega)]
      have : (b.take k).take 4 = b.take 4 := by
        rw [List.take_take]
        congr 1
        omega
      rw [this]
      rw [if_neg (by omega)]

/-- Witness for C3 at a concrete buffer. -/
theorem C3_witness :
    peer_init_message_size [2, 0, 0, 0, 9, 9] = some 6 ∧
    peer_init_message_size ([2, 0, 0, 0, 9, 9].take 5) = none := by
  constructor
  · exact ((C3_frame_probe [2, 0, 0, 0, 9, 9]).1 6).2 (by decide)
  · exact (C3_frame_probe [2, 0, 0, 0, 9, 9]).2 6 (by decide) 5 (by decide)

/-- C4: the search rate limiter.  (i) With 34 timestamps recorded, all
within one second of the oldest `t1`, `can_search` is false at every
instant before `t1 + 220 s`.  (ii) It is true again once every recorded
timestamp is older than 220 s.  (iii) For a chronologically sorted deque
(the invariant maintained by `record_search` under a monotone clock),
`can_search` equals: discard timestamps older than `now - 220 s`, then
test whether fewer than 34 remain. -/
theorem C4_rate_limiter :
    (∀ (t1 : Int) (ts : List Int) (now : Int),
      (t1 :: ts).length = SEARCH_RATE_LIMIT_MAX →
      (∀ t ∈ ts, t1 ≤ t ∧ t ≤ t1 + 1) →
      now < t1 + SEARCH_RATE_LIMIT_WINDOW →
      can_search now (t1 :: ts) = false) ∧
    (∀ (l : List Int) (now : Int),
      (∀ t ∈ l, t < now - SEARCH_RATE_LIMIT_WINDOW) →
      can_search now l = true) ∧
    (∀ (l : List Int) (now : Int), l.Sorted (· ≤ ·) →
      can_search now l =
        ((l.filter (fun t => now - SEARCH_RATE_LIMIT_WINDOW ≤ t)).length <
          SEARCH_RATE_LIMIT_MAX)) := by
  refine ⟨?_, ?_, ?_⟩
  · intro t1 ts now hlen hin hnow
    simp only [can_search, prune_old_searches, List.dropWhile_cons]
    rw [if_neg (by simp; omega)]
    simp only [hlen]
    decide
  · intro l now hall
    have hnil : l.dropWhile (fun ts => ts < now - SEARCH_RATE_LIMIT_WINDOW) = [] :=
      List.dropWhile_eq_nil_iff.mpr (fun x hx => by simpa using hall x hx)
    simp [can_search, prune_old_searches, hnil, SEARCH_RATE_LIMIT_MAX]
  · intro l now hs
    simp only [can_search, prune_old_searches,
      dropWhile_sorted_eq_filter _ l hs]
    simp

/-- Witness for C4 at concrete timestamp lists. -/
theorem C4_witness :
    can_search 100 (List.replicate 34 (0 : Int)) = false ∧
    can_search 1000 (List.replicate 34 (0 : Int)) = true ∧
    can_search 100 [0, 1] =
      (([0, 1].filter (fun t : Int => 100 - SEARCH_RATE_LIMIT_WINDOW ≤ t)).length <
        SEARCH_RATE_LIMIT_MAX) := by
  refine ⟨?_, ?_, ?_⟩
  · exact C4_rate_limiter.1 0 (List.replicate 33 (0 : Int)) 100 (by decide)
      (by decide) (by decide)
  · exact C4_rate_limiter.2.1 (List.replicate 34 (0 : Int)) 1000 (by decide)
  · exact C4_rate_limiter.2.2 [0, 1] 100 (by decide)

/-- C2 (amended): every fixed-width primitive read fails on a short buffer
with `BufferUnderflow{needed, available}` and leaves the cursor untouched;
`String::read_from` leaves the cursor untouched only when even the 4-byte
length prefix is short — once the prefix is readable it is consumed, and a
short body then fails with `BufferUnderflow{declared_len, remaining}` with
exactly those 4 prefix bytes consumed.  Reading a u32 from any 3-byte
buffer yields `BufferUnderflow{4,3}` with zero bytes consumed. -/
theorem C2_short_reads :
    (∀ bs : Bytes, bs.length < 1 →
      readU8 bs = (Except.error (Err.bufferUnderflow 1 bs.length), bs)) ∧
    (∀ bs : Bytes, bs.length < 2 →
      readU16 bs = (Except.error (Err.bufferUnderflow 2 bs.length), bs)) ∧
    (∀ bs : Bytes, bs.length < 4 →
      readU32 bs = (Except.error (Err.bufferUnderflow 4 bs.length), bs)) ∧
    (∀ bs : Bytes, bs.length < 8 →
      readU64 bs = (Except.error (Err.bufferUnderflow 8 bs.length), bs)) ∧
    (∀ bs : Bytes, bs.length < 4 →
      readI32 bs = (Except.error (Err.bufferUnderflow 4 bs.length), bs)) ∧
    (∀ bs : Bytes, bs.length < 1 →
      readBool bs = (Except.error (Err.bufferUnderflow 1 bs.length), bs)) ∧
    (∀ bs : Bytes, bs.length < 4 →
      readIp bs = (Except.error (Err.bufferUnderflow 4 bs.length), bs)) ∧
    (∀ bs : Bytes, bs.length < 4 →
      readStr bs = (Except.error (Err.bufferUnderflow 4 bs.length), bs)) ∧
    (∀ bs : Bytes, 4 ≤ bs.length → bs.length - 4 < leVal (bs.take 4) →
      readStr bs =
        (Except.error (Err.bufferUnderflow (leVal (bs.take 4)) (bs.length - 4)),
          bs.drop 4)) ∧
    (∀ b0 b1 b2 : Nat,
      readU32 [b0, b1, b2] = (Except.error (Err.bufferUnderflow 4 3), [b0, b1, b2])) := by
  refine ⟨?_, ?_, ?_, ?_, ?_, ?_, ?_, ?_, ?_, ?_⟩
  · intro bs h; simp [readU8, h]
  · intro bs h; simp [readU16, h]
  · intro bs h; simp [readU32, h]
  · intro bs h; simp [readU64, h]
  · intro bs h; simp [readI32, h]
  · intro bs h; simp [readBool, RdM.bind_run, readU8, h]
  · intro bs h; simp [readIp, h]
  · intro bs h; simp [readStr, RdM.bind_run, readU32, h]
  · intro bs h4 hshort
    simp only [readStr, RdM.bind_run, readU32]
    rw [if_neg (by omega)]
    simp only [List.length_drop]
    rw [if_pos (by omega)]
  · intro b0 b1 b2
    simp [readU32]

/-- Witness for C2 at concrete buffers. -/
theorem C2_witness :
    readU32 [1, 2, 3] = (Except.error (Err.bufferUnderflow 4 3), [1, 2, 3]) ∧
    readStr [2, 0, 0, 0, 65] = (Except.error (Err.bufferUnderflow 2 1), [65]) := by
  constructor
  · exact C2_short_reads.2.2.2.2.2.2.2.2.2 1 2 3
  · have h := C2_short_reads.2.2.2.2.2.2.2.2.1 [2, 0, 0, 0, 65]
      (by decide) (by decide)
    rw [h]
    rfl

/-- C2 counterexample: the claim says every short read consumes zero bytes,
but `String::read_from` on a buffer holding a complete length prefix and a
short body consumes the 4-byte prefix: the cursor is left at `[65]`, not at
the original buffer. -/
theorem C2_counterexample :
    readStr [2, 0, 0, 0, 65] = (Except.error (Err.bufferUnderflow 2 1), [65]) ∧
    ([65] : Bytes) ≠ [2, 0, 0, 0, 65] := by
  constructor
  · rfl
  · decide

-- ----------------------------------------------------------------------
-- Constants and enumerations (src/constants.rs)
-- ----------------------------------------------------------------------

/-- ASCII bytes of a string literal (helper for canonical protocol
strings). -/
def ascii (s : String) : Bytes := s.data.map Char.toNat

/-- Well-formedness of a protocol string: a Rust `String` is valid UTF-8
and its byte length must fit the u32 length prefix. -/
def StrWF (s : Bytes) : Prop := validUtf8 s = true ∧ s.length < 2 ^ 32

instance (s : Bytes) : Decidable (StrWF s) := by
  unfold StrWF; infer_instance

/-- `ConnectionType` (src/constants.rs:7-33). -/
inductive ConnectionType where
  | Peer
  | File
  | Distributed
  deriving DecidableEq, Repr

/-- `ConnectionType::as_str`. -/
def ConnectionType.asStr : ConnectionType → Bytes
  | .Peer => ascii "P"
  | .File => ascii "F"
  | .Distributed => ascii "D"

/-- `ConnectionType::parse`. -/
def ConnectionType.parse (s : Bytes) : Except Err ConnectionType :=
  if s = ascii "P" then Except.ok .Peer
  else if s = ascii "F" then Except.ok .File
  else if s = ascii "D" then Except.ok .Distributed
  else Except.error (Err.invalidConnectionType s)

theorem ConnectionType.parse_asStr (c : ConnectionType) :
    ConnectionType.parse c.asStr = Except.ok c := by
  cases c <;> rfl

theorem ConnectionType.asStr_wf (c : ConnectionType) : StrWF c.asStr := by
  cases c <;> exact ⟨by decide, by decide⟩

/-- `UserStatus` (src/constants.rs:38-62). -/
inductive UserStatus where
  | Offline
  | Away
  | Online
  deriving DecidableEq, Repr

def UserStatus.toNat : UserStatus → Nat
  | .Offline => 0
  | .Away => 1
  | .Online => 2

def UserStatus.tryFrom (v : Nat) : Except Err UserStatus :=
  if v = 0 then Except.ok .Offline
  else if v = 1 then Except.ok .Away
  else if v = 2 then Except.ok .Online
  else Except.error (Err.invalidUserStatus v)

theorem UserStatus.tryFrom_toNat (s : UserStatus) :
    UserStatus.tryFrom s.toNat = Except.ok s := by
  cases s <;> rfl

theorem UserStatus.toNat_lt (s : UserStatus) : s.toNat < 2 ^ 32 := by
  cases s <;> decide

/-- `UploadPermission` (src/constants.rs:67-90). -/
inductive UploadPermission where
  | NoOne
  | Everyone
  | UsersInList
  | PermittedUsers
  deriving DecidableEq, Repr

def UploadPermission.toNat : UploadPermission → Nat
  | .NoOne => 0
  | .Everyone => 1
  | .UsersInList => 2
  | .PermittedUsers => 3

def UploadPermission.tryFrom (v : Nat) : Except Err UploadPermission :=
  if v = 0 then Except.ok .NoOne
  else if v = 1 then Except.ok .Everyone
  else if v = 2 then Except.ok .UsersInList
  else if v = 3 then Except.ok .PermittedUsers
  else Except.error Err.uploadPermissionErr

theorem UploadPermission.tryFrom_toNat_perm (p : UploadPermission) :
    UploadPermission.tryFrom p.toNat = Except.ok p := by
  cases p <;> rfl

theorem UploadPermission.toNat_lt_perm (p : UploadPermission) : p.toNat < 2 ^ 32 := by
  cases p <;> decide

/-- `TransferDirection` (src/constants.rs:95-118). -/
inductive TransferDirection where
  | Download
  | Upload
  deriving DecidableEq, Repr

def TransferDirection.toNat : TransferDirection → Nat
  | .Download => 0
  | .Upload => 1

def TransferDirection.tryFrom (v : Nat) : Except Err TransferDirection :=
  if v = 0 then Except.ok .Download
  else if v = 1 then Except.ok .Upload
  else Except.error (Err.invalidTransferDirection v)

theorem TransferDirection.tryFrom_toNat_dir (d : TransferDirection) :
    TransferDirection.tryFrom d.toNat = Except.ok d := by
  cases d <;> rfl

theorem TransferDirection.toNat_lt_dir (d : TransferDirection) : d.toNat < 2 ^ 32 := by
  cases d <;> decide

/-- `ObfuscationType` (src/constants.rs:160-179). -/
inductive ObfuscationType where
  | NoObfuscation
  | Rotated
  deriving DecidableEq, Repr

def ObfuscationType.toNat : ObfuscationType → Nat
  | .NoObfuscation => 0
  | .Rotated => 1

def ObfuscationType.tryFrom (v : Nat) : Except Err ObfuscationType :=
  if v = 0 then Except.ok .NoObfuscation
  else if v = 1 then Except.ok .Rotated
  else Except.error Err.obfuscationErr

theorem ObfuscationType.tryFrom_toNat_obf (o : ObfuscationType) :
    ObfuscationType.tryFrom o.toNat = Except.ok o := by
  cases o <;> rfl

theorem ObfuscationType.toNat_lt_obf (o : ObfuscationType) : o.toNat < 2 ^ 32 := by
  cases o <;> decide

/-- `TransferRejectionReason` (src/constants.rs:183-226). -/
inductive TransferRejectionReason where
  | Banned
  | Cancelled
  | Complete
  | FileNotShared
  | FileReadError
  | PendingShutdown
  | Queued
  | TooManyFiles
  | TooManyMegabytes
  | Other (s : Bytes)
  deriving DecidableEq, Repr

def TransferRejectionReason.asStr : TransferRejectionReason → Bytes
  | .Banned => ascii "Banned"
  | .Cancelled => ascii "Cancelled"
  | .Complete => ascii "Complete"
  | .FileNotShared => ascii "File not shared."
  | .FileReadError => ascii "File read error."
  | .PendingShutdown => ascii "Pending shutdown."
  | .Queued => ascii "Queued"
  | .TooManyFiles => ascii "Too many files"
  | .TooManyMegabytes => ascii "Too many megabytes"
  | .Other s => s

def TransferRejectionReason.fromString (s : Bytes) : TransferRejectionReason :=
  if s = ascii "Banned" then .Banned
  else if s = ascii "Cancelled" then .Cancelled
  else if s = ascii "Complete" then .Complete
  else if s = ascii "File not shared." then .FileNotShared
  else if s = ascii "File read error." then .FileReadError
  else if s = ascii "Pending shutdown." then .PendingShutdown
  else if s = ascii "Queued" then .Queued
  else if s = ascii "Too many files" then .TooManyFiles
  else if s = ascii "Too many megabytes" then .TooManyMegabytes
  else .Other s

/-- Well-formed rejection reasons: the `Other` escape hatch may not shadow
a canonical string (otherwise encode/decode canonicalises it), and must be
a wire-representable string. -/
def TransferRejectionReason.WF : TransferRejectionReason → Prop
  | .Other s => StrWF s ∧ TransferRejectionReason.fromString s = .Other s
  | _ => True

instance (x : TransferRejectionReason) : Decidable x.WF := by
  cases x <;> (unfold TransferRejectionReason.WF; infer_instance)

theorem TransferRejectionReason.fromString_asStr (x : TransferRejectionReason)
    (h : x.WF) : TransferRejectionReason.fromString x.asStr = x := by
  cases x <;> first
    | rfl
    | exact h.2

theorem TransferRejectionReason.asStr_wf_rej (x : TransferRejectionReason)
    (h : x.WF) : StrWF x.asStr := by
  cases x <;> first
    | exact ⟨by decide, by decide⟩
    | exact h.1

/-- `LoginRejectionReason` (src/constants.rs:230-252). -/
inductive LoginRejectionReason where
  | InvalidUsername
  | EmptyPassword
  | InvalidPassword
  | InvalidVersion
  | ServerFull
  | ServerPrivate
  | Other (s : Bytes)
  deriving DecidableEq, Repr

def LoginRejectionReason.fromString (s : Bytes) : LoginRejectionReason :=
  if s = ascii "INVALIDUSERNAME" then .InvalidUsername
  else if s = ascii "EMPTYPASSWORD" then .EmptyPassword
  else if s = ascii "INVALIDPASS" then .InvalidPassword
  else if s = ascii "INVALIDVERSION" then .InvalidVersion
  else if s = ascii "SVRFULL" then .ServerFull
  else if s = ascii "SVRPRIVATE" then .ServerPrivate
  else .Other s

/-- The string written for a `LoginRejectionReason` by
`ServerResponse::LoginFailure::write_payload` (src/server.rs:1564-1577). -/
def LoginRejectionReason.wireStr : LoginRejectionReason → Bytes
  | .InvalidUsername => ascii "INVALIDUSERNAME"
  | .EmptyPassword => ascii "EMPTYPASSWORD"
  | .InvalidPassword => ascii "INVALIDPASS"
  | .InvalidVersion => ascii "INVALIDVERSION"
  | .ServerFull => ascii "SVRFULL"
  | .ServerPrivate => ascii "SVRPRIVATE"
  | .Other s => s

def LoginRejectionReason.WF : LoginRejectionReason → Prop
  | .Other s => StrWF s ∧ LoginRejectionReason.fromString s = .Other s
  | _ => True

instance (x : LoginRejectionReason) : Decidable x.WF := by
  cases x <;> (unfold LoginRejectionReason.WF; infer_instance)

theorem LoginRejectionReason.fromString_wireStr (x : LoginRejectionReason)
    (h : x.WF) : LoginRejectionReason.fromString x.wireStr = x := by
  cases x <;> first
    | rfl
    | exact h.2

theorem LoginRejectionReason.wireStr_wf (x : LoginRejectionReason)
    (h : x.WF) : StrWF x.wireStr := by
  cases x <;> first
    | exact ⟨by decide, by decide⟩
    | exact h.1

-- ----------------------------------------------------------------------
-- Peer data structures (src/peer.rs:66-171) and server helper structs
-- (src/server.rs:184-237)
-- ----------------------------------------------------------------------

/-- `FileAttribute` (src/peer.rs:68-85). -/
structure FileAttribute where
  code : Nat
  value : Nat
  deriving DecidableEq, Repr

def FileAttribute.WF (a : FileAttribute) : Prop :=
  a.code < 2 ^ 32 ∧ a.value < 2 ^ 32

instance (a : FileAttribute) : Decidable a.WF := by
  unfold FileAttribute.WF; infer_instance

def readFileAttribute : RdM FileAttribute := do
  let code ← readU32
  let value ← readU32
  pure ⟨code, value⟩

def wFileAttribute (a : FileAttribute) : Bytes := w32 a.code ++ w32 a.value

theorem readFileAttribute_ok (a : FileAttribute) (h : a.WF) (r : Bytes) :
    readFileAttribute (wFileAttribute a ++ r) = (Except.ok a, r) := by
  obtain ⟨c, v⟩ := a
  obtain ⟨h1, h2⟩ := h
  simp only [readFileAttribute, wFileAttribute, List.append_assoc, RdM.bind_run,
    readU32_ok _ h1, readU32_ok _ h2, RdM.pure_run]

/-- `SharedFile` (src/peer.rs:89-118). -/
structure SharedFile where
  filename : Bytes
  size : Nat
  extension : Bytes
  attributes : List FileAttribute
  deriving DecidableEq, Repr

def SharedFile.WF (f : SharedFile) : Prop :=
  StrWF f.filename ∧ f.size < 2 ^ 64 ∧ StrWF f.extension ∧
    f.attributes.length < 2 ^ 32 ∧ ∀ a ∈ f.attributes, a.WF

def readSharedFile : RdM SharedFile := do
  let _code ← readU8
  let filename ← readStr
  let size ← readU64
  let extension ← readStr
  let attributes ← readList readFileAttribute
  pure ⟨filename, size, extension, attributes⟩

def wSharedFile (f : SharedFile) : Bytes :=
  w8 1 ++ wstr f.filename ++ w64 f.size ++ wstr f.extension ++
    wlist wFileAttribute f.attributes

theorem readSharedFile_ok (f : SharedFile) (h : f.WF) (r : Bytes) :
    readSharedFile (wSharedFile f ++ r) = (Except.ok f, r) := by
  obtain ⟨fn, sz, ext, attrs⟩ := f
  obtain ⟨⟨hfn1, hfn2⟩, hsz, ⟨hext1, hext2⟩, hal, haw⟩ := h
  simp only [readSharedFile, wSharedFile, List.append_assoc, RdM.bind_run,
    readU8_ok 1 (by norm_num), readStr_ok fn hfn1 hfn2, readU64_ok _ hsz,
    readStr_ok ext hext1 hext2,
    readList_ok readFileAttribute wFileAttribute attrs
      (fun a ha r2 => readFileAttribute_ok a (haw a ha) r2) hal,
    RdM.pure_run]

/-- `SearchResultFile` (src/peer.rs:142-171); identical wire layout to
`SharedFile` but a distinct Rust type. -/
structure SearchResultFile where
  filename : Bytes
  size : Nat
  extension : Bytes
  attributes : List FileAttribute
  deriving DecidableEq, Repr

def SearchResultFile.WF (f : SearchResultFile) : Prop :=
  StrWF f.filename ∧ f.size < 2 ^ 64 ∧ StrWF f.extension ∧
    f.attributes.length < 2 ^ 32 ∧ ∀ a ∈ f.attributes, a.WF

def readSearchResultFile : RdM SearchResultFile := do
  let _code ← readU8
  let filename ← readStr
  let size ← readU64
  let extension ← readStr
  let attributes ← readList readFileAttribute
  pure ⟨filename, size, extension, attributes⟩

def wSearchResultFile (f : SearchResultFile) : Bytes :=
  w8 1 ++ wstr f.filename ++ w64 f.size ++ wstr f.extension ++
    wlist wFileAttribute f.attributes

theorem readSearchResultFile_ok (f : SearchResultFile) (h : f.WF) (r : Bytes) :
    readSearchResultFile (wSearchResultFile f ++ r) = (Except.ok f, r) := by
  obtain ⟨fn, sz, ext, attrs⟩ := f
  obtain ⟨⟨hfn1, hfn2⟩, hsz, ⟨hext1, hext2⟩, hal, haw⟩ := h
  simp only [readSearchResultFile, wSearchResultFile, List.append_assoc,
    RdM.bind_run, readU8_ok 1 (by norm_num), readStr_ok fn hfn1 hfn2,
    readU64_ok _ hsz, readStr_ok ext hext1 hext2,
    readList_ok readFileAttribute wFileAttribute attrs
      (fun a ha r2 => readFileAttribute_ok a (haw a ha) r2) hal,
    RdM.pure_run]

/-- `SharedDirectory` (src/peer.rs:121-138). -/
structure SharedDirectory where
  path : Bytes
  files : List SharedFile
  deriving DecidableEq, Repr

def SharedDirectory.WF (d : SharedDirectory) : Prop :=
  StrWF d.path ∧ d.files.length < 2 ^ 32 ∧ ∀ f ∈ d.files, f.WF

def readSharedDirectory : RdM SharedDirectory := do
  let path ← readStr
  let files ← readList readSharedFile
  pure ⟨path, files⟩

def wSharedDirectory (d : SharedDirectory) : Bytes :=
  wstr d.path ++ wlist wSharedFile d.files

theorem readSharedDirectory_ok (d : SharedDirectory) (h : d.WF) (r : Bytes) :
    readSharedDirectory (wSharedDirectory d ++ r) = (Except.ok d, r) := by
  obtain ⟨p, fs⟩ := d
  obtain ⟨⟨hp1, hp2⟩, hfl, hfw⟩ := h
  simp only [readSharedDirectory, wSharedDirectory, List.append_assoc,
    RdM.bind_run, readStr_ok p hp1 hp2,
    readList_ok readSharedFile wSharedFile fs
      (fun f hf r2 => readSharedFile_ok f (hfw f hf) r2) hfl,
    RdM.pure_run]

/-- `UserStats` (src/server.rs:186-212). -/
structure UserStats where
  avgSpeed : Nat
  uploadNum : Nat
  unknown : Nat
  files : Nat
  dirs : Nat
  deriving DecidableEq, Repr

def UserStats.WF (s : UserStats) : Prop :=
  s.avgSpeed < 2 ^ 32 ∧ s.uploadNum < 2 ^ 32 ∧ s.unknown < 2 ^ 32 ∧
    s.files < 2 ^ 32 ∧ s.dirs < 2 ^ 32

instance (s : UserStats) : Decidable s.WF := by
  unfold UserStats.WF; infer_instance

def readUserStats : RdM UserStats := do
  let avgSpeed ← readU32
  let uploadNum ← readU32
  let unknown ← readU32
  let files ← readU32
  let dirs ← readU32
  pure ⟨avgSpeed, uploadNum, unknown, files, dirs⟩

def wUserStats (s : UserStats) : Bytes :=
  w32 s.avgSpeed ++ w32 s.uploadNum ++ w32 s.unknown ++ w32 s.files ++ w32 s.dirs

theorem readUserStats_ok (s : UserStats) (h : s.WF) (r : Bytes) :
    readUserStats (wUserStats s ++ r) = (Except.ok s, r) := by
  obtain ⟨a, b, c, d, e⟩ := s
  obtain ⟨h1, h2, h3, h4, h5⟩ := h
  simp only [readUserStats, wUserStats, List.append_assoc, RdM.bind_run,
    readU32_ok _ h1, readU32_ok _ h2, readU32_ok _ h3, readU32_ok _ h4,
    readU32_ok _ h5, RdM.pure_run]

/-- `RoomUser` (src/server.rs:216-222). -/
structure RoomUser where
  username : Bytes
  status : UserStatus
  stats : UserStats
  slotsFull : Bool
  countryCode : Bytes
  deriving DecidableEq, Repr

def RoomUser.WF (u : RoomUser) : Prop :=
  StrWF u.username ∧ u.stats.WF ∧ StrWF u.countryCode

/-- `PossibleParent` (src/server.rs:226-230). -/
structure PossibleParent where
  username : Bytes
  ip : Ipv4
  port : Nat
  deriving DecidableEq, Repr

def PossibleParent.WF (p : PossibleParent) : Prop :=
  StrWF p.username ∧ p.ip.a < 256 ∧ p.ip.b < 256 ∧ p.ip.c < 256 ∧
    p.ip.d < 256 ∧ p.port < 2 ^ 32

/-- The per-item closure in `ServerCode::PossibleParents` read
(src/server.rs:1061-1068). -/
def readPossibleParent : RdM PossibleParent := do
  let username ← readStr
  let ip ← readIp
  let port ← readU32
  pure ⟨username, ip, port⟩

def wPossibleParent (p : PossibleParent) : Bytes :=
  wstr p.username ++ wip p.ip ++ w32 p.port

theorem readPossibleParent_ok (p : PossibleParent) (h : p.WF) (r : Bytes) :
    readPossibleParent (wPossibleParent p ++ r) = (Except.ok p, r) := by
  obtain ⟨u, ip, port⟩ := p
  obtain ⟨⟨hu1, hu2⟩, _, _, _, _, hport⟩ := h
  simp only [readPossibleParent, wPossibleParent, List.append_assoc,
    RdM.bind_run, readStr_ok u hu1 hu2, readIp_ok ip, readU32_ok _ hport,
    RdM.pure_run]

/-- `RoomTicker` (src/server.rs:234-237). -/
structure RoomTicker where
  username : Bytes
  ticker : Bytes
  deriving DecidableEq, Repr

def RoomTicker.WF (t : RoomTicker) : Prop := StrWF t.username ∧ StrWF t.ticker

/-- The per-item closure in `ServerCode::RoomTickerState` read
(src/server.rs:1101-1105). -/
def readRoomTicker : RdM RoomTicker := do
  let username ← readStr
  let ticker ← readStr
  pure ⟨username, ticker⟩

def wRoomTicker (t : RoomTicker) : Bytes := wstr t.username ++ wstr t.ticker

theorem readRoomTicker_ok (t : RoomTicker) (h : t.WF) (r : Bytes) :
    readRoomTicker (wRoomTicker t ++ r) = (Except.ok t, r) := by
  obtain ⟨u, tk⟩ := t
  obtain ⟨⟨hu1, hu2⟩, ⟨ht1, ht2⟩⟩ := h
  simp only [readRoomTicker, wRoomTicker, List.append_assoc, RdM.bind_run,
    readStr_ok u hu1 hu2, readStr_ok tk ht1 ht2, RdM.pure_run]

/-- The string/i32 pair closure used by the recommendation lists
(src/server.rs:971-980). -/
def readNameCount : RdM (Bytes × Int) := do
  let name ← readStr
  let count ← readI32
  pure (name, count)

def wNameCount (p : Bytes × Int) : Bytes := wstr p.1 ++ wi32 p.2

def NameCountWF (p : Bytes × Int) : Prop :=
  StrWF p.1 ∧ -(2 ^ 31) ≤ p.2 ∧ p.2 < 2 ^ 31

theorem readNameCount_ok (p : Bytes × Int) (h : NameCountWF p) (r : Bytes) :
    readNameCount (wNameCount p ++ r) = (Except.ok p, r) := by
  obtain ⟨n, c⟩ := p
  obtain ⟨⟨h1, h2⟩, h3, h4⟩ := h
  simp only [readNameCount, wNameCount, List.append_assoc, RdM.bind_run,
    readStr_ok n h1 h2, readI32_ok c h3 h4, RdM.pure_run]

/-- The string/u32 pair closure used by `SimilarUsers` and the room lists
(src/server.rs:1013-1024, 1075-1079). -/
def readNameVal : RdM (Bytes × Nat) := do
  let name ← readStr
  let v ← readU32
  pure (name, v)

def wNameVal (p : Bytes × Nat) : Bytes := wstr p.1 ++ w32 p.2

def NameValWF (p : Bytes × Nat) : Prop := StrWF p.1 ∧ p.2 < 2 ^ 32

theorem readNameVal_ok (p : Bytes × Nat) (h : NameValWF p) (r : Bytes) :
    readNameVal (wNameVal p ++ r) = (Except.ok p, r) := by
  obtain ⟨n, v⟩ := p
  obtain ⟨⟨h1, h2⟩, h3⟩ := h
  simp only [readNameVal, wNameVal, List.append_assoc, RdM.bind_run,
    readStr_ok n h1 h2, readU32_ok _ h3, RdM.pure_run]

-- ----------------------------------------------------------------------
-- Message-level infrastructure
-- ----------------------------------------------------------------------

/-- Raise a codec error without consuming anything further. -/
def throwRd (e : Err) : RdM α := fun bs => (Except.error e, bs)

/-- Run a nested parse on a separate buffer (the fresh cursor over a
decompressed payload); leftovers of the inner cursor are discarded and the
outer cursor is untouched. -/
def subParse (inner : RdM α) (data : Bytes) : RdM α := fun bs =>
  ((inner data).1, bs)

/-- Reading a u32 whose value is ignored (the `_len` frame prefix) always
succeeds on a 4-byte writer output, whatever the original number was. -/
theorem readU32_skip (n : Nat) (r : Bytes) :
    readU32 (w32 n ++ r) = (Except.ok (leVal (w32 n)), r) := by
  have hl : (w32 n).length = 4 := leBytes_length 4 n
  simp only [readU32, List.length_append, hl]
  rw [if_neg (by omega), take_append_of_length hl, drop_append_of_length hl]

theorem copyN_ok (l r : Bytes) : copyN l.length (l ++ r) = (Except.ok l, r) := by
  simp only [copyN, List.length_append]
  rw [if_neg (by omega), take_append_of_length rfl, drop_append_of_length rfl]

theorem takeAll_run (bs : Bytes) : takeAll bs = (Except.ok bs, []) := rfl

theorem hasRemaining_run (bs : Bytes) :
    hasRemaining bs = (Except.ok (!bs.isEmpty), bs) := rfl

theorem wstr_ne_nil (s : Bytes) (r : Bytes) : ((wstr s ++ r).isEmpty) = false := by
  simp [wstr, w32, leBytes]

theorem w32_append_ne_nil (n : Nat) (r : Bytes) : ((w32 n ++ r).isEmpty) = false := by
  simp [w32, leBytes]

theorem w64_append_ne_nil (n : Nat) (r : Bytes) : ((w64 n ++ r).isEmpty) = false := by
  simp [w64, leBytes]

-- Exact-buffer variants of the primitive read lemmas (the buffer ends at
-- the field).

theorem readU8_okE (n : Nat) (h : n < 256) :
    readU8 (w8 n) = (Except.ok n, []) := by
  have := readU8_ok n h []
  simpa using this

theorem readU16_okE (n : Nat) (h : n < 2 ^ 16) :
    readU16 (w16 n) = (Except.ok n, []) := by
  have := readU16_ok n h []
  simpa using this

theorem readU32_okE (n : Nat) (h : n < 2 ^ 32) :
    readU32 (w32 n) = (Except.ok n, []) := by
  have := readU32_ok n h []
  simpa using this

theorem readU64_okE (n : Nat) (h : n < 2 ^ 64) :
    readU64 (w64 n) = (Except.ok n, []) := by
  have := readU64_ok n h []
  simpa using this

theorem readI32_okE (i : Int) (h1 : -(2 ^ 31) ≤ i) (h2 : i < 2 ^ 31) :
    readI32 (wi32 i) = (Except.ok i, []) := by
  have := readI32_ok i h1 h2 []
  simpa using this

theorem readBool_okE (b : Bool) : readBool (wbool b) = (Except.ok b, []) := by
  have := readBool_ok b []
  simpa using this

theorem readI32_status_okE (s : UserStatus) :
    readI32 (wi32 (s.toNat : Int)) = (Except.ok ((s.toNat : Int)), []) := by
  cases s <;> exact readI32_okE _ (by decide) (by decide)

theorem status_emod_toNat (s : UserStatus) :
    ((s.toNat : Int) % (2 ^ 32 : Int)).toNat = s.toNat := by
  cases s <;> rfl

theorem status_emod_toNat_lit (s : UserStatus) :
    ((s.toNat : Int) % (4294967296 : Int)).toNat = s.toNat := by
  cases s <;> rfl

theorem readStr_okE (s : Bytes) (hv : validUtf8 s = true) (hl : s.length < 2 ^ 32) :
    readStr (wstr s) = (Except.ok s, []) := by
  have := readStr_ok s hv hl []
  simpa using this

theorem readIp_okE (ip : Ipv4) : readIp (wip ip) = (Except.ok ip, []) := by
  have := readIp_ok ip []
  simpa using this

theorem readList_okE {α : Type} (rd : RdM α) (w : α → Bytes) (xs : List α)
    (hall : ∀ x ∈ xs, ∀ r, rd (w x ++ r) = (Except.ok x, r))
    (hn : xs.length < 2 ^ 32) :
    readList rd (wlist w xs) = (Except.ok xs, []) := by
  have := readList_ok rd w xs hall hn []
  simpa using this

-- ----------------------------------------------------------------------
-- Peer init messages (src/peer_init.rs)
-- ----------------------------------------------------------------------

/-- `PeerInitMessage` (src/peer_init.rs:39-50). -/
inductive PeerInitMessage where
  | PierceFirewall (token : Nat)
  | PeerInit (username : Bytes) (connectionType : ConnectionType) (token : Nat)
  deriving DecidableEq, Repr

/-- `PeerInitMessage::code` as a u8 value (src/peer_init.rs:55-60). -/
def PeerInitMessage.codeVal : PeerInitMessage → Nat
  | .PierceFirewall _ => 0
  | .PeerInit _ _ _ => 1

/-- `PeerInitMessage::write_payload` (src/peer_init.rs:62-77). -/
def wPeerInitPayload : PeerInitMessage → Bytes
  | .PierceFirewall token => w32 token
  | .PeerInit username connectionType token =>
      wstr username ++ wstr connectionType.asStr ++ w32 token

/-- `write_message_u8` (src/protocol.rs:63-75): u32 length of code+payload,
u8 code, payload. -/
def wPeerInitMessage (m : PeerInitMessage) : Bytes :=
  w32 (1 + (wPeerInitPayload m).length) ++ w8 m.codeVal ++ wPeerInitPayload m

/-- `PeerInitMessage::read_with_code` (src/peer_init.rs:83-101), with the
`PeerInitCode::try_from` dispatch of `read_peer_init_message` inlined as
the same match on the u8 value. -/
def readPeerInitWithCode (code : Nat) : RdM PeerInitMessage :=
  if code = 0 then do
    let token ← readU32
    pure (.PierceFirewall token)
  else if code = 1 then do
    let username ← readStr
    let connTypeStr ← readStr
    match ConnectionType.parse connTypeStr with
    | Except.error e => throwRd e
    | Except.ok connectionType => do
      let token ← readU32
      pure (.PeerInit username connectionType token)
  else throwRd (Err.invalidPeerInitCode code)

/-- `read_peer_init_message` (src/peer_init.rs:105-109). -/
def readPeerInitMessage : RdM PeerInitMessage := do
  let _len ← readU32
  let code ← readU8
  readPeerInitWithCode code

/-- Well-formed peer init messages. -/
def PeerInitMessage.WF : PeerInitMessage → Prop
  | .PierceFirewall token => token < 2 ^ 32
  | .PeerInit username _ token => StrWF username ∧ token < 2 ^ 32

instance (m : PeerInitMessage) : Decidable m.WF := by
  cases m <;> (unfold PeerInitMessage.WF; infer_instance)

theorem readPeerInitMessage_ok (m : PeerInitMessage) (h : m.WF) (r : Bytes) :
    readPeerInitMessage (wPeerInitMessage m ++ r) = (Except.ok m, r) := by
  cases m with
  | PierceFirewall token =>
    simp [readPeerInitMessage, wPeerInitMessage, wPeerInitPayload,
      PeerInitMessage.codeVal, List.append_assoc, RdM.bind_run, readU32_skip,
      readU8_ok 0 (by norm_num), readPeerInitWithCode,
      readU32_ok token h, RdM.pure_run]
  | PeerInit username connectionType token =>
    obtain ⟨⟨hu1, hu2⟩, ht⟩ := h
    have hcs := ConnectionType.asStr_wf connectionType
    simp [readPeerInitMessage, wPeerInitMessage, wPeerInitPayload,
      PeerInitMessage.codeVal, List.append_assoc, RdM.bind_run, readU32_skip,
      readU8_ok 1 (by norm_num), readPeerInitWithCode,
      readStr_ok username hu1 hu2,
      readStr_ok connectionType.asStr hcs.1 hcs.2,
      ConnectionType.parse_asStr, readU32_ok token ht, RdM.pure_run]

-- ----------------------------------------------------------------------
-- Distributed messages (src/distributed.rs)
-- ----------------------------------------------------------------------

/-- `DistributedMessage` (src/distributed.rs:46-69). -/
inductive DistributedMessage where
  | Ping
  | Search (unknown : Nat) (username : Bytes) (token : Nat) (query : Bytes)
  | BranchLevel (level : Int)
  | BranchRoot (root : Bytes)
  | ChildDepth (depth : Nat)
  | EmbeddedMessage (code : Nat) (data : Bytes)
  deriving DecidableEq, Repr

/-- `DistributedMessage::code` as a u8 value (src/distributed.rs:74-83). -/
def DistributedMessage.codeVal : DistributedMessage → Nat
  | .Ping => 0
  | .Search _ _ _ _ => 3
  | .BranchLevel _ => 4
  | .BranchRoot _ => 5
  | .ChildDepth _ => 7
  | .EmbeddedMessage _ _ => 93

/-- `DistributedMessage::write_payload` (src/distributed.rs:85-113). -/
def wDistributedPayload : DistributedMessage → Bytes
  | .Ping => []
  | .Search unknown username token query =>
      w32 unknown ++ wstr username ++ w32 token ++ wstr query
  | .BranchLevel level => wi32 level
  | .BranchRoot root => wstr root
  | .ChildDepth depth => w32 depth
  | .EmbeddedMessage code data => w8 code ++ data

def wDistributedMessage (m : DistributedMessage) : Bytes :=
  w32 (1 + (wDistributedPayload m).length) ++ w8 m.codeVal ++
    wDistributedPayload m

/-- `DistributedMessage::read_with_code` (src/distributed.rs:119-156) with
the `DistributedCode::try_from` dispatch inlined on the u8 value. -/
def readDistributedWithCode (code : Nat) : RdM DistributedMessage :=
  if code = 0 then pure .Ping
  else if code = 3 then do
    let unknown ← readU32
    let username ← readStr
    let token ← readU32
    let query ← readStr
    pure (.Search unknown username token query)
  else if code = 4 then do
    let level ← readI32
    pure (.BranchLevel level)
  else if code = 5 then do
    let root ← readStr
    pure (.BranchRoot root)
  else if code = 7 then do
    let depth ← readU32
    pure (.ChildDepth depth)
  else if code = 93 then do
    let innerCode ← readU8
    let data ← takeAll
    pure (.EmbeddedMessage innerCode data)
  else throwRd (Err.invalidDistributedCode code)

/-- `read_distributed_message` (src/distributed.rs:160-164). -/
def readDistributedMessage : RdM DistributedMessage := do
  let _len ← readU32
  let code ← readU8
  readDistributedWithCode code

/-- Well-formed distributed messages. -/
def DistributedMessage.WF : DistributedMessage → Prop
  | .Ping => True
  | .Search unknown username token query =>
      unknown < 2 ^ 32 ∧ StrWF username ∧ token < 2 ^ 32 ∧ StrWF query
  | .BranchLevel level => -(2 ^ 31) ≤ level ∧ level < 2 ^ 31
  | .BranchRoot root => StrWF root
  | .ChildDepth depth => depth < 2 ^ 32
  | .EmbeddedMessage code _ => code < 256

instance (m : DistributedMessage) : Decidable m.WF := by
  cases m <;> (unfold DistributedMessage.WF; infer_instance)

theorem readDistributedMessage_ok (m : DistributedMessage) (h : m.WF) :
    readDistributedMessage (wDistributedMessage m) = (Except.ok m, []) := by
  cases m with
  | Ping =>
    simp [readDistributedMessage, wDistributedMessage, wDistributedPayload,
      DistributedMessage.codeVal, List.append_nil, RdM.bind_run, readU32_skip,
      readU8_okE 0 (by norm_num), readDistributedWithCode, RdM.pure_run]
  | Search unknown username token query =>
    obtain ⟨hu, ⟨hn1, hn2⟩, ht, ⟨hq1, hq2⟩⟩ := h
    simp [readDistributedMessage, wDistributedMessage, wDistributedPayload,
      DistributedMessage.codeVal, List.append_assoc, RdM.bind_run, readU32_skip,
      readU8_ok 3 (by norm_num), readDistributedWithCode,
      readU32_ok unknown hu, readStr_ok username hn1 hn2,
      readU32_ok token ht, readStr_okE query hq1 hq2, RdM.pure_run]
  | BranchLevel level =>
    obtain ⟨h1, h2⟩ := h
    simp [readDistributedMessage, wDistributedMessage, wDistributedPayload,
      DistributedMessage.codeVal, List.append_assoc, RdM.bind_run, readU32_skip,
      readU8_ok 4 (by norm_num), readDistributedWithCode,
      readI32_okE level h1 h2, RdM.pure_run]
  | BranchRoot root =>
    obtain ⟨h1, h2⟩ := h
    simp [readDistributedMessage, wDistributedMessage, wDistributedPayload,
      DistributedMessage.codeVal, List.append_assoc, RdM.bind_run, readU32_skip,
      readU8_ok 5 (by norm_num), readDistributedWithCode,
      readStr_okE root h1 h2, RdM.pure_run]
  | ChildDepth depth =>
    simp [readDistributedMessage, wDistributedMessage, wDistributedPayload,
      DistributedMessage.codeVal, List.append_assoc, RdM.bind_run, readU32_skip,
      readU8_ok 7 (by norm_num), readDistributedWithCode,
      readU32_okE depth h, RdM.pure_run]
  | EmbeddedMessage code data =>
    simp [readDistributedMessage, wDistributedMessage, wDistributedPayload,
      DistributedMessage.codeVal, List.append_assoc, RdM.bind_run, readU32_skip,
      readU8_ok 93 (by norm_num), readDistributedWithCode,
      readU8_ok code h, takeAll_run, RdM.pure_run]

theorem w32_isEmpty (n : Nat) : (w32 n).isEmpty = false := by
  simp [w32, leBytes]

theorem w64_isEmpty (n : Nat) : (w64 n).isEmpty = false := by
  simp [w64, leBytes]

theorem wstr_isEmpty (s : Bytes) : (wstr s).isEmpty = false := by
  simp [wstr, w32, leBytes]

theorem wlist_isEmpty {α : Type} (w : α → Bytes) (xs : List α) :
    (wlist w xs).isEmpty = false := by
  simp [wlist, w32, leBytes]

theorem wlist_append_isEmpty {α : Type} (w : α → Bytes) (xs : List α) (r : Bytes) :
    ((wlist w xs) ++ r).isEmpty = false := by
  simp [wlist, w32, leBytes]

theorem wstr_nonnil (s : Bytes) : ¬(wstr s = []) := by
  have := wstr_isEmpty s
  simpa [List.isEmpty_iff] using this

-- Within the next section the byte-level writers are only handled through
-- the lemmas above, never by unfolding; blocking their delta-reduction keeps
-- the elaborator from symbolically evaluating length digits during
-- unification.
section
attribute [local irreducible] leBytes w32 wstr wUserStats

/-- Abstract model of the zlib codec provided by the external `flate2`
crate (src/protocol.rs:262-285); the library itself is outside this
repository, so it is modelled as an arbitrary compress/decompress pair.
All compression results in this development are stated relative to a pair
satisfying `Roundtrip`. -/
structure ZlibModel where
  compress : Bytes → Bytes
  decompress : Bytes → Except Err Bytes

def ZlibModel.Roundtrip (Z : ZlibModel) : Prop :=
  ∀ bs, Z.decompress (Z.compress bs) = Except.ok bs

/-- The identity codec: a concrete pair satisfying `Roundtrip`, used by the
witnesses. -/
def idZlib : ZlibModel := ⟨fun bs => bs, fun bs => Except.ok bs⟩

theorem idZlib_roundtrip : idZlib.Roundtrip := fun _ => rfl

-- ----------------------------------------------------------------------
-- Peer messages (src/peer.rs)
-- ----------------------------------------------------------------------

/-- `PeerMessage` (src/peer.rs:175-255). -/
inductive PeerMessage where
  | SharedFileListRequest
  | SharedFileListResponse (directories privateDirectories : List SharedDirectory)
  | FileSearchResponse (username : Bytes) (token : Nat)
      (results : List SearchResultFile) (slotFree : Bool) (avgSpeed : Nat)
      (queueLength : Nat) (privateResults : List SearchResultFile)
  | UserInfoRequest
  | UserInfoResponse (description : Bytes) (picture : Option Bytes)
      (totalUploads : Nat) (queueSize : Nat) (slotsFree : Bool)
      (uploadPermitted : Option UploadPermission)
  | FolderContentsRequest (token : Nat) (folder : Bytes)
  | FolderContentsResponse (token : Nat) (folder : Bytes)
      (directories : List SharedDirectory)
  | TransferRequest (direction : TransferDirection) (token : Nat)
      (filename : Bytes) (fileSize : Option Nat)
  | TransferResponse (token : Nat) (allowed : Bool) (fileSize : Option Nat)
      (reason : Option TransferRejectionReason)
  | QueueUpload (filename : Bytes)
  | PlaceInQueueResponse (filename : Bytes) (place : Nat)
  | UploadFailed (filename : Bytes)
  | UploadDenied (filename : Bytes) (reason : TransferRejectionReason)
  | PlaceInQueueRequest (filename : Bytes)
  | UploadQueueNotification
  deriving DecidableEq, Repr

/-- `PeerMessage::code` as the u32 wire value (src/peer.rs:17-33,
260-278). -/
def PeerMessage.codeVal : PeerMessage → Nat
  | .SharedFileListRequest => 4
  | .SharedFileListResponse _ _ => 5
  | .FileSearchResponse _ _ _ _ _ _ _ => 9
  | .UserInfoRequest => 15
  | .UserInfoResponse _ _ _ _ _ _ => 16
  | .FolderContentsRequest _ _ => 36
  | .FolderContentsResponse _ _ _ => 37
  | .TransferRequest _ _ _ _ => 40
  | .TransferResponse _ _ _ _ => 41
  | .QueueUpload _ => 43
  | .PlaceInQueueResponse _ _ => 44
  | .UploadFailed _ => 46
  | .UploadDenied _ _ => 50
  | .PlaceInQueueRequest _ => 51
  | .UploadQueueNotification => 52

/-- `PeerMessage::write_payload` (src/peer.rs:280-406). -/
def wPeerPayload (Z : ZlibModel) : PeerMessage → Bytes
  | .SharedFileListRequest => []
  | .SharedFileListResponse directories privateDirectories =>
      Z.compress (wlist wSharedDirectory directories ++ w32 0 ++
        wlist wSharedDirectory privateDirectories)
  | .FileSearchResponse username token results slotFree avgSpeed queueLength
      privateResults =>
      Z.compress (wstr username ++ w32 token ++
        wlist wSearchResultFile results ++ wbool slotFree ++ w32 avgSpeed ++
        w32 queueLength ++ w32 0 ++ wlist wSearchResultFile privateResults)
  | .UserInfoRequest => []
  | .UserInfoResponse description picture totalUploads queueSize slotsFree
      uploadPermitted =>
      wstr description ++
        (match picture with
          | some pic => wbool true ++ w32 pic.length ++ pic
          | none => wbool false) ++
        w32 totalUploads ++ w32 queueSize ++ wbool slotsFree ++
        (match uploadPermitted with
          | some p => w32 p.toNat
          | none => [])
  | .FolderContentsRequest token folder => w32 token ++ wstr folder
  | .FolderContentsResponse token folder directories =>
      Z.compress (w32 token ++ wstr folder ++ wlist wSharedDirectory directories)
  | .TransferRequest direction token filename fileSize =>
      w32 direction.toNat ++ w32 token ++ wstr filename ++
        (match fileSize with
          | some s => w64 s
          | none => [])
  | .TransferResponse token allowed fileSize reason =>
      w32 token ++ wbool allowed ++
        (if allowed then
          match fileSize with
          | some s => w64 s
          | none => []
        else
          match reason with
          | some rs => wstr rs.asStr
          | none => [])
  | .QueueUpload filename => wstr filename
  | .PlaceInQueueResponse filename place => wstr filename ++ w32 place
  | .UploadFailed filename => wstr filename
  | .UploadDenied filename reason => wstr filename ++ wstr reason.asStr
  | .PlaceInQueueRequest filename => wstr filename
  | .UploadQueueNotification => []

/-- `write_message` (src/protocol.rs:48-60): u32 length of code+payload,
u32 code, payload. -/
def wPeerMessage (Z : ZlibModel) (m : PeerMessage) : Bytes :=
  w32 (4 + (wPeerPayload Z m).length) ++ w32 m.codeVal ++ wPeerPayload Z m

/-- `PeerMessage::read_with_code` (src/peer.rs:412-581), dispatching on the
u32 code value (the `PeerCode::try_from` of `read_peer_message` inlined). -/
def rdPeerC4 : RdM PeerMessage :=
  pure .SharedFileListRequest

def rdPeerC5 (Z : ZlibModel) : RdM PeerMessage :=
  do
    let compressed ← takeAll
    match Z.decompress compressed with
    | Except.error e => throwRd e
    | Except.ok dec =>
      subParse (do
        let directories ← readList readSharedDirectory
        let _unknown ← readU32
        let hr ← hasRemaining
        let privateDirectories ←
          if hr then readList readSharedDirectory else pure []
        pure (PeerMessage.SharedFileListResponse directories
          privateDirectories)) dec

def rdPeerC9 (Z : ZlibModel) : RdM PeerMessage :=
  do
    let compressed ← takeAll
    match Z.decompress compressed with
    | Except.error e => throwRd e
    | Except.ok dec =>
      subParse (do
        let username ← readStr
        let token ← readU32
        let results ← readList readSearchResultFile
        let slotFree ← readBool
        let avgSpeed ← readU32
        let queueLength ← readU32
        let _unknown ← readU32
        let hr ← hasRemaining
        let privateResults ←
          if hr then readList readSearchResultFile else pure []
        pure (PeerMessage.FileSearchResponse username token results slotFree
          avgSpeed queueLength privateResults)) dec

def rdPeerC15 : RdM PeerMessage :=
  pure .UserInfoRequest

def rdPeerC16 : RdM PeerMessage :=
  do
    let description ← readStr
    let hasPicture ← readBool
    let picture ←
      if hasPicture then do
        let len ← readU32
        let pic ← copyN len
        pure (some pic)
      else pure none
    let totalUploads ← readU32
    let queueSize ← readU32
    let slotsFree ← readBool
    let hr ← hasRemaining
    let uploadPermitted ←
      if hr then do
        let v ← readU32
        match UploadPermission.tryFrom v with
        | Except.error e => throwRd e
        | Except.ok p => pure (some p)
      else pure none
    pure (.UserInfoResponse description picture totalUploads queueSize
      slotsFree uploadPermitted)

def rdPeerC36 : RdM PeerMessage :=
  do
    let token ← readU32
    let folder ← readStr
    pure (.FolderContentsRequest token folder)

def rdPeerC37 (Z : ZlibModel) : RdM PeerMessage :=
  do
    let compressed ← takeAll
    match Z.decompress compressed with
    | Except.error e => throwRd e
    | Except.ok dec =>
      subParse (do
        let token ← readU32
        let folder ← readStr
        let directories ← readList readSharedDirectory
        pure (PeerMessage.FolderContentsResponse token folder directories)) dec

def rdPeerC40 : RdM PeerMessage :=
  do
    let dv ← readU32
    match TransferDirection.tryFrom dv with
    | Except.error e => throwRd e
    | Except.ok direction => do
      let token ← readU32
      let filename ← readStr
      let hr ← hasRemaining
      let fileSize ←
        if (direction == TransferDirection.Upload) && hr then do
          let s ← readU64
          pure (some s)
        else pure none
      pure (.TransferRequest direction token filename fileSize)

def rdPeerC41 : RdM PeerMessage :=
  do
    let token ← readU32
    let allowed ← readBool
    if allowed then do
      let hr ← hasRemaining
      if hr then do
        let s ← readU64
        pure (.TransferResponse token allowed (some s) none)
      else pure (.TransferResponse token allowed none none)
    else do
      let hr ← hasRemaining
      if hr then do
        let rs ← readStr
        pure (.TransferResponse token allowed none
          (some (TransferRejectionReason.fromString rs)))
      else pure (.TransferResponse token allowed none none)

def rdPeerC43 : RdM PeerMessage :=
  do
    let filename ← readStr
    pure (.QueueUpload filename)

def rdPeerC44 : RdM PeerMessage :=
  do
    let filename ← readStr
    let place ← readU32
    pure (.PlaceInQueueResponse filename place)

def rdPeerC46 : RdM PeerMessage :=
  do
    let filename ← readStr
    pure (.UploadFailed filename)

def rdPeerC50 : RdM PeerMessage :=
  do
    let filename ← readStr
    let rs ← readStr
    pure (.UploadDenied filename (TransferRejectionReason.fromString rs))

def rdPeerC51 : RdM PeerMessage :=
  do
    let filename ← readStr
    pure (.PlaceInQueueRequest filename)

def rdPeerC52 : RdM PeerMessage :=
  pure .UploadQueueNotification

def readPeerWithCode (Z : ZlibModel) (code : Nat) : RdM PeerMessage :=
  if code = 4 then rdPeerC4
  else if code = 5 then rdPeerC5 Z
  else if code = 9 then rdPeerC9 Z
  else if code = 15 then rdPeerC15
  else if code = 16 then rdPeerC16
  else if code = 36 then rdPeerC36
  else if code = 37 then rdPeerC37 Z
  else if code = 40 then rdPeerC40
  else if code = 41 then rdPeerC41
  else if code = 43 then rdPeerC43
  else if code = 44 then rdPeerC44
  else if code = 46 then rdPeerC46
  else if code = 50 then rdPeerC50
  else if code = 51 then rdPeerC51
  else if code = 52 then rdPeerC52
  else throwRd (Err.invalidMessageCode code)


theorem readPeerWithCode_at_4 (Z : ZlibModel) :
    readPeerWithCode Z 4 = rdPeerC4 := rfl

theorem readPeerWithCode_at_5 (Z : ZlibModel) :
    readPeerWithCode Z 5 = rdPeerC5 Z := rfl

theorem readPeerWithCode_at_9 (Z : ZlibModel) :
    readPeerWithCode Z 9 = rdPeerC9 Z := rfl

theorem readPeerWithCode_at_15 (Z : ZlibModel) :
    readPeerWithCode Z 15 = rdPeerC15 := rfl

theorem readPeerWithCode_at_16 (Z : ZlibModel) :
    readPeerWithCode Z 16 = rdPeerC16 := rfl

theorem readPeerWithCode_at_36 (Z : ZlibModel) :
    readPeerWithCode Z 36 = rdPeerC36 := rfl

theorem readPeerWithCode_at_37 (Z : ZlibModel) :
    readPeerWithCode Z 37 = rdPeerC37 Z := rfl

theorem readPeerWithCode_at_40 (Z : ZlibModel) :
    readPeerWithCode Z 40 = rdPeerC40 := rfl

theorem readPeerWithCode_at_41 (Z : ZlibModel) :
    readPeerWithCode Z 41 = rdPeerC41 := rfl

theorem readPeerWithCode_at_43 (Z : ZlibModel) :
    readPeerWithCode Z 43 = rdPeerC43 := rfl

theorem readPeerWithCode_at_44 (Z : ZlibModel) :
    readPeerWithCode Z 44 = rdPeerC44 := rfl

theorem readPeerWithCode_at_46 (Z : ZlibModel) :
    readPeerWithCode Z 46 = rdPeerC46 := rfl

theorem readPeerWithCode_at_50 (Z : ZlibModel) :
    readPeerWithCode Z 50 = rdPeerC50 := rfl

theorem readPeerWithCode_at_51 (Z : ZlibModel) :
    readPeerWithCode Z 51 = rdPeerC51 := rfl

theorem readPeerWithCode_at_52 (Z : ZlibModel) :
    readPeerWithCode Z 52 = rdPeerC52 := rfl
/-- `read_peer_message` (src/peer.rs:585-589). -/
def readPeerMessage (Z : ZlibModel) : RdM PeerMessage := do
  let _len ← readU32
  let code ← readU32
  readPeerWithCode Z code

/-- Predicate on the payload of an `Option`, trivially true for `none`. -/
def OptP {α : Type} (o : Option α) (p : α → Prop) : Prop :=
  match o with
  | some x => p x
  | none => True

instance {α : Type} (o : Option α) (p : α → Prop) [DecidablePred p] :
    Decidable (OptP o p) := by
  cases o <;> (unfold OptP; infer_instance)

/-- Well-formed peer messages: all numeric fields fit their wire width,
strings are wire-representable, and optional fields respect the coupling
the wire format can express. -/
def PeerMessage.WF : PeerMessage → Prop
  | .SharedFileListRequest => True
  | .SharedFileListResponse directories privateDirectories =>
      directories.length < 2 ^ 32 ∧ (∀ d ∈ directories, d.WF) ∧
      privateDirectories.length < 2 ^ 32 ∧ ∀ d ∈ privateDirectories, d.WF
  | .FileSearchResponse username token results _ avgSpeed queueLength
      privateResults =>
      StrWF username ∧ token < 2 ^ 32 ∧ results.length < 2 ^ 32 ∧
      (∀ f ∈ results, f.WF) ∧ avgSpeed < 2 ^ 32 ∧ queueLength < 2 ^ 32 ∧
      privateResults.length < 2 ^ 32 ∧ ∀ f ∈ privateResults, f.WF
  | .UserInfoRequest => True
  | .UserInfoResponse description picture totalUploads queueSize _ _ =>
      StrWF description ∧ OptP picture (fun pic => pic.length < 2 ^ 32) ∧
      totalUploads < 2 ^ 32 ∧ queueSize < 2 ^ 32
  | .FolderContentsRequest token folder => token < 2 ^ 32 ∧ StrWF folder
  | .FolderContentsResponse token folder directories =>
      token < 2 ^ 32 ∧ StrWF folder ∧ directories.length < 2 ^ 32 ∧
      ∀ d ∈ directories, d.WF
  | .TransferRequest direction token filename fileSize =>
      token < 2 ^ 32 ∧ StrWF filename ∧ OptP fileSize (fun s => s < 2 ^ 64) ∧
      (direction = TransferDirection.Download → fileSize = none)
  | .TransferResponse token allowed fileSize reason =>
      token < 2 ^ 32 ∧ OptP fileSize (fun s => s < 2 ^ 64) ∧
      OptP reason TransferRejectionReason.WF ∧
      (allowed = true → reason = none) ∧
      (allowed = false → fileSize = none)
  | .QueueUpload filename => StrWF filename
  | .PlaceInQueueResponse filename place => StrWF filename ∧ place < 2 ^ 32
  | .UploadFailed filename => StrWF filename
  | .UploadDenied filename reason => StrWF filename ∧ reason.WF
  | .PlaceInQueueRequest filename => StrWF filename
  | .UploadQueueNotification => True

theorem readPeerMessage_ok (Z : ZlibModel) (hz : Z.Roundtrip) (m : PeerMessage)
    (h : m.WF) : readPeerMessage Z (wPeerMessage Z m) = (Except.ok m, []) := by
  have hzf : ∀ bs, Z.decompress (Z.compress bs) = Except.ok bs := hz
  cases m with
  | SharedFileListRequest =>
    simp [readPeerMessage, wPeerMessage, wPeerPayload, PeerMessage.codeVal,
      RdM.bind_run, readU32_skip, readU32_okE 4 (by norm_num),
      readPeerWithCode_at_4, rdPeerC4, RdM.pure_run]
  | SharedFileListResponse directories privateDirectories =>
    obtain ⟨hd1, hd2, hp1, hp2⟩ := h
    simp [readPeerMessage, wPeerMessage, wPeerPayload, PeerMessage.codeVal,
      RdM.bind_run, readU32_skip, readU32_ok 5 (by norm_num),
      readPeerWithCode_at_5, rdPeerC5, takeAll_run, hzf, subParse,
      readList_ok readSharedDirectory wSharedDirectory directories
        (fun d hd r => readSharedDirectory_ok d (hd2 d hd) r) hd1,
      readU32_ok 0 (by norm_num), hasRemaining_run, wlist_isEmpty,
      readList_okE readSharedDirectory wSharedDirectory privateDirectories
        (fun d hd r => readSharedDirectory_ok d (hp2 d hd) r) hp1,
      RdM.pure_run]
  | FileSearchResponse username token results slotFree avgSpeed queueLength
      privateResults =>
    obtain ⟨⟨hu1, hu2⟩, ht, hr1, hr2, ha, hq, hv1, hv2⟩ := h
    simp [readPeerMessage, wPeerMessage, wPeerPayload, PeerMessage.codeVal,
      RdM.bind_run, readU32_skip, readU32_ok 9 (by norm_num),
      readPeerWithCode_at_9, rdPeerC9, takeAll_run, hzf, subParse,
      readStr_ok username hu1 hu2, readU32_ok token ht,
      readList_ok readSearchResultFile wSearchResultFile results
        (fun f hf r => readSearchResultFile_ok f (hr2 f hf) r) hr1,
      readBool_ok, readU32_ok avgSpeed ha, readU32_ok queueLength hq,
      readU32_ok 0 (by norm_num), hasRemaining_run, wlist_isEmpty,
      readList_okE readSearchResultFile wSearchResultFile privateResults
        (fun f hf r => readSearchResultFile_ok f (hv2 f hf) r) hv1,
      RdM.pure_run]
  | UserInfoRequest =>
    simp [readPeerMessage, wPeerMessage, wPeerPayload, PeerMessage.codeVal,
      RdM.bind_run, readU32_skip, readU32_okE 15 (by norm_num),
      readPeerWithCode_at_15, rdPeerC15, RdM.pure_run]
  | UserInfoResponse description picture totalUploads queueSize slotsFree
      uploadPermitted =>
    obtain ⟨⟨hd1, hd2⟩, hpic, ht, hq⟩ := h
    cases picture with
    | none =>
      cases uploadPermitted with
      | none =>
        simp [readPeerMessage, wPeerMessage, wPeerPayload, PeerMessage.codeVal,
          RdM.bind_run, readU32_skip, readU32_ok 16 (by norm_num),
          readPeerWithCode_at_16, rdPeerC16, readStr_ok description hd1 hd2, readBool_ok,
          readU32_ok totalUploads ht, readU32_ok queueSize hq, readBool_okE,
          hasRemaining_run, RdM.pure_run]
      | some p =>
        simp [readPeerMessage, wPeerMessage, wPeerPayload, PeerMessage.codeVal,
          RdM.bind_run, readU32_skip, readU32_ok 16 (by norm_num),
          readPeerWithCode_at_16, rdPeerC16, readStr_ok description hd1 hd2, readBool_ok,
          readU32_ok totalUploads ht, readU32_ok queueSize hq,
          hasRemaining_run, w32_isEmpty,
          readU32_okE p.toNat (UploadPermission.toNat_lt_perm p),
          UploadPermission.tryFrom_toNat_perm, RdM.pure_run]
    | some pic =>
      cases uploadPermitted with
      | none =>
        simp [readPeerMessage, wPeerMessage, wPeerPayload, PeerMessage.codeVal,
          RdM.bind_run, readU32_skip, readU32_ok 16 (by norm_num),
          readPeerWithCode_at_16, rdPeerC16, readStr_ok description hd1 hd2, readBool_ok,
          readU32_ok pic.length hpic, copyN_ok pic,
          readU32_ok totalUploads ht, readU32_ok queueSize hq, readBool_okE,
          hasRemaining_run, RdM.pure_run]
      | some p =>
        simp [readPeerMessage, wPeerMessage, wPeerPayload, PeerMessage.codeVal,
          RdM.bind_run, readU32_skip, readU32_ok 16 (by norm_num),
          readPeerWithCode_at_16, rdPeerC16, readStr_ok description hd1 hd2, readBool_ok,
          readU32_ok pic.length hpic, copyN_ok pic,
          readU32_ok totalUploads ht, readU32_ok queueSize hq,
          hasRemaining_run, w32_isEmpty,
          readU32_okE p.toNat (UploadPermission.toNat_lt_perm p),
          UploadPermission.tryFrom_toNat_perm, RdM.pure_run]
  | FolderContentsRequest token folder =>
    obtain ⟨ht, ⟨hf1, hf2⟩⟩ := h
    simp [readPeerMessage, wPeerMessage, wPeerPayload, PeerMessage.codeVal,
      RdM.bind_run, readU32_skip, readU32_ok 36 (by norm_num),
      readPeerWithCode_at_36, rdPeerC36, readU32_ok token ht, readStr_okE folder hf1 hf2,
      RdM.pure_run]
  | FolderContentsResponse token folder directories =>
    obtain ⟨ht, ⟨hf1, hf2⟩, hd1, hd2⟩ := h
    simp [readPeerMessage, wPeerMessage, wPeerPayload, PeerMessage.codeVal,
      RdM.bind_run, readU32_skip, readU32_ok 37 (by norm_num),
      readPeerWithCode_at_37, rdPeerC37, takeAll_run, hzf, subParse,
      readU32_ok token ht, readStr_ok folder hf1 hf2,
      readList_okE readSharedDirectory wSharedDirectory directories
        (fun d hd r => readSharedDirectory_ok d (hd2 d hd) r) hd1,
      RdM.pure_run]
  | TransferRequest direction token filename fileSize =>
    obtain ⟨ht, ⟨hf1, hf2⟩, hs, hd⟩ := h
    cases direction with
    | Download =>
      have hnone : fileSize = none := hd rfl
      subst hnone
      simp [readPeerMessage, wPeerMessage, wPeerPayload, PeerMessage.codeVal,
        RdM.bind_run, readU32_skip, readU32_ok 40 (by norm_num),
        readPeerWithCode_at_40, rdPeerC40, TransferDirection.toNat,
        readU32_ok 0 (by norm_num), TransferDirection.tryFrom,
        readU32_ok token ht, readStr_okE filename hf1 hf2,
        hasRemaining_run, RdM.pure_run]
    | Upload =>
      cases fileSize with
      | none =>
        simp [readPeerMessage, wPeerMessage, wPeerPayload, PeerMessage.codeVal,
          RdM.bind_run, readU32_skip, readU32_ok 40 (by norm_num),
          readPeerWithCode_at_40, rdPeerC40, TransferDirection.toNat,
          readU32_ok 1 (by norm_num), TransferDirection.tryFrom,
          readU32_ok token ht, readStr_okE filename hf1 hf2,
          hasRemaining_run, RdM.pure_run]
      | some s =>
        simp [readPeerMessage, wPeerMessage, wPeerPayload, PeerMessage.codeVal,
          RdM.bind_run, readU32_skip, readU32_ok 40 (by norm_num),
          readPeerWithCode_at_40, rdPeerC40, TransferDirection.toNat,
          readU32_ok 1 (by norm_num), TransferDirection.tryFrom,
          readU32_ok token ht, readStr_ok filename hf1 hf2,
          hasRemaining_run, w64_isEmpty, readU64_okE s hs, RdM.pure_run]
  | TransferResponse token allowed fileSize reason =>
    obtain ⟨ht, hs, hre, hat, haf⟩ := h
    cases allowed with
    | true =>
      have hrn : reason = none := hat rfl
      subst hrn
      cases fileSize with
      | none =>
        simp [readPeerMessage, wPeerMessage, wPeerPayload, PeerMessage.codeVal,
          RdM.bind_run, readU32_skip, readU32_ok 41 (by norm_num),
          readPeerWithCode_at_41, rdPeerC41, readU32_ok token ht, readBool_okE,
          hasRemaining_run, RdM.pure_run]
      | some s =>
        simp [readPeerMessage, wPeerMessage, wPeerPayload, PeerMessage.codeVal,
          RdM.bind_run, readU32_skip, readU32_ok 41 (by norm_num),
          readPeerWithCode_at_41, rdPeerC41, readU32_ok token ht, readBool_ok,
          hasRemaining_run, w64_isEmpty, readU64_okE s hs, RdM.pure_run]
    | false =>
      have hfn : fileSize = none := haf rfl
      subst hfn
      cases reason with
      | none =>
        simp [readPeerMessage, wPeerMessage, wPeerPayload, PeerMessage.codeVal,
          RdM.bind_run, readU32_skip, readU32_ok 41 (by norm_num),
          readPeerWithCode_at_41, rdPeerC41, readU32_ok token ht, readBool_okE,
          hasRemaining_run, RdM.pure_run]
      | some rs =>
        have hw := TransferRejectionReason.asStr_wf_rej rs hre
        simp [readPeerMessage, wPeerMessage, wPeerPayload, PeerMessage.codeVal,
          RdM.bind_run, readU32_skip, readU32_ok 41 (by norm_num),
          readPeerWithCode_at_41, rdPeerC41, readU32_ok token ht, readBool_ok,
          hasRemaining_run, wstr_isEmpty, readStr_okE rs.asStr hw.1 hw.2,
          TransferRejectionReason.fromString_asStr rs hre, RdM.pure_run]
  | QueueUpload filename =>
    obtain ⟨h1, h2⟩ := h
    simp [readPeerMessage, wPeerMessage, wPeerPayload, PeerMessage.codeVal,
      RdM.bind_run, readU32_skip, readU32_ok 43 (by norm_num),
      readPeerWithCode_at_43, rdPeerC43, readStr_okE filename h1 h2, RdM.pure_run]
  | PlaceInQueueResponse filename place =>
    obtain ⟨⟨h1, h2⟩, hp⟩ := h
    simp [readPeerMessage, wPeerMessage, wPeerPayload, PeerMessage.codeVal,
      RdM.bind_run, readU32_skip, readU32_ok 44 (by norm_num),
      readPeerWithCode_at_44, rdPeerC44, readStr_ok filename h1 h2, readU32_okE place hp,
      RdM.pure_run]
  | UploadFailed filename =>
    obtain ⟨h1, h2⟩ := h
    simp [readPeerMessage, wPeerMessage, wPeerPayload, PeerMessage.codeVal,
      RdM.bind_run, readU32_skip, readU32_ok 46 (by norm_num),
      readPeerWithCode_at_46, rdPeerC46, readStr_okE filename h1 h2, RdM.pure_run]
  | UploadDenied filename reason =>
    obtain ⟨⟨h1, h2⟩, hre⟩ := h
    have hw := TransferRejectionReason.asStr_wf_rej reason hre
    simp [readPeerMessage, wPeerMessage, wPeerPayload, PeerMessage.codeVal,
      RdM.bind_run, readU32_skip, readU32_ok 50 (by norm_num),
      readPeerWithCode_at_50, rdPeerC50, readStr_ok filename h1 h2,
      readStr_okE reason.asStr hw.1 hw.2,
      TransferRejectionReason.fromString_asStr reason hre, RdM.pure_run]
  | PlaceInQueueRequest filename =>
    obtain ⟨h1, h2⟩ := h
    simp [readPeerMessage, wPeerMessage, wPeerPayload, PeerMessage.codeVal,
      RdM.bind_run, readU32_skip, readU32_ok 51 (by norm_num),
      readPeerWithCode_at_51, rdPeerC51, readStr_okE filename h1 h2, RdM.pure_run]
  | UploadQueueNotification =>
    simp [readPeerMessage, wPeerMessage, wPeerPayload, PeerMessage.codeVal,
      RdM.bind_run, readU32_skip, readU32_okE 52 (by norm_num),
      readPeerWithCode_at_52, rdPeerC52, RdM.pure_run]

instance (f : SharedFile) : Decidable f.WF := by
  unfold SharedFile.WF; infer_instance

instance (f : SearchResultFile) : Decidable f.WF := by
  unfold SearchResultFile.WF; infer_instance

instance (d : SharedDirectory) : Decidable d.WF := by
  unfold SharedDirectory.WF; infer_instance

instance (m : PeerMessage) : Decidable m.WF := by
  cases m <;> (simp only [PeerMessage.WF]; infer_instance)

/-- The zlib-compressed peer message kinds (codes 5, 9, 37) first grab and
advance past every byte remaining in the cursor; whatever happens next,
the cursor ends empty. -/
theorem readPeerWithCode_compressed_consumes_all (Z : ZlibModel) (code : Nat)
    (hc : code = 5 ∨ code = 9 ∨ code = 37) (bs : Bytes) :
    (readPeerWithCode Z code bs).2 = [] := by
  rcases hc with hc | hc | hc <;> subst hc <;>
    rcases hd : Z.decompress bs with e | dec <;>
      simp [readPeerWithCode_at_5, readPeerWithCode_at_9, readPeerWithCode_at_37,
        rdPeerC5, rdPeerC9, rdPeerC37, RdM.bind_run, takeAll_run, hd, throwRd,
        subParse]

/-- C10 (amended): the three zlib-compressed peer kinds consume every byte
remaining in the cursor (so `read_peer_message` on them is frame-preserving
only when the cursor holds exactly one complete frame), and every other
peer kind except the three with trailing optional fields
(`UserInfoResponse`, `TransferRequest`, `TransferResponse`) leaves the
bytes after the message payload unconsumed. -/
theorem C10_cursor_consumption :
    (∀ (Z : ZlibModel) (len : Nat) (c : Nat), (c = 5 ∨ c = 9 ∨ c = 37) →
      ∀ bs, (readPeerMessage Z (w32 len ++ w32 c ++ bs)).2 = []) ∧
    (∀ (Z : ZlibModel) (m : PeerMessage), m.WF →
      m.codeVal ≠ 5 → m.codeVal ≠ 9 → m.codeVal ≠ 37 →
      m.codeVal ≠ 16 → m.codeVal ≠ 40 → m.codeVal ≠ 41 →
      ∀ r, readPeerWithCode Z m.codeVal (wPeerPayload Z m ++ r) =
        (Except.ok m, r)) := by
  constructor
  · intro Z len c hc bs
    have hlt : c < 2 ^ 32 := by rcases hc with hc | hc | hc <;> subst hc <;> norm_num
    simp only [readPeerMessage, List.append_assoc, RdM.bind_run, readU32_skip,
      readU32_ok c hlt]
    exact readPeerWithCode_compressed_consumes_all Z c hc bs
  · intro Z m h hne5 hne9 hne37 hne16 hne40 hne41 r
    cases m with
    | SharedFileListRequest =>
      simp [readPeerWithCode_at_4, rdPeerC4, wPeerPayload, PeerMessage.codeVal, RdM.pure_run]
    | SharedFileListResponse directories privateDirectories =>
      exact absurd rfl hne5
    | FileSearchResponse username token results slotFree avgSpeed queueLength
        privateResults =>
      exact absurd rfl hne9
    | UserInfoRequest =>
      simp [readPeerWithCode_at_15, rdPeerC15, wPeerPayload, PeerMessage.codeVal, RdM.pure_run]
    | UserInfoResponse description picture totalUploads queueSize slotsFree
        uploadPermitted =>
      exact absurd rfl hne16
    | FolderContentsRequest token folder =>
      obtain ⟨ht, ⟨hf1, hf2⟩⟩ := h
      simp [readPeerWithCode_at_36, rdPeerC36, wPeerPayload, PeerMessage.codeVal, RdM.bind_run,
        readU32_ok token ht, readStr_ok folder hf1 hf2, RdM.pure_run]
    | FolderContentsResponse token folder directories =>
      exact absurd rfl hne37
    | TransferRequest direction token filename fileSize =>
      exact absurd rfl hne40
    | TransferResponse token allowed fileSize reason =>
      exact absurd rfl hne41
    | QueueUpload filename =>
      obtain ⟨h1, h2⟩ := h
      simp [readPeerWithCode_at_43, rdPeerC43, wPeerPayload, PeerMessage.codeVal, RdM.bind_run,
        readStr_ok filename h1 h2, RdM.pure_run]
    | PlaceInQueueResponse filename place =>
      obtain ⟨⟨h1, h2⟩, hp⟩ := h
      simp [readPeerWithCode_at_44, rdPeerC44, wPeerPayload, PeerMessage.codeVal, RdM.bind_run,
        readStr_ok filename h1 h2, readU32_ok place hp, RdM.pure_run]
    | UploadFailed filename =>
      obtain ⟨h1, h2⟩ := h
      simp [readPeerWithCode_at_46, rdPeerC46, wPeerPayload, PeerMessage.codeVal, RdM.bind_run,
        readStr_ok filename h1 h2, RdM.pure_run]
    | UploadDenied filename reason =>
      obtain ⟨⟨h1, h2⟩, hre⟩ := h
      have hw := TransferRejectionReason.asStr_wf_rej reason hre
      simp [readPeerWithCode_at_50, rdPeerC50, wPeerPayload, PeerMessage.codeVal, RdM.bind_run,
        readStr_ok filename h1 h2, readStr_ok reason.asStr hw.1 hw.2,
        TransferRejectionReason.fromString_asStr reason hre, RdM.pure_run]
    | PlaceInQueueRequest filename =>
      obtain ⟨h1, h2⟩ := h
      simp [readPeerWithCode_at_51, rdPeerC51, wPeerPayload, PeerMessage.codeVal, RdM.bind_run,
        readStr_ok filename h1 h2, RdM.pure_run]
    | UploadQueueNotification =>
      simp [readPeerWithCode_at_52, rdPeerC52, wPeerPayload, PeerMessage.codeVal, RdM.pure_run]

/-- Witness for C10 at concrete inputs. -/
theorem C10_witness :
    (readPeerMessage idZlib (w32 20 ++ w32 5 ++ [1, 2, 3])).2 = [] ∧
    readPeerWithCode idZlib (PeerMessage.QueueUpload [97]).codeVal
      (wPeerPayload idZlib (PeerMessage.QueueUpload [97]) ++ [9, 9]) =
      (Except.ok (PeerMessage.QueueUpload [97]), [9, 9]) := by
  constructor
  · exact C10_cursor_consumption.1 idZlib 20 5 (Or.inl rfl) [1, 2, 3]
  · exact C10_cursor_consumption.2 idZlib (PeerMessage.QueueUpload [97])
      (by decide) (by decide) (by decide) (by decide) (by decide) (by decide)
      (by decide) [9, 9]

-- The next declarations evaluate the byte-level writers concretely.
end

/-- C10 counterexample: the claim says every non-compressed peer kind
leaves bytes after the payload unconsumed, but `TransferRequest` (an
upload with no size field) swallows 8 trailing bytes as an optional file
size: the decoded message changes and the cursor ends empty rather than
holding the 8 extra bytes. -/
theorem C10_counterexample :
    readPeerWithCode idZlib 40
      (wPeerPayload idZlib
          (PeerMessage.TransferRequest TransferDirection.Upload 7 [97] none) ++
        [1, 0, 0, 0, 0, 0, 0, 0]) =
      (Except.ok
        (PeerMessage.TransferRequest TransferDirection.Upload 7 [97] (some 1)),
        []) ∧
    ([1, 0, 0, 0, 0, 0, 0, 0] : Bytes) ≠ [] := by
  constructor
  · rfl
  · decide

-- ----------------------------------------------------------------------
-- MD5 (the `md5` crate used by `login_hash`, src/protocol.rs:288-292)
-- ----------------------------------------------------------------------

/-- The 64 MD5 sine-derived round constants. -/
def md5K : List Nat := [
  3614090360, 3905402710, 606105819, 3250441966,
  4118548399, 1200080426, 2821735955, 4249261313,
  1770035416, 2336552879, 4294925233, 2304563134,
  1804603682, 4254626195, 2792965006, 1236535329,
  4129170786, 3225465664, 643717713, 3921069994,
  3593408605, 38016083, 3634488961, 3889429448,
  568446438, 3275163606, 4107603335, 1163531501,
  2850285829, 4243563512, 1735328473, 2368359562,
  4294588738, 2272392833, 1839030562, 4259657740,
  2763975236, 1272893353, 4139469664, 3200236656,
  681279174, 3936430074, 3572445317, 76029189,
  3654602809, 3873151461, 530742520, 3299628645,
  4096336452, 1126891415, 2878612391, 4237533241,
  1700485571, 2399980690, 4293915773, 2240044497,
  1873313359, 4264355552, 2734768916, 1309151649,
  4149444226, 3174756917, 718787259, 3951481745]

/-- The 64 MD5 per-round left-rotation amounts. -/
def md5S : List Nat := [
  7, 12, 17, 22, 7, 12, 17, 22,
  7, 12, 17, 22, 7, 12, 17, 22,
  5, 9, 14, 20, 5, 9, 14, 20,
  5, 9, 14, 20, 5, 9, 14, 20,
  4, 11, 16, 23, 4, 11, 16, 23,
  4, 11, 16, 23, 4, 11, 16, 23,
  6, 10, 15, 21, 6, 10, 15, 21,
  6, 10, 15, 21, 6, 10, 15, 21]

/-- 32-bit left rotation (operand below 2^32). -/
def rotl32 (x s : Nat) : Nat :=
  ((x <<< s) % 4294967296) ||| (x >>> (32 - s))

/-- One MD5 round step. -/
def md5Step (M : Nat → Nat) (i : Nat) (st : Nat × Nat × Nat × Nat) :
    Nat × Nat × Nat × Nat :=
  let a := st.1
  let b := st.2.1
  let c := st.2.2.1
  let d := st.2.2.2
  let fg : Nat × Nat :=
    if i < 16 then ((b &&& c) ||| ((b ^^^ 4294967295) &&& d), i)
    else if i < 32 then ((d &&& b) ||| ((d ^^^ 4294967295) &&& c), (5 * i + 1) % 16)
    else if i < 48 then (b ^^^ c ^^^ d, (3 * i + 5) % 16)
    else (c ^^^ (b ||| (d ^^^ 4294967295)), (7 * i) % 16)
  let f := (fg.1 + a + md5K.getD i 0 + M fg.2) % 4294967296
  (d, (b + rotl32 f (md5S.getD i 0)) % 4294967296, b, c)

/-- Process one 64-byte chunk. -/
def md5Chunk (chunk : Bytes) (st : Nat × Nat × Nat × Nat) :
    Nat × Nat × Nat × Nat :=
  let M : Nat → Nat := fun g => leVal ((chunk.drop (4 * g)).take 4)
  let fin := (List.range 64).foldl (fun acc i => md5Step M i acc) st
  ((st.1 + fin.1) % 4294967296, (st.2.1 + fin.2.1) % 4294967296,
    (st.2.2.1 + fin.2.2.1) % 4294967296, (st.2.2.2 + fin.2.2.2) % 4294967296)

/-- Split into 64-byte chunks (fuel-based for kernel reducibility). -/
def md5Chunks : Nat → Bytes → List Bytes
  | 0, _ => []
  | fuel + 1, bs => if bs.isEmpty then [] else bs.take 64 :: md5Chunks fuel (bs.drop 64)

/-- MD5 padding: 0x80, zeros to 56 mod 64, 64-bit little-endian bit length. -/
def md5Pad (msg : Bytes) : Bytes :=
  msg ++ [128] ++ List.replicate ((119 - msg.length % 64) % 64) 0 ++
    w64 (8 * msg.length)

/-- The MD5 digest (16 bytes) of a byte string. -/
def md5 (msg : Bytes) : Bytes :=
  let padded := md5Pad msg
  let st := (md5Chunks padded.length padded).foldl (fun acc c => md5Chunk c acc)
    (1732584193, 4023233417, 2562383102, 271733878)
  w32 st.1 ++ w32 st.2.1 ++ w32 st.2.2.1 ++ w32 st.2.2.2

/-- Lowercase hex digit. -/
def hexDigit (n : Nat) : Nat := if n < 10 then 48 + n else 87 + n

/-- Lowercase hex string of a byte string. -/
def toHex (bs : Bytes) : Bytes :=
  bs.foldr (fun b acc => hexDigit (b / 16) :: hexDigit (b % 16) :: acc) []

/-- `login_hash` (src/protocol.rs:288-292): lowercase hex MD5 of
username concatenated with password. -/
def login_hash (username password : Bytes) : Bytes :=
  toHex (md5 (username ++ password))

theorem leBytes_all_lt (k n : Nat) : ∀ b ∈ leBytes k n, b < 256 := by
  induction k generalizing n with
  | zero => simp [leBytes]
  | succ k ih =>
    intro b hb
    simp only [leBytes, List.mem_cons] at hb
    rcases hb with hb | hb
    · omega
    · exact ih (n / 256) b hb

theorem md5_length (msg : Bytes) : (md5 msg).length = 16 := by
  simp [md5, w32, leBytes_length]

theorem md5_all_lt (msg : Bytes) : ∀ b ∈ md5 msg, b < 256 := by
  intro b hb
  simp only [md5, w32, List.mem_append] at hb
  rcases hb with ((hb | hb) | hb) | hb <;> exact leBytes_all_lt 4 _ b hb

theorem toHex_length (bs : Bytes) : (toHex bs).length = 2 * bs.length := by
  induction bs with
  | nil => rfl
  | cons b bs ih => simp [toHex] at ih ⊢; omega

theorem toHex_all_ascii (bs : Bytes) (hall : ∀ b ∈ bs, b < 256) :
    ∀ c ∈ toHex bs, c < 128 := by
  induction bs with
  | nil => simp [toHex]
  | cons b bs ih =>
    intro c hc
    have hb : b < 256 := hall b (by simp)
    simp only [toHex, List.foldr_cons, List.mem_cons] at hc
    rcases hc with hc | hc | hc
    · subst hc; simp only [hexDigit]
      have : b / 16 < 16 := by omega
      split <;> omega
    · subst hc; simp only [hexDigit]
      have : b % 16 < 16 := Nat.mod_lt b (by norm_num)
      split <;> omega
    · exact ih (fun x hx => hall x (by simp [hx])) c hc

theorem validUtf8_ascii (s : Bytes) (h : ∀ b ∈ s, b < 128) :
    validUtf8 s = true := by
  induction s with
  | nil => rfl
  | cons b bs ih =>
    have hb : b < 128 := h b (by simp)
    have hstep : validUtf8 (b :: bs) = validUtf8 bs := by
      simp [validUtf8, validUtf8Fuel, utf8SeqLen, hb]
    rw [hstep]
    exact ih (fun x hx => h x (List.mem_cons_of_mem b hx))

theorem login_hash_wf (u p : Bytes) : StrWF (login_hash u p) := by
  constructor
  · exact validUtf8_ascii _ (toHex_all_ascii _ (md5_all_lt _))
  · rw [login_hash, toHex_length, md5_length]
    norm_num

section
attribute [local irreducible] leBytes w32 wstr wUserStats

-- ----------------------------------------------------------------------
-- Server requests (src/server.rs:241-568, 1249-1495)
-- ----------------------------------------------------------------------

/-- Coupled options: both present or both absent (the
`if let (Some(..), Some(..))` pattern of `SetWaitPort`). -/
def BothOpt {α β : Type} (o : Option α) (p : Option β) (q : β → Prop) : Prop :=
  match o, p with
  | some _, some y => q y
  | none, none => True
  | _, _ => False

instance {α β : Type} (o : Option α) (p : Option β) (q : β → Prop)
    [DecidablePred q] : Decidable (BothOpt o p q) := by
  cases o <;> cases p <;> (unfold BothOpt; infer_instance)

/-- `ServerRequest` (src/server.rs:241-368). -/
inductive ServerRequest where
  | Login (username password : Bytes) (version minorVersion : Nat)
  | SetWaitPort (port : Nat) (obfuscationType : Option ObfuscationType)
      (obfuscatedPort : Option Nat)
  | GetPeerAddress (username : Bytes)
  | WatchUser (username : Bytes)
  | UnwatchUser (username : Bytes)
  | GetUserStatus (username : Bytes)
  | SayChatroom (room message : Bytes)
  | JoinRoom (room : Bytes) (isPrivate : Bool)
  | LeaveRoom (room : Bytes)
  | ConnectToPeer (token : Nat) (username : Bytes)
      (connectionType : ConnectionType)
  | MessageUser (username message : Bytes)
  | MessageAcked (messageId : Nat)
  | FileSearch (token : Nat) (query : Bytes)
  | SetStatus (status : UserStatus)
  | ServerPing
  | SharedFoldersFiles (dirs files : Nat)
  | GetUserStats (username : Bytes)
  | UserSearch (username : Bytes) (token : Nat) (query : Bytes)
  | InterestAdd (item : Bytes)
  | InterestRemove (item : Bytes)
  | GetRecommendations
  | GetGlobalRecommendations
  | GetUserInterests (username : Bytes)
  | RoomList
  | HaveNoParent (noParent : Bool)
  | CheckPrivileges
  | AcceptChildren (accept : Bool)
  | WishlistSearch (token : Nat) (query : Bytes)
  | GetSimilarUsers
  | GetItemRecommendations (item : Bytes)
  | GetItemSimilarUsers (item : Bytes)
  | RoomTickerSet (room ticker : Bytes)
  | HatedInterestAdd (item : Bytes)
  | HatedInterestRemove (item : Bytes)
  | RoomSearch (room : Bytes) (token : Nat) (query : Bytes)
  | SendUploadSpeed (speed : Nat)
  | GivePrivileges (username : Bytes) (days : Nat)
  | BranchLevel (level : Nat)
  | BranchRoot (root : Bytes)
  | AddRoomMember (room username : Bytes)
  | RemoveRoomMember (room username : Bytes)
  | CancelRoomMembership (room : Bytes)
  | CancelRoomOwnership (room : Bytes)
  | EnableRoomInvitations (enable : Bool)
  | ChangePassword (password : Bytes)
  | AddRoomOperator (room username : Bytes)
  | RemoveRoomOperator (room username : Bytes)
  | MessageUsers (usernames : List Bytes) (message : Bytes)
  | JoinGlobalRoom
  | LeaveGlobalRoom
  | CantConnectToPeer (token : Nat) (username : Bytes)
  deriving Repr

/-- `ServerRequest::code` as the u32 wire value (src/server.rs:17-92,
373-426). -/
def ServerRequest.codeVal : ServerRequest → Nat
  | .Login _ _ _ _ => 1
  | .SetWaitPort _ _ _ => 2
  | .GetPeerAddress _ => 3
  | .WatchUser _ => 5
  | .UnwatchUser _ => 6
  | .GetUserStatus _ => 7
  | .SayChatroom _ _ => 13
  | .JoinRoom _ _ => 14
  | .LeaveRoom _ => 15
  | .ConnectToPeer _ _ _ => 18
  | .MessageUser _ _ => 22
  | .MessageAcked _ => 23
  | .FileSearch _ _ => 26
  | .SetStatus _ => 28
  | .ServerPing => 32
  | .SharedFoldersFiles _ _ => 35
  | .GetUserStats _ => 36
  | .UserSearch _ _ _ => 42
  | .InterestAdd _ => 51
  | .InterestRemove _ => 52
  | .GetRecommendations => 54
  | .GetGlobalRecommendations => 56
  | .GetUserInterests _ => 57
  | .RoomList => 64
  | .HaveNoParent _ => 71
  | .CheckPrivileges => 92
  | .AcceptChildren _ => 100
  | .WishlistSearch _ _ => 103
  | .GetSimilarUsers => 110
  | .GetItemRecommendations _ => 111
  | .GetItemSimilarUsers _ => 112
  | .RoomTickerSet _ _ => 116
  | .HatedInterestAdd _ => 117
  | .HatedInterestRemove _ => 118
  | .RoomSearch _ _ _ => 120
  | .SendUploadSpeed _ => 121
  | .GivePrivileges _ _ => 123
  | .BranchLevel _ => 126
  | .BranchRoot _ => 127
  | .AddRoomMember _ _ => 134
  | .RemoveRoomMember _ _ => 135
  | .CancelRoomMembership _ => 136
  | .CancelRoomOwnership _ => 137
  | .EnableRoomInvitations _ => 141
  | .ChangePassword _ => 142
  | .AddRoomOperator _ _ => 143
  | .RemoveRoomOperator _ _ => 144
  | .MessageUsers _ _ => 149
  | .JoinGlobalRoom => 150
  | .LeaveGlobalRoom => 151
  | .CantConnectToPeer _ _ => 1001

/-- `ServerRequest::write_payload` (src/server.rs:429-568). -/
def wServerRequestPayload : ServerRequest → Bytes
  | .Login username password version minorVersion =>
      wstr username ++ wstr password ++ w32 version ++
        wstr (login_hash username password) ++ w32 minorVersion
  | .SetWaitPort port obfuscationType obfuscatedPort =>
      w32 port ++
        (match obfuscationType, obfuscatedPort with
          | some t, some p => w32 t.toNat ++ w32 p
          | _, _ => [])
  | .GetPeerAddress username => wstr username
  | .WatchUser username => wstr username
  | .UnwatchUser username => wstr username
  | .GetUserStatus username => wstr username
  | .SayChatroom room message => wstr room ++ wstr message
  | .JoinRoom room isPrivate => wstr room ++ w32 (if isPrivate then 1 else 0)
  | .LeaveRoom room => wstr room
  | .ConnectToPeer token username connectionType =>
      w32 token ++ wstr username ++ wstr connectionType.asStr
  | .MessageUser username message => wstr username ++ wstr message
  | .MessageAcked messageId => w32 messageId
  | .FileSearch token query => w32 token ++ wstr query
  | .SetStatus status => wi32 (status.toNat : Int)
  | .ServerPing => []
  | .SharedFoldersFiles dirs files => w32 dirs ++ w32 files
  | .GetUserStats username => wstr username
  | .UserSearch username token query => wstr username ++ w32 token ++ wstr query
  | .InterestAdd item => wstr item
  | .InterestRemove item => wstr item
  | .GetRecommendations => []
  | .GetGlobalRecommendations => []
  | .GetUserInterests username => wstr username
  | .RoomList => []
  | .HaveNoParent noParent => wbool noParent
  | .CheckPrivileges => []
  | .AcceptChildren accept => wbool accept
  | .WishlistSearch token query => w32 token ++ wstr query
  | .GetSimilarUsers => []
  | .GetItemRecommendations item => wstr item
  | .GetItemSimilarUsers item => wstr item
  | .RoomTickerSet room ticker => wstr room ++ wstr ticker
  | .HatedInterestAdd item => wstr item
  | .HatedInterestRemove item => wstr item
  | .RoomSearch room token query => wstr room ++ w32 token ++ wstr query
  | .SendUploadSpeed speed => w32 speed
  | .GivePrivileges username days => wstr username ++ w32 days
  | .BranchLevel level => w32 level
  | .BranchRoot root => wstr root
  | .AddRoomMember room username => wstr room ++ wstr username
  | .RemoveRoomMember room username => wstr room ++ wstr username
  | .CancelRoomMembership room => wstr room
  | .CancelRoomOwnership room => wstr room
  | .EnableRoomInvitations enable => wbool enable
  | .ChangePassword password => wstr password
  | .AddRoomOperator room username => wstr room ++ wstr username
  | .RemoveRoomOperator room username => wstr room ++ wstr username
  | .MessageUsers usernames message =>
      wlist wstr usernames ++ wstr message
  | .JoinGlobalRoom => []
  | .LeaveGlobalRoom => []
  | .CantConnectToPeer token username => w32 token ++ wstr username

def wServerRequest (m : ServerRequest) : Bytes :=
  w32 (4 + (wServerRequestPayload m).length) ++ w32 m.codeVal ++
    wServerRequestPayload m

/-- `ServerRequest::read_with_code` (src/server.rs:1249-1495), dispatching
on the u32 code value. -/
def rdReqC1 : RdM ServerRequest :=
  do
    let username ← readStr
    let password ← readStr
    let version ← readU32
    let _hash ← readStr
    let minorVersion ← readU32
    pure (.Login username password version minorVersion)

def rdReqC2 : RdM ServerRequest :=
  do
    let port ← readU32
    let hr ← hasRemaining
    if hr then do
      let ov ← readU32
      match ObfuscationType.tryFrom ov with
      | Except.error e => throwRd e
      | Except.ok obs => do
        let obsPort ← readU32
        pure (.SetWaitPort port (some obs) (some obsPort))
    else pure (.SetWaitPort port none none)

def rdReqC3 : RdM ServerRequest :=
  do
    let username ← readStr
    pure (.GetPeerAddress username)

def rdReqC5 : RdM ServerRequest :=
  do
    let username ← readStr
    pure (.WatchUser username)

def rdReqC6 : RdM ServerRequest :=
  do
    let username ← readStr
    pure (.UnwatchUser username)

def rdReqC7 : RdM ServerRequest :=
  do
    let username ← readStr
    pure (.GetUserStatus username)

def rdReqC13 : RdM ServerRequest :=
  do
    let room ← readStr
    let message ← readStr
    pure (.SayChatroom room message)

def rdReqC14 : RdM ServerRequest :=
  do
    let room ← readStr
    let hr ← hasRemaining
    let isPrivate ←
      if hr then do
        let v ← readU32
        pure (v != 0)
      else pure false
    pure (.JoinRoom room isPrivate)

def rdReqC15 : RdM ServerRequest :=
  do
    let room ← readStr
    pure (.LeaveRoom room)

def rdReqC18 : RdM ServerRequest :=
  do
    let token ← readU32
    let username ← readStr
    let connTypeStr ← readStr
    match ConnectionType.parse connTypeStr with
    | Except.error e => throwRd e
    | Except.ok connectionType =>
      pure (.ConnectToPeer token username connectionType)

def rdReqC22 : RdM ServerRequest :=
  do
    let username ← readStr
    let message ← readStr
    pure (.MessageUser username message)

def rdReqC23 : RdM ServerRequest :=
  do
    let messageId ← readU32
    pure (.MessageAcked messageId)

def rdReqC26 : RdM ServerRequest :=
  do
    let token ← readU32
    let query ← readStr
    pure (.FileSearch token query)

def rdReqC28 : RdM ServerRequest :=
  do
    let sv ← readI32
    match UserStatus.tryFrom ((sv % (2 ^ 32 : Int)).toNat) with
    | Except.error e => throwRd e
    | Except.ok status => pure (.SetStatus status)

def rdReqC32 : RdM ServerRequest :=
  pure .ServerPing

def rdReqC35 : RdM ServerRequest :=
  do
    let dirs ← readU32
    let files ← readU32
    pure (.SharedFoldersFiles dirs files)

def rdReqC36 : RdM ServerRequest :=
  do
    let username ← readStr
    pure (.GetUserStats username)

def rdReqC42 : RdM ServerRequest :=
  do
    let username ← readStr
    let token ← readU32
    let query ← readStr
    pure (.UserSearch username token query)

def rdReqC51 : RdM ServerRequest :=
  do
    let item ← readStr
    pure (.InterestAdd item)

def rdReqC52 : RdM ServerRequest :=
  do
    let item ← readStr
    pure (.InterestRemove item)

def rdReqC54 : RdM ServerRequest :=
  pure .GetRecommendations

def rdReqC56 : RdM ServerRequest :=
  pure .GetGlobalRecommendations

def rdReqC57 : RdM ServerRequest :=
  do
    let username ← readStr
    pure (.GetUserInterests username)

def rdReqC64 : RdM ServerRequest :=
  pure .RoomList

def rdReqC71 : RdM ServerRequest :=
  do
    let noParent ← readBool
    pure (.HaveNoParent noParent)

def rdReqC92 : RdM ServerRequest :=
  pure .CheckPrivileges

def rdReqC100 : RdM ServerRequest :=
  do
    let accept ← readBool
    pure (.AcceptChildren accept)

def rdReqC103 : RdM ServerRequest :=
  do
    let token ← readU32
    let query ← readStr
    pure (.WishlistSearch token query)

def rdReqC110 : RdM ServerRequest :=
  pure .GetSimilarUsers

def rdReqC111 : RdM ServerRequest :=
  do
    let item ← readStr
    pure (.GetItemRecommendations item)

def rdReqC112 : RdM ServerRequest :=
  do
    let item ← readStr
    pure (.GetItemSimilarUsers item)

def rdReqC116 : RdM ServerRequest :=
  do
    let room ← readStr
    let ticker ← readStr
    pure (.RoomTickerSet room ticker)

def rdReqC117 : RdM ServerRequest :=
  do
    let item ← readStr
    pure (.HatedInterestAdd item)

def rdReqC118 : RdM ServerRequest :=
  do
    let item ← readStr
    pure (.HatedInterestRemove item)

def rdReqC120 : RdM ServerRequest :=
  do
    let room ← readStr
    let token ← readU32
    let query ← readStr
    pure (.RoomSearch room token query)

def rdReqC121 : RdM ServerRequest :=
  do
    let speed ← readU32
    pure (.SendUploadSpeed speed)

def rdReqC123 : RdM ServerRequest :=
  do
    let username ← readStr
    let days ← readU32
    pure (.GivePrivileges username days)

def rdReqC126 : RdM ServerRequest :=
  do
    let level ← readU32
    pure (.BranchLevel level)

def rdReqC127 : RdM ServerRequest :=
  do
    let root ← readStr
    pure (.BranchRoot root)

def rdReqC134 : RdM ServerRequest :=
  do
    let room ← readStr
    let username ← readStr
    pure (.AddRoomMember room username)

def rdReqC135 : RdM ServerRequest :=
  do
    let room ← readStr
    let username ← readStr
    pure (.RemoveRoomMember room username)

def rdReqC136 : RdM ServerRequest :=
  do
    let room ← readStr
    pure (.CancelRoomMembership room)

def rdReqC137 : RdM ServerRequest :=
  do
    let room ← readStr
    pure (.CancelRoomOwnership room)

def rdReqC141 : RdM ServerRequest :=
  do
    let enable ← readBool
    pure (.EnableRoomInvitations enable)

def rdReqC142 : RdM ServerRequest :=
  do
    let password ← readStr
    pure (.ChangePassword password)

def rdReqC143 : RdM ServerRequest :=
  do
    let room ← readStr
    let username ← readStr
    pure (.AddRoomOperator room username)

def rdReqC144 : RdM ServerRequest :=
  do
    let room ← readStr
    let username ← readStr
    pure (.RemoveRoomOperator room username)

def rdReqC149 : RdM ServerRequest :=
  do
    let usernames ← readList readStr
    let message ← readStr
    pure (.MessageUsers usernames message)

def rdReqC150 : RdM ServerRequest :=
  pure .JoinGlobalRoom

def rdReqC151 : RdM ServerRequest :=
  pure .LeaveGlobalRoom

def rdReqC1001 : RdM ServerRequest :=
  do
    let token ← readU32
    let username ← readStr
    pure (.CantConnectToPeer token username)

def readServerRequestWithCode (code : Nat) : RdM ServerRequest :=
  if code = 1 then rdReqC1
  else if code = 2 then rdReqC2
  else if code = 3 then rdReqC3
  else if code = 5 then rdReqC5
  else if code = 6 then rdReqC6
  else if code = 7 then rdReqC7
  else if code = 13 then rdReqC13
  else if code = 14 then rdReqC14
  else if code = 15 then rdReqC15
  else if code = 18 then rdReqC18
  else if code = 22 then rdReqC22
  else if code = 23 then rdReqC23
  else if code = 26 then rdReqC26
  else if code = 28 then rdReqC28
  else if code = 32 then rdReqC32
  else if code = 35 then rdReqC35
  else if code = 36 then rdReqC36
  else if code = 42 then rdReqC42
  else if code = 51 then rdReqC51
  else if code = 52 then rdReqC52
  else if code = 54 then rdReqC54
  else if code = 56 then rdReqC56
  else if code = 57 then rdReqC57
  else if code = 64 then rdReqC64
  else if code = 71 then rdReqC71
  else if code = 92 then rdReqC92
  else if code = 100 then rdReqC100
  else if code = 103 then rdReqC103
  else if code = 110 then rdReqC110
  else if code = 111 then rdReqC111
  else if code = 112 then rdReqC112
  else if code = 116 then rdReqC116
  else if code = 117 then rdReqC117
  else if code = 118 then rdReqC118
  else if code = 120 then rdReqC120
  else if code = 121 then rdReqC121
  else if code = 123 then rdReqC123
  else if code = 126 then rdReqC126
  else if code = 127 then rdReqC127
  else if code = 134 then rdReqC134
  else if code = 135 then rdReqC135
  else if code = 136 then rdReqC136
  else if code = 137 then rdReqC137
  else if code = 141 then rdReqC141
  else if code = 142 then rdReqC142
  else if code = 143 then rdReqC143
  else if code = 144 then rdReqC144
  else if code = 149 then rdReqC149
  else if code = 150 then rdReqC150
  else if code = 151 then rdReqC151
  else if code = 1001 then rdReqC1001
  else if code = 16 ∨ code = 17 ∨ code = 41 ∨ code = 66 ∨ code = 69 ∨
      code = 83 ∨ code = 84 ∨ code = 93 ∨ code = 102 ∨ code = 104 ∨
      code = 113 ∨ code = 114 ∨ code = 115 ∨ code = 130 ∨ code = 133 ∨
      code = 139 ∨ code = 140 ∨ code = 145 ∨ code = 146 ∨ code = 148 ∨
      code = 152 ∨ code = 160 ∨ code = 1003 then
    throwRd Err.protocolErr
  else throwRd (Err.invalidMessageCode code)


theorem readServerRequestWithCode_at_1 : readServerRequestWithCode 1 = rdReqC1 := rfl

theorem readServerRequestWithCode_at_2 : readServerRequestWithCode 2 = rdReqC2 := rfl

theorem readServerRequestWithCode_at_3 : readServerRequestWithCode 3 = rdReqC3 := rfl

theorem readServerRequestWithCode_at_5 : readServerRequestWithCode 5 = rdReqC5 := rfl

theorem readServerRequestWithCode_at_6 : readServerRequestWithCode 6 = rdReqC6 := rfl

theorem readServerRequestWithCode_at_7 : readServerRequestWithCode 7 = rdReqC7 := rfl

theorem readServerRequestWithCode_at_13 : readServerRequestWithCode 13 = rdReqC13 := rfl

theorem readServerRequestWithCode_at_14 : readServerRequestWithCode 14 = rdReqC14 := rfl

theorem readServerRequestWithCode_at_15 : readServerRequestWithCode 15 = rdReqC15 := rfl

theorem readServerRequestWithCode_at_18 : readServerRequestWithCode 18 = rdReqC18 := rfl

theorem readServerRequestWithCode_at_22 : readServerRequestWithCode 22 = rdReqC22 := rfl

theorem readServerRequestWithCode_at_23 : readServerRequestWithCode 23 = rdReqC23 := rfl

theorem readServerRequestWithCode_at_26 : readServerRequestWithCode 26 = rdReqC26 := rfl

theorem readServerRequestWithCode_at_28 : readServerRequestWithCode 28 = rdReqC28 := rfl

theorem readServerRequestWithCode_at_32 : readServerRequestWithCode 32 = rdReqC32 := rfl

theorem readServerRequestWithCode_at_35 : readServerRequestWithCode 35 = rdReqC35 := rfl

theorem readServerRequestWithCode_at_36 : readServerRequestWithCode 36 = rdReqC36 := rfl

theorem readServerRequestWithCode_at_42 : readServerRequestWithCode 42 = rdReqC42 := rfl

theorem readServerRequestWithCode_at_51 : readServerRequestWithCode 51 = rdReqC51 := rfl

theorem readServerRequestWithCode_at_52 : readServerRequestWithCode 52 = rdReqC52 := rfl

theorem readServerRequestWithCode_at_54 : readServerRequestWithCode 54 = rdReqC54 := rfl

theorem readServerRequestWithCode_at_56 : readServerRequestWithCode 56 = rdReqC56 := rfl

theorem readServerRequestWithCode_at_57 : readServerRequestWithCode 57 = rdReqC57 := rfl

theorem readServerRequestWithCode_at_64 : readServerRequestWithCode 64 = rdReqC64 := rfl

theorem readServerRequestWithCode_at_71 : readServerRequestWithCode 71 = rdReqC71 := rfl

theorem readServerRequestWithCode_at_92 : readServerRequestWithCode 92 = rdReqC92 := rfl

theorem readServerRequestWithCode_at_100 : readServerRequestWithCode 100 = rdReqC100 := rfl

theorem readServerRequestWithCode_at_103 : readServerRequestWithCode 103 = rdReqC103 := rfl

theorem readServerRequestWithCode_at_110 : readServerRequestWithCode 110 = rdReqC110 := rfl

theorem readServerRequestWithCode_at_111 : readServerRequestWithCode 111 = rdReqC111 := rfl

theorem readServerRequestWithCode_at_112 : readServerRequestWithCode 112 = rdReqC112 := rfl

theorem readServerRequestWithCode_at_116 : readServerRequestWithCode 116 = rdReqC116 := rfl

theorem readServerRequestWithCode_at_117 : readServerRequestWithCode 117 = rdReqC117 := rfl

theorem readServerRequestWithCode_at_118 : readServerRequestWithCode 118 = rdReqC118 := rfl

theorem readServerRequestWithCode_at_120 : readServerRequestWithCode 120 = rdReqC120 := rfl

theorem readServerRequestWithCode_at_121 : readServerRequestWithCode 121 = rdReqC121 := rfl

theorem readServerRequestWithCode_at_123 : readServerRequestWithCode 123 = rdReqC123 := rfl

theorem readServerRequestWithCode_at_126 : readServerRequestWithCode 126 = rdReqC126 := rfl

theorem readServerRequestWithCode_at_127 : readServerRequestWithCode 127 = rdReqC127 := rfl

theorem readServerRequestWithCode_at_134 : readServerRequestWithCode 134 = rdReqC134 := rfl

theorem readServerRequestWithCode_at_135 : readServerRequestWithCode 135 = rdReqC135 := rfl

theorem readServerRequestWithCode_at_136 : readServerRequestWithCode 136 = rdReqC136 := rfl

theorem readServerRequestWithCode_at_137 : readServerRequestWithCode 137 = rdReqC137 := rfl

theorem readServerRequestWithCode_at_141 : readServerRequestWithCode 141 = rdReqC141 := rfl

theorem readServerRequestWithCode_at_142 : readServerRequestWithCode 142 = rdReqC142 := rfl

theorem readServerRequestWithCode_at_143 : readServerRequestWithCode 143 = rdReqC143 := rfl

theorem readServerRequestWithCode_at_144 : readServerRequestWithCode 144 = rdReqC144 := rfl

theorem readServerRequestWithCode_at_149 : readServerRequestWithCode 149 = rdReqC149 := rfl

theorem readServerRequestWithCode_at_150 : readServerRequestWithCode 150 = rdReqC150 := rfl

theorem readServerRequestWithCode_at_151 : readServerRequestWithCode 151 = rdReqC151 := rfl

theorem readServerRequestWithCode_at_1001 : readServerRequestWithCode 1001 = rdReqC1001 := rfl
/-- `read_server_request` (src/server.rs:1243-1247). -/
def readServerRequest : RdM ServerRequest := do
  let _len ← readU32
  let code ← readU32
  readServerRequestWithCode code

/-- Well-formed server requests. -/
def ServerRequest.WF : ServerRequest → Prop
  | .Login username password version minorVersion =>
      StrWF username ∧ StrWF password ∧ version < 2 ^ 32 ∧
        minorVersion < 2 ^ 32
  | .SetWaitPort port obfuscationType obfuscatedPort =>
      port < 2 ^ 32 ∧
        BothOpt obfuscationType obfuscatedPort (fun p => p < 2 ^ 32)
  | .GetPeerAddress username => StrWF username
  | .WatchUser username => StrWF username
  | .UnwatchUser username => StrWF username
  | .GetUserStatus username => StrWF username
  | .SayChatroom room message => StrWF room ∧ StrWF message
  | .JoinRoom room _ => StrWF room
  | .LeaveRoom room => StrWF room
  | .ConnectToPeer token username _ => token < 2 ^ 32 ∧ StrWF username
  | .MessageUser username message => StrWF username ∧ StrWF message
  | .MessageAcked messageId => messageId < 2 ^ 32
  | .FileSearch token query => token < 2 ^ 32 ∧ StrWF query
  | .SetStatus _ => True
  | .ServerPing => True
  | .SharedFoldersFiles dirs files => dirs < 2 ^ 32 ∧ files < 2 ^ 32
  | .GetUserStats username => StrWF username
  | .UserSearch username token query =>
      StrWF username ∧ token < 2 ^ 32 ∧ StrWF query
  | .InterestAdd item => StrWF item
  | .InterestRemove item => StrWF item
  | .GetRecommendations => True
  | .GetGlobalRecommendations => True
  | .GetUserInterests username => StrWF username
  | .RoomList => True
  | .HaveNoParent _ => True
  | .CheckPrivileges => True
  | .AcceptChildren _ => True
  | .WishlistSearch token query => token < 2 ^ 32 ∧ StrWF query
  | .GetSimilarUsers => True
  | .GetItemRecommendations item => StrWF item
  | .GetItemSimilarUsers item => StrWF item
  | .RoomTickerSet room ticker => StrWF room ∧ StrWF ticker
  | .HatedInterestAdd item => StrWF item
  | .HatedInterestRemove item => StrWF item
  | .RoomSearch room token query =>
      StrWF room ∧ token < 2 ^ 32 ∧ StrWF query
  | .SendUploadSpeed speed => speed < 2 ^ 32
  | .GivePrivileges username days => StrWF username ∧ days < 2 ^ 32
  | .BranchLevel level => level < 2 ^ 32
  | .BranchRoot root => StrWF root
  | .AddRoomMember room username => StrWF room ∧ StrWF username
  | .RemoveRoomMember room username => StrWF room ∧ StrWF username
  | .CancelRoomMembership room => StrWF room
  | .CancelRoomOwnership room => StrWF room
  | .EnableRoomInvitations _ => True
  | .ChangePassword password => StrWF password
  | .AddRoomOperator room username => StrWF room ∧ StrWF username
  | .RemoveRoomOperator room username => StrWF room ∧ StrWF username
  | .MessageUsers usernames message =>
      usernames.length < 2 ^ 32 ∧ (∀ u ∈ usernames, StrWF u) ∧ StrWF message
  | .JoinGlobalRoom => True
  | .LeaveGlobalRoom => True
  | .CantConnectToPeer token username => token < 2 ^ 32 ∧ StrWF username

instance (m : ServerRequest) : Decidable m.WF := by
  cases m <;> (simp only [ServerRequest.WF]; infer_instance)

theorem readServerRequest_ok (m : ServerRequest) (h : m.WF) :
    readServerRequest (wServerRequest m) = (Except.ok m, []) := by
  cases m with
  | ServerPing =>
    simp [readServerRequest, wServerRequest, wServerRequestPayload,
      ServerRequest.codeVal, RdM.bind_run, readU32_skip,
      readServerRequestWithCode_at_32, rdReqC32, RdM.pure_run,
      readU32_ok 32 (by norm_num), readU32_okE 32 (by norm_num)]
  | GetRecommendations =>
    simp [readServerRequest, wServerRequest, wServerRequestPayload,
      ServerRequest.codeVal, RdM.bind_run, readU32_skip,
      readServerRequestWithCode_at_54, rdReqC54, RdM.pure_run,
      readU32_ok 54 (by norm_num), readU32_okE 54 (by norm_num)]
  | GetGlobalRecommendations =>
    simp [readServerRequest, wServerRequest, wServerRequestPayload,
      ServerRequest.codeVal, RdM.bind_run, readU32_skip,
      readServerRequestWithCode_at_56, rdReqC56, RdM.pure_run,
      readU32_ok 56 (by norm_num), readU32_okE 56 (by norm_num)]
  | RoomList =>
    simp [readServerRequest, wServerRequest, wServerRequestPayload,
      ServerRequest.codeVal, RdM.bind_run, readU32_skip,
      readServerRequestWithCode_at_64, rdReqC64, RdM.pure_run,
      readU32_ok 64 (by norm_num), readU32_okE 64 (by norm_num)]
  | CheckPrivileges =>
    simp [readServerRequest, wServerRequest, wServerRequestPayload,
      ServerRequest.codeVal, RdM.bind_run, readU32_skip,
      readServerRequestWithCode_at_92, rdReqC92, RdM.pure_run,
      readU32_ok 92 (by norm_num), readU32_okE 92 (by norm_num)]
  | GetSimilarUsers =>
    simp [readServerRequest, wServerRequest, wServerRequestPayload,
      ServerRequest.codeVal, RdM.bind_run, readU32_skip,
      readServerRequestWithCode_at_110, rdReqC110, RdM.pure_run,
      readU32_ok 110 (by norm_num), readU32_okE 110 (by norm_num)]
  | JoinGlobalRoom =>
    simp [readServerRequest, wServerRequest, wServerRequestPayload,
      ServerRequest.codeVal, RdM.bind_run, readU32_skip,
      readServerRequestWithCode_at_150, rdReqC150, RdM.pure_run,
      readU32_ok 150 (by norm_num), readU32_okE 150 (by norm_num)]
  | LeaveGlobalRoom =>
    simp [readServerRequest, wServerRequest, wServerRequestPayload,
      ServerRequest.codeVal, RdM.bind_run, readU32_skip,
      readServerRequestWithCode_at_151, rdReqC151, RdM.pure_run,
      readU32_ok 151 (by norm_num), readU32_okE 151 (by norm_num)]
  | GetPeerAddress username =>
    obtain ⟨h1, h2⟩ := h
    simp [readServerRequest, wServerRequest, wServerRequestPayload,
      ServerRequest.codeVal, RdM.bind_run, readU32_skip,
      readServerRequestWithCode_at_3, rdReqC3, RdM.pure_run, readU32_ok 3 (by norm_num),
      readStr_okE username h1 h2]
  | WatchUser username =>
    obtain ⟨h1, h2⟩ := h
    simp [readServerRequest, wServerRequest, wServerRequestPayload,
      ServerRequest.codeVal, RdM.bind_run, readU32_skip,
      readServerRequestWithCode_at_5, rdReqC5, RdM.pure_run, readU32_ok 5 (by norm_num),
      readStr_okE username h1 h2]
  | UnwatchUser username =>
    obtain ⟨h1, h2⟩ := h
    simp [readServerRequest, wServerRequest, wServerRequestPayload,
      ServerRequest.codeVal, RdM.bind_run, readU32_skip,
      readServerRequestWithCode_at_6, rdReqC6, RdM.pure_run, readU32_ok 6 (by norm_num),
      readStr_okE username h1 h2]
  | GetUserStatus username =>
    obtain ⟨h1, h2⟩ := h
    simp [readServerRequest, wServerRequest, wServerRequestPayload,
      ServerRequest.codeVal, RdM.bind_run, readU32_skip,
      readServerRequestWithCode_at_7, rdReqC7, RdM.pure_run, readU32_ok 7 (by norm_num),
      readStr_okE username h1 h2]
  | LeaveRoom room =>
    obtain ⟨h1, h2⟩ := h
    simp [readServerRequest, wServerRequest, wServerRequestPayload,
      ServerRequest.codeVal, RdM.bind_run, readU32_skip,
      readServerRequestWithCode_at_15, rdReqC15, RdM.pure_run, readU32_ok 15 (by norm_num),
      readStr_okE room h1 h2]
  | GetUserStats username =>
    obtain ⟨h1, h2⟩ := h
    simp [readServerRequest, wServerRequest, wServerRequestPayload,
      ServerRequest.codeVal, RdM.bind_run, readU32_skip,
      readServerRequestWithCode_at_36, rdReqC36, RdM.pure_run, readU32_ok 36 (by norm_num),
      readStr_okE username h1 h2]
  | InterestAdd item =>
    obtain ⟨h1, h2⟩ := h
    simp [readServerRequest, wServerRequest, wServerRequestPayload,
      ServerRequest.codeVal, RdM.bind_run, readU32_skip,
      readServerRequestWithCode_at_51, rdReqC51, RdM.pure_run, readU32_ok 51 (by norm_num),
      readStr_okE item h1 h2]
  | InterestRemove item =>
    obtain ⟨h1, h2⟩ := h
    simp [readServerRequest, wServerRequest, wServerRequestPayload,
      ServerRequest.codeVal, RdM.bind_run, readU32_skip,
      readServerRequestWithCode_at_52, rdReqC52, RdM.pure_run, readU32_ok 52 (by norm_num),
      readStr_okE item h1 h2]
  | GetUserInterests username =>
    obtain ⟨h1, h2⟩ := h
    simp [readServerRequest, wServerRequest, wServerRequestPayload,
      ServerRequest.codeVal, RdM.bind_run, readU32_skip,
      readServerRequestWithCode_at_57, rdReqC57, RdM.pure_run, readU32_ok 57 (by norm_num),
      readStr_okE username h1 h2]
  | GetItemRecommendations item =>
    obtain ⟨h1, h2⟩ := h
    simp [readServerRequest, wServerRequest, wServerRequestPayload,
      ServerRequest.codeVal, RdM.bind_run, readU32_skip,
      readServerRequestWithCode_at_111, rdReqC111, RdM.pure_run, readU32_ok 111 (by norm_num),
      readStr_okE item h1 h2]
  | GetItemSimilarUsers item =>
    obtain ⟨h1, h2⟩ := h
    simp [readServerRequest, wServerRequest, wServerRequestPayload,
      ServerRequest.codeVal, RdM.bind_run, readU32_skip,
      readServerRequestWithCode_at_112, rdReqC112, RdM.pure_run, readU32_ok 112 (by norm_num),
      readStr_okE item h1 h2]
  | HatedInterestAdd item =>
    obtain ⟨h1, h2⟩ := h
    simp [readServerRequest, wServerRequest, wServerRequestPayload,
      ServerRequest.codeVal, RdM.bind_run, readU32_skip,
      readServerRequestWithCode_at_117, rdReqC117, RdM.pure_run, readU32_ok 117 (by norm_num),
      readStr_okE item h1 h2]
  | HatedInterestRemove item =>
    obtain ⟨h1, h2⟩ := h
    simp [readServerRequest, wServerRequest, wServerRequestPayload,
      ServerRequest.codeVal, RdM.bind_run, readU32_skip,
      readServerRequestWithCode_at_118, rdReqC118, RdM.pure_run, readU32_ok 118 (by norm_num),
      readStr_okE item h1 h2]
  | BranchRoot root =>
    obtain ⟨h1, h2⟩ := h
    simp [readServerRequest, wServerRequest, wServerRequestPayload,
      ServerRequest.codeVal, RdM.bind_run, readU32_skip,
      readServerRequestWithCode_at_127, rdReqC127, RdM.pure_run, readU32_ok 127 (by norm_num),
      readStr_okE root h1 h2]
  | CancelRoomMembership room =>
    obtain ⟨h1, h2⟩ := h
    simp [readServerRequest, wServerRequest, wServerRequestPayload,
      ServerRequest.codeVal, RdM.bind_run, readU32_skip,
      readServerRequestWithCode_at_136, rdReqC136, RdM.pure_run, readU32_ok 136 (by norm_num),
      readStr_okE room h1 h2]
  | CancelRoomOwnership room =>
    obtain ⟨h1, h2⟩ := h
    simp [readServerRequest, wServerRequest, wServerRequestPayload,
      ServerRequest.codeVal, RdM.bind_run, readU32_skip,
      readServerRequestWithCode_at_137, rdReqC137, RdM.pure_run, readU32_ok 137 (by norm_num),
      readStr_okE room h1 h2]
  | ChangePassword password =>
    obtain ⟨h1, h2⟩ := h
    simp [readServerRequest, wServerRequest, wServerRequestPayload,
      ServerRequest.codeVal, RdM.bind_run, readU32_skip,
      readServerRequestWithCode_at_142, rdReqC142, RdM.pure_run, readU32_ok 142 (by norm_num),
      readStr_okE password h1 h2]
  | SayChatroom room message =>
    obtain ⟨⟨ha1, ha2⟩, hb1, hb2⟩ := h
    simp [readServerRequest, wServerRequest, wServerRequestPayload,
      ServerRequest.codeVal, RdM.bind_run, readU32_skip,
      readServerRequestWithCode_at_13, rdReqC13, RdM.pure_run, readU32_ok 13 (by norm_num),
      readStr_ok room ha1 ha2, readStr_okE message hb1 hb2]
  | MessageUser username message =>
    obtain ⟨⟨ha1, ha2⟩, hb1, hb2⟩ := h
    simp [readServerRequest, wServerRequest, wServerRequestPayload,
      ServerRequest.codeVal, RdM.bind_run, readU32_skip,
      readServerRequestWithCode_at_22, rdReqC22, RdM.pure_run, readU32_ok 22 (by norm_num),
      readStr_ok username ha1 ha2, readStr_okE message hb1 hb2]
  | RoomTickerSet room ticker =>
    obtain ⟨⟨ha1, ha2⟩, hb1, hb2⟩ := h
    simp [readServerRequest, wServerRequest, wServerRequestPayload,
      ServerRequest.codeVal, RdM.bind_run, readU32_skip,
      readServerRequestWithCode_at_116, rdReqC116, RdM.pure_run, readU32_ok 116 (by norm_num),
      readStr_ok room ha1 ha2, readStr_okE ticker hb1 hb2]
  | AddRoomMember room username =>
    obtain ⟨⟨ha1, ha2⟩, hb1, hb2⟩ := h
    simp [readServerRequest, wServerRequest, wServerRequestPayload,
      ServerRequest.codeVal, RdM.bind_run, readU32_skip,
      readServerRequestWithCode_at_134, rdReqC134, RdM.pure_run, readU32_ok 134 (by norm_num),
      readStr_ok room ha1 ha2, readStr_okE username hb1 hb2]
  | RemoveRoomMember room username =>
    obtain ⟨⟨ha1, ha2⟩, hb1, hb2⟩ := h
    simp [readServerRequest, wServerRequest, wServerRequestPayload,
      ServerRequest.codeVal, RdM.bind_run, readU32_skip,
      readServerRequestWithCode_at_135, rdReqC135, RdM.pure_run, readU32_ok 135 (by norm_num),
      readStr_ok room ha1 ha2, readStr_okE username hb1 hb2]
  | AddRoomOperator room username =>
    obtain ⟨⟨ha1, ha2⟩, hb1, hb2⟩ := h
    simp [readServerRequest, wServerRequest, wServerRequestPayload,
      ServerRequest.codeVal, RdM.bind_run, readU32_skip,
      readServerRequestWithCode_at_143, rdReqC143, RdM.pure_run, readU32_ok 143 (by norm_num),
      readStr_ok room ha1 ha2, readStr_okE username hb1 hb2]
  | RemoveRoomOperator room username =>
    obtain ⟨⟨ha1, ha2⟩, hb1, hb2⟩ := h
    simp [readServerRequest, wServerRequest, wServerRequestPayload,
      ServerRequest.codeVal, RdM.bind_run, readU32_skip,
      readServerRequestWithCode_at_144, rdReqC144, RdM.pure_run, readU32_ok 144 (by norm_num),
      readStr_ok room ha1 ha2, readStr_okE username hb1 hb2]
  | HaveNoParent noParent =>
    simp [readServerRequest, wServerRequest, wServerRequestPayload,
      ServerRequest.codeVal, RdM.bind_run, readU32_skip,
      readServerRequestWithCode_at_71, rdReqC71, RdM.pure_run,
      readU32_ok 71 (by norm_num), readBool_okE noParent]
  | AcceptChildren accept =>
    simp [readServerRequest, wServerRequest, wServerRequestPayload,
      ServerRequest.codeVal, RdM.bind_run, readU32_skip,
      readServerRequestWithCode_at_100, rdReqC100, RdM.pure_run,
      readU32_ok 100 (by norm_num), readBool_okE accept]
  | EnableRoomInvitations enable =>
    simp [readServerRequest, wServerRequest, wServerRequestPayload,
      ServerRequest.codeVal, RdM.bind_run, readU32_skip,
      readServerRequestWithCode_at_141, rdReqC141, RdM.pure_run,
      readU32_ok 141 (by norm_num), readBool_okE enable]
  | MessageAcked messageId =>
    simp [readServerRequest, wServerRequest, wServerRequestPayload,
      ServerRequest.codeVal, RdM.bind_run, readU32_skip,
      readServerRequestWithCode_at_23, rdReqC23, RdM.pure_run, readU32_ok 23 (by norm_num),
      readU32_okE messageId h]
  | SendUploadSpeed speed =>
    simp [readServerRequest, wServerRequest, wServerRequestPayload,
      ServerRequest.codeVal, RdM.bind_run, readU32_skip,
      readServerRequestWithCode_at_121, rdReqC121, RdM.pure_run, readU32_ok 121 (by norm_num),
      readU32_okE speed h]
  | BranchLevel level =>
    simp [readServerRequest, wServerRequest, wServerRequestPayload,
      ServerRequest.codeVal, RdM.bind_run, readU32_skip,
      readServerRequestWithCode_at_126, rdReqC126, RdM.pure_run, readU32_ok 126 (by norm_num),
      readU32_okE level h]
  | FileSearch token query =>
    obtain ⟨ha, hb1, hb2⟩ := h
    simp [readServerRequest, wServerRequest, wServerRequestPayload,
      ServerRequest.codeVal, RdM.bind_run, readU32_skip,
      readServerRequestWithCode_at_26, rdReqC26, RdM.pure_run, readU32_ok 26 (by norm_num),
      readU32_ok token ha, readStr_okE query hb1 hb2]
  | WishlistSearch token query =>
    obtain ⟨ha, hb1, hb2⟩ := h
    simp [readServerRequest, wServerRequest, wServerRequestPayload,
      ServerRequest.codeVal, RdM.bind_run, readU32_skip,
      readServerRequestWithCode_at_103, rdReqC103, RdM.pure_run, readU32_ok 103 (by norm_num),
      readU32_ok token ha, readStr_okE query hb1 hb2]
  | CantConnectToPeer token username =>
    obtain ⟨ha, hb1, hb2⟩ := h
    simp [readServerRequest, wServerRequest, wServerRequestPayload,
      ServerRequest.codeVal, RdM.bind_run, readU32_skip,
      readServerRequestWithCode_at_1001, rdReqC1001, RdM.pure_run, readU32_ok 1001 (by norm_num),
      readU32_ok token ha, readStr_okE username hb1 hb2]
  | SharedFoldersFiles dirs files =>
    obtain ⟨h1, h2⟩ := h
    simp [readServerRequest, wServerRequest, wServerRequestPayload,
      ServerRequest.codeVal, RdM.bind_run, readU32_skip,
      readServerRequestWithCode_at_35, rdReqC35, RdM.pure_run, readU32_ok 35 (by norm_num),
      readU32_ok dirs h1, readU32_okE files h2]
  | GivePrivileges username days =>
    obtain ⟨⟨h1, h2⟩, hd⟩ := h
    simp [readServerRequest, wServerRequest, wServerRequestPayload,
      ServerRequest.codeVal, RdM.bind_run, readU32_skip,
      readServerRequestWithCode_at_123, rdReqC123, RdM.pure_run, readU32_ok 123 (by norm_num),
      readStr_ok username h1 h2, readU32_okE days hd]
  | UserSearch username token query =>
    obtain ⟨⟨ha1, ha2⟩, ht, hq1, hq2⟩ := h
    simp [readServerRequest, wServerRequest, wServerRequestPayload,
      ServerRequest.codeVal, RdM.bind_run, readU32_skip,
      readServerRequestWithCode_at_42, rdReqC42, RdM.pure_run, readU32_ok 42 (by norm_num),
      readStr_ok username ha1 ha2, readU32_ok token ht,
      readStr_okE query hq1 hq2]
  | RoomSearch room token query =>
    obtain ⟨⟨ha1, ha2⟩, ht, hq1, hq2⟩ := h
    simp [readServerRequest, wServerRequest, wServerRequestPayload,
      ServerRequest.codeVal, RdM.bind_run, readU32_skip,
      readServerRequestWithCode_at_120, rdReqC120, RdM.pure_run, readU32_ok 120 (by norm_num),
      readStr_ok room ha1 ha2, readU32_ok token ht,
      readStr_okE query hq1 hq2]
  | Login username password version minorVersion =>
    obtain ⟨⟨hu1, hu2⟩, ⟨hp1, hp2⟩, hv, hm⟩ := h
    have hh := login_hash_wf username password
    simp [readServerRequest, wServerRequest, wServerRequestPayload,
      ServerRequest.codeVal, RdM.bind_run, readU32_skip,
      readServerRequestWithCode_at_1, rdReqC1, RdM.pure_run, readU32_ok 1 (by norm_num),
      readStr_ok username hu1 hu2, readStr_ok password hp1 hp2,
      readU32_ok version hv,
      readStr_ok (login_hash username password) hh.1 hh.2,
      readU32_okE minorVersion hm]
  | SetWaitPort port obfuscationType obfuscatedPort =>
    obtain ⟨hp, hb⟩ := h
    cases obfuscationType with
    | none =>
      cases obfuscatedPort with
      | none =>
        simp [readServerRequest, wServerRequest, wServerRequestPayload,
          ServerRequest.codeVal, RdM.bind_run, readU32_skip,
          readServerRequestWithCode_at_2, rdReqC2, RdM.pure_run,
          readU32_ok 2 (by norm_num), readU32_okE port hp, hasRemaining_run]
      | some op => exact hb.elim
    | some t =>
      cases obfuscatedPort with
      | none => exact hb.elim
      | some op =>
        simp [readServerRequest, wServerRequest, wServerRequestPayload,
          ServerRequest.codeVal, RdM.bind_run, readU32_skip,
          readServerRequestWithCode_at_2, rdReqC2, RdM.pure_run,
          readU32_ok 2 (by norm_num), readU32_ok port hp, hasRemaining_run,
          w32_append_ne_nil, readU32_ok t.toNat (ObfuscationType.toNat_lt_obf t),
          ObfuscationType.tryFrom_toNat_obf, readU32_okE op hb]
  | JoinRoom room isPrivate =>
    obtain ⟨h1, h2⟩ := h
    cases isPrivate <;>
      simp [readServerRequest, wServerRequest, wServerRequestPayload,
        ServerRequest.codeVal, RdM.bind_run, readU32_skip,
        readServerRequestWithCode_at_14, rdReqC14, RdM.pure_run, readU32_ok 14 (by norm_num),
        readStr_ok room h1 h2, hasRemaining_run, w32_isEmpty,
        readU32_okE 0 (by norm_num), readU32_okE 1 (by norm_num)]
  | ConnectToPeer token username connectionType =>
    obtain ⟨ht, hu1, hu2⟩ := h
    have hcs := ConnectionType.asStr_wf connectionType
    simp [readServerRequest, wServerRequest, wServerRequestPayload,
      ServerRequest.codeVal, RdM.bind_run, readU32_skip,
      readServerRequestWithCode_at_18, rdReqC18, RdM.pure_run, readU32_ok 18 (by norm_num),
      readU32_ok token ht, readStr_ok username hu1 hu2,
      readStr_okE connectionType.asStr hcs.1 hcs.2,
      ConnectionType.parse_asStr]
  | SetStatus status =>
    simp [readServerRequest, wServerRequest, wServerRequestPayload,
      ServerRequest.codeVal, RdM.bind_run, readU32_skip,
      readServerRequestWithCode_at_28, rdReqC28, RdM.pure_run,
      readU32_ok 28 (by norm_num), readI32_status_okE status,
      status_emod_toNat, status_emod_toNat_lit, UserStatus.tryFrom_toNat]
  | MessageUsers usernames message =>
    obtain ⟨hl, hus, hm1, hm2⟩ := h
    simp [readServerRequest, wServerRequest, wServerRequestPayload,
      ServerRequest.codeVal, RdM.bind_run, readU32_skip,
      readServerRequestWithCode_at_149, rdReqC149, RdM.pure_run, readU32_ok 149 (by norm_num),
      readList_ok readStr wstr usernames (fun u hu => readStr_ok u (hus u hu).1 (hus u hu).2) hl,
      readStr_okE message hm1 hm2]

-- ----------------------------------------------------------------------
-- Server responses (src/server.rs:573-764, 766-1231, 1497-1827)
-- ----------------------------------------------------------------------

theorem readN_map_ok {α β : Type} (rd : RdM β) (w : α → Bytes) (f : α → β)
    (xs : List α)
    (hall : ∀ x ∈ xs, ∀ r, rd (w x ++ r) = (Except.ok (f x), r)) (r : Bytes) :
    readN xs.length rd (xs.foldr (fun x acc => w x ++ acc) [] ++ r) =
      (Except.ok (xs.map f), r) := by
  induction xs with
  | nil => simp [readN, RdM.pure_run]
  | cons x xs ih =>
    simp only [List.length_cons, List.foldr_cons, List.append_assoc, readN,
      RdM.bind_run, hall x (List.mem_cons_self x xs),
      ih (fun y hy => hall y (List.mem_cons_of_mem x hy)), RdM.pure_run,
      List.map_cons]

theorem readList_map_ok {α β : Type} (rd : RdM β) (w : α → Bytes) (f : α → β)
    (xs : List α)
    (hall : ∀ x ∈ xs, ∀ r, rd (w x ++ r) = (Except.ok (f x), r))
    (hn : xs.length < 2 ^ 32) (r : Bytes) :
    readList rd (wlist w xs ++ r) = (Except.ok (xs.map f), r) := by
  simp only [readList, wlist, List.append_assoc, RdM.bind_run,
    readU32_ok xs.length hn]
  exact readN_map_ok rd w f xs hall r

theorem readList_map_okE {α β : Type} (rd : RdM β) (w : α → Bytes) (f : α → β)
    (xs : List α)
    (hall : ∀ x ∈ xs, ∀ r, rd (w x ++ r) = (Except.ok (f x), r))
    (hn : xs.length < 2 ^ 32) :
    readList rd (wlist w xs) = (Except.ok (xs.map f), []) := by
  have := readList_map_ok rd w f xs hall hn []
  simpa using this

/-- The reconstruction loop of the `JoinRoom` response reader
(src/server.rs:867-876): zip the five parallel lists, padding with
defaults, propagating `UserStatus::try_from` failures. -/
def buildRoomUsers : List Bytes → List Nat → List UserStats → List Nat →
    List Bytes → Except Err (List RoomUser)
  | [], _, _, _, _ => Except.ok []
  | u :: us, sts, stl, sll, cs =>
    match UserStatus.tryFrom (sts.headD 0) with
    | Except.error e => Except.error e
    | Except.ok st =>
      match buildRoomUsers us sts.tail stl.tail sll.tail cs.tail with
      | Except.error e => Except.error e
      | Except.ok rest =>
        Except.ok (⟨u, st, stl.headD ⟨0, 0, 0, 0, 0⟩,
          (sll.headD 0) != 0, cs.headD []⟩ :: rest)

theorem buildRoomUsers_proj (users : List RoomUser) :
    buildRoomUsers (users.map (fun u => u.username))
      (users.map (fun u => u.status.toNat)) (users.map (fun u => u.stats))
      (users.map (fun u => if u.slotsFull then 1 else 0))
      (users.map (fun u => u.countryCode)) = Except.ok users := by
  induction users with
  | nil => rfl
  | cons u us ih =>
    obtain ⟨un, st, sta, sf, cc⟩ := u
    cases sf <;>
      simp [buildRoomUsers, UserStatus.tryFrom_toNat, ih]

/-- `ServerResponse` (src/server.rs:573-764). -/
inductive ServerResponse where
  | LoginSuccess (greet : Bytes) (ownIp : Ipv4) (passwordHash : Bytes)
      (isSupporter : Bool)
  | LoginFailure (reason : LoginRejectionReason) (detail : Option Bytes)
  | GetPeerAddress (username : Bytes) (ip : Ipv4) (port : Nat)
      (obfuscationType : ObfuscationType) (obfuscatedPort : Nat)
  | WatchUser (username : Bytes) (existsUser : Bool)
      (status : Option UserStatus) (stats : Option UserStats)
      (countryCode : Option Bytes)
  | GetUserStatus (username : Bytes) (status : UserStatus) (privileged : Bool)
  | SayChatroom (room username message : Bytes)
  | JoinRoom (room : Bytes) (users : List RoomUser) (owner : Option Bytes)
      (operators : List Bytes)
  | LeaveRoom (room : Bytes)
  | UserJoinedRoom (room username : Bytes) (status : UserStatus)
      (stats : UserStats) (slotsFull : Bool) (countryCode : Bytes)
  | UserLeftRoom (room username : Bytes)
  | ConnectToPeer (username : Bytes) (connectionType : ConnectionType)
      (ip : Ipv4) (port token : Nat) (privileged : Bool)
      (obfuscationType : ObfuscationType) (obfuscatedPort : Nat)
  | MessageUser (id timestamp : Nat) (username message : Bytes)
      (newMessage : Bool)
  | FileSearch (username : Bytes) (token : Nat) (query : Bytes)
  | GetUserStats (username : Bytes) (stats : UserStats)
  | Relogged
  | Recommendations (recommendations unrecommendations : List (Bytes × Int))
  | GlobalRecommendations
      (recommendations unrecommendations : List (Bytes × Int))
  | UserInterests (username : Bytes) (likes hates : List Bytes)
  | RoomList (rooms ownedPrivateRooms privateRooms : List (Bytes × Nat))
      (operatedPrivateRooms : List Bytes)
  | AdminMessage (message : Bytes)
  | PrivilegedUsers (users : List Bytes)
  | ParentMinSpeed (speed : Nat)
  | ParentSpeedRatioMsg (ratioVal : Nat)
  | CheckPrivileges (timeLeft : Nat)
  | EmbeddedMessage (code : Nat) (data : Bytes)
  | PossibleParents (parents : List PossibleParent)
  | WishlistInterval (interval : Nat)
  | SimilarUsers (users : List (Bytes × Nat))
  | ItemRecommendations (item : Bytes) (recommendations : List (Bytes × Int))
  | ItemSimilarUsers (item : Bytes) (users : List Bytes)
  | RoomTickerState (room : Bytes) (tickers : List RoomTicker)
  | RoomTickerAdd (room username ticker : Bytes)
  | RoomTickerRemove (room username : Bytes)
  | EnableRoomInvitations (enable : Bool)
  | ChangePassword (password : Bytes)
  | AddRoomOperator (room username : Bytes)
  | RemoveRoomOperator (room username : Bytes)
  | RoomOperatorshipGranted (room : Bytes)
  | RoomOperatorshipRevoked (room : Bytes)
  | RoomOperators (room : Bytes) (operators : List Bytes)
  | RoomMembershipGranted (room : Bytes)
  | RoomMembershipRevoked (room : Bytes)
  | RoomMembers (room : Bytes) (members : List Bytes)
  | AddRoomMember (room username : Bytes)
  | RemoveRoomMember (room username : Bytes)
  | ResetDistributed
  | GlobalRoomMessage (room username message : Bytes)
  | ExcludedSearchPhrases (phrases : List Bytes)
  | CantConnectToPeer (token : Nat) (username : Bytes)
  | CantCreateRoom (room : Bytes)
  deriving Repr

/-- `ServerResponse::code` as the u32 wire value (src/server.rs:1500-1553).
`ParentSpeedRatioMsg` models the `ParentSpeedRatio` variant (code 84). -/
def ServerResponse.codeVal : ServerResponse → Nat
  | .LoginSuccess _ _ _ _ => 1
  | .LoginFailure _ _ => 1
  | .GetPeerAddress _ _ _ _ _ => 3
  | .WatchUser _ _ _ _ _ => 5
  | .GetUserStatus _ _ _ => 7
  | .SayChatroom _ _ _ => 13
  | .JoinRoom _ _ _ _ => 14
  | .LeaveRoom _ => 15
  | .UserJoinedRoom _ _ _ _ _ _ => 16
  | .UserLeftRoom _ _ => 17
  | .ConnectToPeer _ _ _ _ _ _ _ _ => 18
  | .MessageUser _ _ _ _ _ => 22
  | .FileSearch _ _ _ => 26
  | .GetUserStats _ _ => 36
  | .Relogged => 41
  | .Recommendations _ _ => 54
  | .GlobalRecommendations _ _ => 56
  | .UserInterests _ _ _ => 57
  | .RoomList _ _ _ _ => 64
  | .AdminMessage _ => 66
  | .PrivilegedUsers _ => 69
  | .ParentMinSpeed _ => 83
  | .ParentSpeedRatioMsg _ => 84
  | .CheckPrivileges _ => 92
  | .EmbeddedMessage _ _ => 93
  | .PossibleParents _ => 102
  | .WishlistInterval _ => 104
  | .SimilarUsers _ => 110
  | .ItemRecommendations _ _ => 111
  | .ItemSimilarUsers _ _ => 112
  | .RoomTickerState _ _ => 113
  | .RoomTickerAdd _ _ _ => 114
  | .RoomTickerRemove _ _ => 115
  | .EnableRoomInvitations _ => 141
  | .ChangePassword _ => 142
  | .AddRoomOperator _ _ => 143
  | .RemoveRoomOperator _ _ => 144
  | .RoomOperatorshipGranted _ => 145
  | .RoomOperatorshipRevoked _ => 146
  | .RoomOperators _ _ => 148
  | .RoomMembershipGranted _ => 139
  | .RoomMembershipRevoked _ => 140
  | .RoomMembers _ _ => 133
  | .AddRoomMember _ _ => 134
  | .RemoveRoomMember _ _ => 135
  | .ResetDistributed => 130
  | .GlobalRoomMessage _ _ _ => 152
  | .ExcludedSearchPhrases _ => 160
  | .CantConnectToPeer _ _ => 1001
  | .CantCreateRoom _ => 1003

/-- `ServerResponse::write_payload` (src/server.rs:1555-1826).  Note the
`RoomList` arm writes each room list as a single counted list of
interleaved (name, count) pairs — exactly as the source does. -/
def wServerResponsePayload : ServerResponse → Bytes
  | .LoginSuccess greet ownIp passwordHash isSupporter =>
      wbool true ++ wstr greet ++ wip ownIp ++ wstr passwordHash ++
        wbool isSupporter
  | .LoginFailure reason detail =>
      wbool false ++ wstr reason.wireStr ++
        (match detail with
          | some d => wstr d
          | none => [])
  | .GetPeerAddress username ip port obfuscationType obfuscatedPort =>
      wstr username ++ wip ip ++ w32 port ++ w32 obfuscationType.toNat ++
        w16 obfuscatedPort
  | .WatchUser username existsUser status stats countryCode =>
      wstr username ++ wbool existsUser ++
        (if existsUser then
          (match status with
            | some s => w32 s.toNat
            | none => []) ++
          (match stats with
            | some st => wUserStats st
            | none => []) ++
          (match countryCode with
            | some cc => wstr cc
            | none => [])
        else [])
  | .GetUserStatus username status privileged =>
      wstr username ++ w32 status.toNat ++ wbool privileged
  | .SayChatroom room username message =>
      wstr room ++ wstr username ++ wstr message
  | .JoinRoom room users owner operators =>
      wstr room ++ wlist (fun u => wstr u.username) users ++
        wlist (fun u => w32 u.status.toNat) users ++
        wlist (fun u => wUserStats u.stats) users ++
        wlist (fun u => w32 (if u.slotsFull then 1 else 0)) users ++
        wlist (fun u => wstr u.countryCode) users ++
        (match owner with
          | some o => wstr o ++ wlist wstr operators
          | none => [])
  | .LeaveRoom room => wstr room
  | .UserJoinedRoom room username status stats slotsFull countryCode =>
      wstr room ++ wstr username ++ w32 status.toNat ++ wUserStats stats ++
        w32 (if slotsFull then 1 else 0) ++ wstr countryCode
  | .UserLeftRoom room username => wstr room ++ wstr username
  | .ConnectToPeer username connectionType ip port token privileged
      obfuscationType obfuscatedPort =>
      wstr username ++ wstr connectionType.asStr ++ wip ip ++ w32 port ++
        w32 token ++ wbool privileged ++ w32 obfuscationType.toNat ++
        w32 obfuscatedPort
  | .MessageUser id timestamp username message newMessage =>
      w32 id ++ w32 timestamp ++ wstr username ++ wstr message ++
        wbool newMessage
  | .FileSearch username token query => wstr username ++ w32 token ++ wstr query
  | .GetUserStats username stats => wstr username ++ wUserStats stats
  | .Relogged => []
  | .Recommendations recommendations unrecommendations =>
      wlist wNameCount recommendations ++ wlist wNameCount unrecommendations
  | .GlobalRecommendations recommendations unrecommendations =>
      wlist wNameCount recommendations ++ wlist wNameCount unrecommendations
  | .UserInterests username likes hates =>
      wstr username ++ wlist wstr likes ++ wlist wstr hates
  | .RoomList rooms ownedPrivateRooms privateRooms operatedPrivateRooms =>
      wlist wNameVal rooms ++ wlist wNameVal ownedPrivateRooms ++
        wlist wNameVal privateRooms ++ wlist wstr operatedPrivateRooms
  | .AdminMessage message => wstr message
  | .PrivilegedUsers users => wlist wstr users
  | .ParentMinSpeed speed => w32 speed
  | .ParentSpeedRatioMsg ratioVal => w32 ratioVal
  | .CheckPrivileges timeLeft => w32 timeLeft
  | .EmbeddedMessage code data => w8 code ++ data
  | .PossibleParents parents => wlist wPossibleParent parents
  | .WishlistInterval interval => w32 interval
  | .SimilarUsers users => wlist wNameVal users
  | .ItemRecommendations item recommendations =>
      wstr item ++ wlist wNameCount recommendations
  | .ItemSimilarUsers item users => wstr item ++ wlist wstr users
  | .RoomTickerState room tickers => wstr room ++ wlist wRoomTicker tickers
  | .RoomTickerAdd room username ticker =>
      wstr room ++ wstr username ++ wstr ticker
  | .RoomTickerRemove room username => wstr room ++ wstr username
  | .EnableRoomInvitations enable => wbool enable
  | .ChangePassword password => wstr password
  | .AddRoomOperator room username => wstr room ++ wstr username
  | .RemoveRoomOperator room username => wstr room ++ wstr username
  | .RoomOperatorshipGranted room => wstr room
  | .RoomOperatorshipRevoked room => wstr room
  | .RoomOperators room operators => wstr room ++ wlist wstr operators
  | .RoomMembershipGranted room => wstr room
  | .RoomMembershipRevoked room => wstr room
  | .RoomMembers room members => wstr room ++ wlist wstr members
  | .AddRoomMember room username => wstr room ++ wstr username
  | .RemoveRoomMember room username => wstr room ++ wstr username
  | .ResetDistributed => []
  | .GlobalRoomMessage room username message =>
      wstr room ++ wstr username ++ wstr message
  | .ExcludedSearchPhrases phrases => wlist wstr phrases
  | .CantConnectToPeer token username => w32 token ++ wstr username
  | .CantCreateRoom room => wstr room

def wServerResponse (m : ServerResponse) : Bytes :=
  w32 (4 + (wServerResponsePayload m).length) ++ w32 m.codeVal ++
    wServerResponsePayload m

/-- `ServerResponse::read_with_code` (src/server.rs:766-1231), dispatching
on the u32 code value. -/
def rdRespC1 : RdM ServerResponse :=
  do
    let success ← readBool
    if success then do
      let greet ← readStr
      let ownIp ← readIp
      let passwordHash ← readStr
      let isSupporter ← readBool
      pure (.LoginSuccess greet ownIp passwordHash isSupporter)
    else do
      let rs ← readStr
      let reason := LoginRejectionReason.fromString rs
      let hr ← hasRemaining
      let detail ←
        if (reason == LoginRejectionReason.InvalidUsername) && hr then do
          let d ← readStr
          pure (some d)
        else pure none
      pure (.LoginFailure reason detail)

def rdRespC3 : RdM ServerResponse :=
  do
    let username ← readStr
    let ip ← readIp
    let port ← readU32
    let ov ← readU32
    match ObfuscationType.tryFrom ov with
    | Except.error e => throwRd e
    | Except.ok obfuscationType => do
      let obfuscatedPort ← readU16
      pure (.GetPeerAddress username ip port obfuscationType obfuscatedPort)

def rdRespC5 : RdM ServerResponse :=
  do
    let username ← readStr
    let existsUser ← readBool
    if existsUser then do
      let sv ← readU32
      match UserStatus.tryFrom sv with
      | Except.error e => throwRd e
      | Except.ok status => do
        let stats ← readUserStats
        let hr ← hasRemaining
        let countryCode ←
          if (status != UserStatus.Offline) && hr then do
            let c ← readStr
            pure (some c)
          else pure none
        pure (.WatchUser username true (some status) (some stats) countryCode)
    else pure (.WatchUser username false none none none)

def rdRespC7 : RdM ServerResponse :=
  do
    let username ← readStr
    let sv ← readU32
    match UserStatus.tryFrom sv with
    | Except.error e => throwRd e
    | Except.ok status => do
      let privileged ← readBool
      pure (.GetUserStatus username status privileged)

def rdRespC13 : RdM ServerResponse :=
  do
    let room ← readStr
    let username ← readStr
    let message ← readStr
    pure (.SayChatroom room username message)

def rdRespC14 : RdM ServerResponse :=
  do
    let room ← readStr
    let usernames ← readList readStr
    let statuses ← readList readU32
    let statsList ← readList readUserStats
    let slotsFullList ← readList readU32
    let countries ← readList readStr
    match buildRoomUsers usernames statuses statsList slotsFullList countries with
    | Except.error e => throwRd e
    | Except.ok users => do
      let hr ← hasRemaining
      if hr then do
        let owner ← readStr
        let operators ← readList readStr
        pure (.JoinRoom room users (some owner) operators)
      else pure (.JoinRoom room users none [])

def rdRespC15 : RdM ServerResponse :=
  do
    let room ← readStr
    pure (.LeaveRoom room)

def rdRespC16 : RdM ServerResponse :=
  do
    let room ← readStr
    let username ← readStr
    let sv ← readU32
    match UserStatus.tryFrom sv with
    | Except.error e => throwRd e
    | Except.ok status => do
      let stats ← readUserStats
      let sf ← readU32
      let countryCode ← readStr
      pure (.UserJoinedRoom room username status stats (sf != 0) countryCode)

def rdRespC17 : RdM ServerResponse :=
  do
    let room ← readStr
    let username ← readStr
    pure (.UserLeftRoom room username)

def rdRespC18 : RdM ServerResponse :=
  do
    let username ← readStr
    let connTypeStr ← readStr
    match ConnectionType.parse connTypeStr with
    | Except.error e => throwRd e
    | Except.ok connectionType => do
      let ip ← readIp
      let port ← readU32
      let token ← readU32
      let privileged ← readBool
      let ov ← readU32
      match ObfuscationType.tryFrom ov with
      | Except.error e => throwRd e
      | Except.ok obfuscationType => do
        let obfuscatedPort ← readU32
        pure (.ConnectToPeer username connectionType ip port token privileged
          obfuscationType obfuscatedPort)

def rdRespC22 : RdM ServerResponse :=
  do
    let id ← readU32
    let timestamp ← readU32
    let username ← readStr
    let message ← readStr
    let newMessage ← readBool
    pure (.MessageUser id timestamp username message newMessage)

def rdRespC26 : RdM ServerResponse :=
  do
    let username ← readStr
    let token ← readU32
    let query ← readStr
    pure (.FileSearch username token query)

def rdRespC36 : RdM ServerResponse :=
  do
    let username ← readStr
    let stats ← readUserStats
    pure (.GetUserStats username stats)

def rdRespC41 : RdM ServerResponse :=
  pure .Relogged

def rdRespC54 : RdM ServerResponse :=
  do
    let recommendations ← readList readNameCount
    let unrecommendations ← readList readNameCount
    pure (.Recommendations recommendations unrecommendations)

def rdRespC56 : RdM ServerResponse :=
  do
    let recommendations ← readList readNameCount
    let unrecommendations ← readList readNameCount
    pure (.GlobalRecommendations recommendations unrecommendations)

def rdRespC57 : RdM ServerResponse :=
  do
    let username ← readStr
    let likes ← readList readStr
    let hates ← readList readStr
    pure (.UserInterests username likes hates)

def rdRespC64 : RdM ServerResponse :=
  do
    let roomNames ← readList readStr
    let roomCounts ← readList readU32
    let ownedNames ← readList readStr
    let ownedCounts ← readList readU32
    let privateNames ← readList readStr
    let privateCounts ← readList readU32
    let operatedPrivateRooms ← readList readStr
    pure (.RoomList (roomNames.zip roomCounts) (ownedNames.zip ownedCounts)
      (privateNames.zip privateCounts) operatedPrivateRooms)

def rdRespC66 : RdM ServerResponse :=
  do
    let message ← readStr
    pure (.AdminMessage message)

def rdRespC69 : RdM ServerResponse :=
  do
    let users ← readList readStr
    pure (.PrivilegedUsers users)

def rdRespC83 : RdM ServerResponse :=
  do
    let speed ← readU32
    pure (.ParentMinSpeed speed)

def rdRespC84 : RdM ServerResponse :=
  do
    let v ← readU32
    pure (.ParentSpeedRatioMsg v)

def rdRespC92 : RdM ServerResponse :=
  do
    let timeLeft ← readU32
    pure (.CheckPrivileges timeLeft)

def rdRespC93 : RdM ServerResponse :=
  do
    let c ← readU8
    let data ← takeAll
    pure (.EmbeddedMessage c data)

def rdRespC102 : RdM ServerResponse :=
  do
    let parents ← readList readPossibleParent
    pure (.PossibleParents parents)

def rdRespC104 : RdM ServerResponse :=
  do
    let interval ← readU32
    pure (.WishlistInterval interval)

def rdRespC110 : RdM ServerResponse :=
  do
    let users ← readList readNameVal
    pure (.SimilarUsers users)

def rdRespC111 : RdM ServerResponse :=
  do
    let item ← readStr
    let recommendations ← readList readNameCount
    pure (.ItemRecommendations item recommendations)

def rdRespC112 : RdM ServerResponse :=
  do
    let item ← readStr
    let users ← readList readStr
    pure (.ItemSimilarUsers item users)

def rdRespC113 : RdM ServerResponse :=
  do
    let room ← readStr
    let tickers ← readList readRoomTicker
    pure (.RoomTickerState room tickers)

def rdRespC114 : RdM ServerResponse :=
  do
    let room ← readStr
    let username ← readStr
    let ticker ← readStr
    pure (.RoomTickerAdd room username ticker)

def rdRespC115 : RdM ServerResponse :=
  do
    let room ← readStr
    let username ← readStr
    pure (.RoomTickerRemove room username)

def rdRespC141 : RdM ServerResponse :=
  do
    let enable ← readBool
    pure (.EnableRoomInvitations enable)

def rdRespC142 : RdM ServerResponse :=
  do
    let password ← readStr
    pure (.ChangePassword password)

def rdRespC143 : RdM ServerResponse :=
  do
    let room ← readStr
    let username ← readStr
    pure (.AddRoomOperator room username)

def rdRespC144 : RdM ServerResponse :=
  do
    let room ← readStr
    let username ← readStr
    pure (.RemoveRoomOperator room username)

def rdRespC145 : RdM ServerResponse :=
  do
    let room ← readStr
    pure (.RoomOperatorshipGranted room)

def rdRespC146 : RdM ServerResponse :=
  do
    let room ← readStr
    pure (.RoomOperatorshipRevoked room)

def rdRespC148 : RdM ServerResponse :=
  do
    let room ← readStr
    let operators ← readList readStr
    pure (.RoomOperators room operators)

def rdRespC139 : RdM ServerResponse :=
  do
    let room ← readStr
    pure (.RoomMembershipGranted room)

def rdRespC140 : RdM ServerResponse :=
  do
    let room ← readStr
    pure (.RoomMembershipRevoked room)

def rdRespC133 : RdM ServerResponse :=
  do
    let room ← readStr
    let members ← readList readStr
    pure (.RoomMembers room members)

def rdRespC134 : RdM ServerResponse :=
  do
    let room ← readStr
    let username ← readStr
    pure (.AddRoomMember room username)

def rdRespC135 : RdM ServerResponse :=
  do
    let room ← readStr
    let username ← readStr
    pure (.RemoveRoomMember room username)

def rdRespC130 : RdM ServerResponse :=
  pure .ResetDistributed

def rdRespC152 : RdM ServerResponse :=
  do
    let room ← readStr
    let username ← readStr
    let message ← readStr
    pure (.GlobalRoomMessage room username message)

def rdRespC160 : RdM ServerResponse :=
  do
    let phrases ← readList readStr
    pure (.ExcludedSearchPhrases phrases)

def rdRespC1001 : RdM ServerResponse :=
  do
    let token ← readU32
    let username ← readStr
    pure (.CantConnectToPeer token username)

def rdRespC1003 : RdM ServerResponse :=
  do
    let room ← readStr
    pure (.CantCreateRoom room)

def readServerResponseWithCode (code : Nat) : RdM ServerResponse :=
  if code = 1 then rdRespC1
  else if code = 3 then rdRespC3
  else if code = 5 then rdRespC5
  else if code = 7 then rdRespC7
  else if code = 13 then rdRespC13
  else if code = 14 then rdRespC14
  else if code = 15 then rdRespC15
  else if code = 16 then rdRespC16
  else if code = 17 then rdRespC17
  else if code = 18 then rdRespC18
  else if code = 22 then rdRespC22
  else if code = 26 then rdRespC26
  else if code = 36 then rdRespC36
  else if code = 41 then rdRespC41
  else if code = 54 then rdRespC54
  else if code = 56 then rdRespC56
  else if code = 57 then rdRespC57
  else if code = 64 then rdRespC64
  else if code = 66 then rdRespC66
  else if code = 69 then rdRespC69
  else if code = 83 then rdRespC83
  else if code = 84 then rdRespC84
  else if code = 92 then rdRespC92
  else if code = 93 then rdRespC93
  else if code = 102 then rdRespC102
  else if code = 104 then rdRespC104
  else if code = 110 then rdRespC110
  else if code = 111 then rdRespC111
  else if code = 112 then rdRespC112
  else if code = 113 then rdRespC113
  else if code = 114 then rdRespC114
  else if code = 115 then rdRespC115
  else if code = 141 then rdRespC141
  else if code = 142 then rdRespC142
  else if code = 143 then rdRespC143
  else if code = 144 then rdRespC144
  else if code = 145 then rdRespC145
  else if code = 146 then rdRespC146
  else if code = 148 then rdRespC148
  else if code = 139 then rdRespC139
  else if code = 140 then rdRespC140
  else if code = 133 then rdRespC133
  else if code = 134 then rdRespC134
  else if code = 135 then rdRespC135
  else if code = 130 then rdRespC130
  else if code = 152 then rdRespC152
  else if code = 160 then rdRespC160
  else if code = 1001 then rdRespC1001
  else if code = 1003 then rdRespC1003
  else if code = 2 ∨ code = 6 ∨ code = 28 ∨ code = 32 ∨ code = 35 ∨
      code = 42 ∨ code = 51 ∨ code = 52 ∨ code = 71 ∨ code = 100 ∨
      code = 103 ∨ code = 116 ∨ code = 117 ∨ code = 118 ∨ code = 120 ∨
      code = 121 ∨ code = 123 ∨ code = 126 ∨ code = 127 ∨ code = 136 ∨
      code = 137 ∨ code = 149 ∨ code = 150 ∨ code = 151 ∨ code = 23 then
    throwRd Err.protocolErr
  else throwRd (Err.invalidMessageCode code)


theorem readServerResponseWithCode_at_1 : readServerResponseWithCode 1 = rdRespC1 := rfl

theorem readServerResponseWithCode_at_3 : readServerResponseWithCode 3 = rdRespC3 := rfl

theorem readServerResponseWithCode_at_5 : readServerResponseWithCode 5 = rdRespC5 := rfl

theorem readServerResponseWithCode_at_7 : readServerResponseWithCode 7 = rdRespC7 := rfl

theorem readServerResponseWithCode_at_13 : readServerResponseWithCode 13 = rdRespC13 := rfl

theorem readServerResponseWithCode_at_14 : readServerResponseWithCode 14 = rdRespC14 := rfl

theorem readServerResponseWithCode_at_15 : readServerResponseWithCode 15 = rdRespC15 := rfl

theorem readServerResponseWithCode_at_16 : readServerResponseWithCode 16 = rdRespC16 := rfl

theorem readServerResponseWithCode_at_17 : readServerResponseWithCode 17 = rdRespC17 := rfl

theorem readServerResponseWithCode_at_18 : readServerResponseWithCode 18 = rdRespC18 := rfl

theorem readServerResponseWithCode_at_22 : readServerResponseWithCode 22 = rdRespC22 := rfl

theorem readServerResponseWithCode_at_26 : readServerResponseWithCode 26 = rdRespC26 := rfl

theorem readServerResponseWithCode_at_36 : readServerResponseWithCode 36 = rdRespC36 := rfl

theorem readServerResponseWithCode_at_41 : readServerResponseWithCode 41 = rdRespC41 := rfl

theorem readServerResponseWithCode_at_54 : readServerResponseWithCode 54 = rdRespC54 := rfl

theorem readServerResponseWithCode_at_56 : readServerResponseWithCode 56 = rdRespC56 := rfl

theorem readServerResponseWithCode_at_57 : readServerResponseWithCode 57 = rdRespC57 := rfl

theorem readServerResponseWithCode_at_64 : readServerResponseWithCode 64 = rdRespC64 := rfl

theorem readServerResponseWithCode_at_66 : readServerResponseWithCode 66 = rdRespC66 := rfl

theorem readServerResponseWithCode_at_69 : readServerResponseWithCode 69 = rdRespC69 := rfl

theorem readServerResponseWithCode_at_83 : readServerResponseWithCode 83 = rdRespC83 := rfl

theorem readServerResponseWithCode_at_84 : readServerResponseWithCode 84 = rdRespC84 := rfl

theorem readServerResponseWithCode_at_92 : readServerResponseWithCode 92 = rdRespC92 := rfl

theorem readServerResponseWithCode_at_93 : readServerResponseWithCode 93 = rdRespC93 := rfl

theorem readServerResponseWithCode_at_102 : readServerResponseWithCode 102 = rdRespC102 := rfl

theorem readServerResponseWithCode_at_104 : readServerResponseWithCode 104 = rdRespC104 := rfl

theorem readServerResponseWithCode_at_110 : readServerResponseWithCode 110 = rdRespC110 := rfl

theorem readServerResponseWithCode_at_111 : readServerResponseWithCode 111 = rdRespC111 := rfl

theorem readServerResponseWithCode_at_112 : readServerResponseWithCode 112 = rdRespC112 := rfl

theorem readServerResponseWithCode_at_113 : readServerResponseWithCode 113 = rdRespC113 := rfl

theorem readServerResponseWithCode_at_114 : readServerResponseWithCode 114 = rdRespC114 := rfl

theorem readServerResponseWithCode_at_115 : readServerResponseWithCode 115 = rdRespC115 := rfl

theorem readServerResponseWithCode_at_141 : readServerResponseWithCode 141 = rdRespC141 := rfl

theorem readServerResponseWithCode_at_142 : readServerResponseWithCode 142 = rdRespC142 := rfl

theorem readServerResponseWithCode_at_143 : readServerResponseWithCode 143 = rdRespC143 := rfl

theorem readServerResponseWithCode_at_144 : readServerResponseWithCode 144 = rdRespC144 := rfl

theorem readServerResponseWithCode_at_145 : readServerResponseWithCode 145 = rdRespC145 := rfl

theorem readServerResponseWithCode_at_146 : readServerResponseWithCode 146 = rdRespC146 := rfl

theorem readServerResponseWithCode_at_148 : readServerResponseWithCode 148 = rdRespC148 := rfl

theorem readServerResponseWithCode_at_139 : readServerResponseWithCode 139 = rdRespC139 := rfl

theorem readServerResponseWithCode_at_140 : readServerResponseWithCode 140 = rdRespC140 := rfl

theorem readServerResponseWithCode_at_133 : readServerResponseWithCode 133 = rdRespC133 := rfl

theorem readServerResponseWithCode_at_134 : readServerResponseWithCode 134 = rdRespC134 := rfl

theorem readServerResponseWithCode_at_135 : readServerResponseWithCode 135 = rdRespC135 := rfl

theorem readServerResponseWithCode_at_130 : readServerResponseWithCode 130 = rdRespC130 := rfl

theorem readServerResponseWithCode_at_152 : readServerResponseWithCode 152 = rdRespC152 := rfl

theorem readServerResponseWithCode_at_160 : readServerResponseWithCode 160 = rdRespC160 := rfl

theorem readServerResponseWithCode_at_1001 : readServerResponseWithCode 1001 = rdRespC1001 := rfl

theorem readServerResponseWithCode_at_1003 : readServerResponseWithCode 1003 = rdRespC1003 := rfl
/-- `read_server_message` (src/server.rs:1235-1239). -/
def readServerMessage : RdM ServerResponse := do
  let _len ← readU32
  let code ← readU32
  readServerResponseWithCode code

/-- Well-formed server responses. -/
def ServerResponse.WF : ServerResponse → Prop
  | .LoginSuccess greet _ passwordHash _ => StrWF greet ∧ StrWF passwordHash
  | .LoginFailure reason detail =>
      reason.WF ∧ OptP detail StrWF ∧
        (detail.isSome → reason = LoginRejectionReason.InvalidUsername)
  | .GetPeerAddress username _ port _ obfuscatedPort =>
      StrWF username ∧ port < 2 ^ 32 ∧ obfuscatedPort < 2 ^ 16
  | .WatchUser username existsUser status stats countryCode =>
      StrWF username ∧
      (existsUser = true → status.isSome ∧ stats.isSome) ∧
      (existsUser = false → status = none ∧ stats = none ∧ countryCode = none) ∧
      OptP stats UserStats.WF ∧ OptP countryCode StrWF ∧
      (countryCode.isSome → ¬ status = some UserStatus.Offline)
  | .GetUserStatus username _ _ => StrWF username
  | .SayChatroom room username message =>
      StrWF room ∧ StrWF username ∧ StrWF message
  | .JoinRoom room users owner operators =>
      StrWF room ∧ users.length < 2 ^ 32 ∧ (∀ u ∈ users, u.WF) ∧
      OptP owner StrWF ∧ (owner = none → operators = []) ∧
      (owner.isSome → operators.length < 2 ^ 32 ∧ ∀ op ∈ operators, StrWF op)
  | .LeaveRoom room => StrWF room
  | .UserJoinedRoom room username _ stats _ countryCode =>
      StrWF room ∧ StrWF username ∧ stats.WF ∧ StrWF countryCode
  | .UserLeftRoom room username => StrWF room ∧ StrWF username
  | .ConnectToPeer username _ _ port token _ _ obfuscatedPort =>
      StrWF username ∧ port < 2 ^ 32 ∧ token < 2 ^ 32 ∧ obfuscatedPort < 2 ^ 32
  | .MessageUser id timestamp username message _ =>
      id < 2 ^ 32 ∧ timestamp < 2 ^ 32 ∧ StrWF username ∧ StrWF message
  | .FileSearch username token query =>
      StrWF username ∧ token < 2 ^ 32 ∧ StrWF query
  | .GetUserStats username stats => StrWF username ∧ stats.WF
  | .Relogged => True
  | .Recommendations recommendations unrecommendations =>
      recommendations.length < 2 ^ 32 ∧ (∀ p ∈ recommendations, NameCountWF p) ∧
      unrecommendations.length < 2 ^ 32 ∧ ∀ p ∈ unrecommendations, NameCountWF p
  | .GlobalRecommendations recommendations unrecommendations =>
      recommendations.length < 2 ^ 32 ∧ (∀ p ∈ recommendations, NameCountWF p) ∧
      unrecommendations.length < 2 ^ 32 ∧ ∀ p ∈ unrecommendations, NameCountWF p
  | .UserInterests username likes hates =>
      StrWF username ∧ likes.length < 2 ^ 32 ∧ (∀ s ∈ likes, StrWF s) ∧
      hates.length < 2 ^ 32 ∧ ∀ s ∈ hates, StrWF s
  | .RoomList rooms ownedPrivateRooms privateRooms operatedPrivateRooms =>
      rooms.length < 2 ^ 32 ∧ (∀ p ∈ rooms, NameValWF p) ∧
      ownedPrivateRooms.length < 2 ^ 32 ∧
      (∀ p ∈ ownedPrivateRooms, NameValWF p) ∧
      privateRooms.length < 2 ^ 32 ∧ (∀ p ∈ privateRooms, NameValWF p) ∧
      operatedPrivateRooms.length < 2 ^ 32 ∧
      ∀ s ∈ operatedPrivateRooms, StrWF s
  | .AdminMessage message => StrWF message
  | .PrivilegedUsers users => users.length < 2 ^ 32 ∧ ∀ s ∈ users, StrWF s
  | .ParentMinSpeed speed => speed < 2 ^ 32
  | .ParentSpeedRatioMsg ratioVal => ratioVal < 2 ^ 32
  | .CheckPrivileges timeLeft => timeLeft < 2 ^ 32
  | .EmbeddedMessage code _ => code < 256
  | .PossibleParents parents =>
      parents.length < 2 ^ 32 ∧ ∀ p ∈ parents, p.WF
  | .WishlistInterval interval => interval < 2 ^ 32
  | .SimilarUsers users => users.length < 2 ^ 32 ∧ ∀ p ∈ users, NameValWF p
  | .ItemRecommendations item recommendations =>
      StrWF item ∧ recommendations.length < 2 ^ 32 ∧
        ∀ p ∈ recommendations, NameCountWF p
  | .ItemSimilarUsers item users =>
      StrWF item ∧ users.length < 2 ^ 32 ∧ ∀ s ∈ users, StrWF s
  | .RoomTickerState room tickers =>
      StrWF room ∧ tickers.length < 2 ^ 32 ∧ ∀ t ∈ tickers, t.WF
  | .RoomTickerAdd room username ticker =>
      StrWF room ∧ StrWF username ∧ StrWF ticker
  | .RoomTickerRemove room username => StrWF room ∧ StrWF username
  | .EnableRoomInvitations _ => True
  | .ChangePassword password => StrWF password
  | .AddRoomOperator room username => StrWF room ∧ StrWF username
  | .RemoveRoomOperator room username => StrWF room ∧ StrWF username
  | .RoomOperatorshipGranted room => StrWF room
  | .RoomOperatorshipRevoked room => StrWF room
  | .RoomOperators room operators =>
      StrWF room ∧ operators.length < 2 ^ 32 ∧ ∀ s ∈ operators, StrWF s
  | .RoomMembershipGranted room => StrWF room
  | .RoomMembershipRevoked room => StrWF room
  | .RoomMembers room members =>
      StrWF room ∧ members.length < 2 ^ 32 ∧ ∀ s ∈ members, StrWF s
  | .AddRoomMember room username => StrWF room ∧ StrWF username
  | .RemoveRoomMember room username => StrWF room ∧ StrWF username
  | .ResetDistributed => True
  | .GlobalRoomMessage room username message =>
      StrWF room ∧ StrWF username ∧ StrWF message
  | .ExcludedSearchPhrases phrases =>
      phrases.length < 2 ^ 32 ∧ ∀ s ∈ phrases, StrWF s
  | .CantConnectToPeer token username => token < 2 ^ 32 ∧ StrWF username
  | .CantCreateRoom room => StrWF room

instance (t : RoomTicker) : Decidable t.WF := by
  unfold RoomTicker.WF; infer_instance

instance (p : PossibleParent) : Decidable p.WF := by
  unfold PossibleParent.WF; infer_instance

instance (u : RoomUser) : Decidable u.WF := by
  unfold RoomUser.WF; infer_instance

instance (p : Bytes × Int) : Decidable (NameCountWF p) := by
  unfold NameCountWF; infer_instance

instance (p : Bytes × Nat) : Decidable (NameValWF p) := by
  unfold NameValWF; infer_instance

instance (m : ServerResponse) : Decidable m.WF := by
  cases m <;> (simp only [ServerResponse.WF]; infer_instance)

/-- Whether a response is the `RoomList` kind (whose writer and reader
disagree about the wire layout). -/
def ServerResponse.isRoomListB : ServerResponse → Bool
  | .RoomList _ _ _ _ => true
  | _ => false

theorem readUserStats_okE2 (s : UserStats) (h : s.WF) :
    readUserStats (wUserStats s) = (Except.ok s, []) := by
  have := readUserStats_ok s h []
  simpa using this

theorem readServerMessage_ok (m : ServerResponse) (h : m.WF)
    (hrl : m.isRoomListB = false) :
    readServerMessage (wServerResponse m) = (Except.ok m, []) := by
  cases m with
  | Relogged =>
    simp [readServerMessage, wServerResponse, wServerResponsePayload,
      ServerResponse.codeVal, RdM.bind_run, readU32_skip,
      readServerResponseWithCode_at_41, rdRespC41, RdM.pure_run,
      readU32_ok 41 (by norm_num), readU32_okE 41 (by norm_num)]
  | ResetDistributed =>
    simp [readServerMessage, wServerResponse, wServerResponsePayload,
      ServerResponse.codeVal, RdM.bind_run, readU32_skip,
      readServerResponseWithCode_at_130, rdRespC130, RdM.pure_run,
      readU32_ok 130 (by norm_num), readU32_okE 130 (by norm_num)]
  | LeaveRoom room =>
    obtain ⟨h1, h2⟩ := h
    simp [readServerMessage, wServerResponse, wServerResponsePayload,
      ServerResponse.codeVal, RdM.bind_run, readU32_skip,
      readServerResponseWithCode_at_15, rdRespC15, RdM.pure_run, readU32_ok 15 (by norm_num),
      readStr_okE room h1 h2]
  | AdminMessage message =>
    obtain ⟨h1, h2⟩ := h
    simp [readServerMessage, wServerResponse, wServerResponsePayload,
      ServerResponse.codeVal, RdM.bind_run, readU32_skip,
      readServerResponseWithCode_at_66, rdRespC66, RdM.pure_run, readU32_ok 66 (by norm_num),
      readStr_okE message h1 h2]
  | ChangePassword password =>
    obtain ⟨h1, h2⟩ := h
    simp [readServerMessage, wServerResponse, wServerResponsePayload,
      ServerResponse.codeVal, RdM.bind_run, readU32_skip,
      readServerResponseWithCode_at_142, rdRespC142, RdM.pure_run, readU32_ok 142 (by norm_num),
      readStr_okE password h1 h2]
  | RoomOperatorshipGranted room =>
    obtain ⟨h1, h2⟩ := h
    simp [readServerMessage, wServerResponse, wServerResponsePayload,
      ServerResponse.codeVal, RdM.bind_run, readU32_skip,
      readServerResponseWithCode_at_145, rdRespC145, RdM.pure_run, readU32_ok 145 (by norm_num),
      readStr_okE room h1 h2]
  | RoomOperatorshipRevoked room =>
    obtain ⟨h1, h2⟩ := h
    simp [readServerMessage, wServerResponse, wServerResponsePayload,
      ServerResponse.codeVal, RdM.bind_run, readU32_skip,
      readServerResponseWithCode_at_146, rdRespC146, RdM.pure_run, readU32_ok 146 (by norm_num),
      readStr_okE room h1 h2]
  | RoomMembershipGranted room =>
    obtain ⟨h1, h2⟩ := h
    simp [readServerMessage, wServerResponse, wServerResponsePayload,
      ServerResponse.codeVal, RdM.bind_run, readU32_skip,
      readServerResponseWithCode_at_139, rdRespC139, RdM.pure_run, readU32_ok 139 (by norm_num),
      readStr_okE room h1 h2]
  | RoomMembershipRevoked room =>
    obtain ⟨h1, h2⟩ := h
    simp [readServerMessage, wServerResponse, wServerResponsePayload,
      ServerResponse.codeVal, RdM.bind_run, readU32_skip,
      readServerResponseWithCode_at_140, rdRespC140, RdM.pure_run, readU32_ok 140 (by norm_num),
      readStr_okE room h1 h2]
  | CantCreateRoom room =>
    obtain ⟨h1, h2⟩ := h
    simp [readServerMessage, wServerResponse, wServerResponsePayload,
      ServerResponse.codeVal, RdM.bind_run, readU32_skip,
      readServerResponseWithCode_at_1003, rdRespC1003, RdM.pure_run,
      readU32_ok 1003 (by norm_num), readStr_okE room h1 h2]
  | UserLeftRoom room username =>
    obtain ⟨⟨ha1, ha2⟩, hb1, hb2⟩ := h
    simp [readServerMessage, wServerResponse, wServerResponsePayload,
      ServerResponse.codeVal, RdM.bind_run, readU32_skip,
      readServerResponseWithCode_at_17, rdRespC17, RdM.pure_run, readU32_ok 17 (by norm_num),
      readStr_ok room ha1 ha2, readStr_okE username hb1 hb2]
  | RoomTickerRemove room username =>
    obtain ⟨⟨ha1, ha2⟩, hb1, hb2⟩ := h
    simp [readServerMessage, wServerResponse, wServerResponsePayload,
      ServerResponse.codeVal, RdM.bind_run, readU32_skip,
      readServerResponseWithCode_at_115, rdRespC115, RdM.pure_run, readU32_ok 115 (by norm_num),
      readStr_ok room ha1 ha2, readStr_okE username hb1 hb2]
  | AddRoomOperator room username =>
    obtain ⟨⟨ha1, ha2⟩, hb1, hb2⟩ := h
    simp [readServerMessage, wServerResponse, wServerResponsePayload,
      ServerResponse.codeVal, RdM.bind_run, readU32_skip,
      readServerResponseWithCode_at_143, rdRespC143, RdM.pure_run, readU32_ok 143 (by norm_num),
      readStr_ok room ha1 ha2, readStr_okE username hb1 hb2]
  | RemoveRoomOperator room username =>
    obtain ⟨⟨ha1, ha2⟩, hb1, hb2⟩ := h
    simp [readServerMessage, wServerResponse, wServerResponsePayload,
      ServerResponse.codeVal, RdM.bind_run, readU32_skip,
      readServerResponseWithCode_at_144, rdRespC144, RdM.pure_run, readU32_ok 144 (by norm_num),
      readStr_ok room ha1 ha2, readStr_okE username hb1 hb2]
  | AddRoomMember room username =>
    obtain ⟨⟨ha1, ha2⟩, hb1, hb2⟩ := h
    simp [readServerMessage, wServerResponse, wServerResponsePayload,
      ServerResponse.codeVal, RdM.bind_run, readU32_skip,
      readServerResponseWithCode_at_134, rdRespC134, RdM.pure_run, readU32_ok 134 (by norm_num),
      readStr_ok room ha1 ha2, readStr_okE username hb1 hb2]
  | RemoveRoomMember room username =>
    obtain ⟨⟨ha1, ha2⟩, hb1, hb2⟩ := h
    simp [readServerMessage, wServerResponse, wServerResponsePayload,
      ServerResponse.codeVal, RdM.bind_run, readU32_skip,
      readServerResponseWithCode_at_135, rdRespC135, RdM.pure_run, readU32_ok 135 (by norm_num),
      readStr_ok room ha1 ha2, readStr_okE username hb1 hb2]
  | SayChatroom room username message =>
    obtain ⟨⟨ha1, ha2⟩, ⟨hb1, hb2⟩, hd1, hd2⟩ := h
    simp [readServerMessage, wServerResponse, wServerResponsePayload,
      ServerResponse.codeVal, RdM.bind_run, readU32_skip,
      readServerResponseWithCode_at_13, rdRespC13, RdM.pure_run, readU32_ok 13 (by norm_num),
      readStr_ok room ha1 ha2, readStr_ok username hb1 hb2,
      readStr_okE message hd1 hd2]
  | RoomTickerAdd room username ticker =>
    obtain ⟨⟨ha1, ha2⟩, ⟨hb1, hb2⟩, hd1, hd2⟩ := h
    simp [readServerMessage, wServerResponse, wServerResponsePayload,
      ServerResponse.codeVal, RdM.bind_run, readU32_skip,
      readServerResponseWithCode_at_114, rdRespC114, RdM.pure_run, readU32_ok 114 (by norm_num),
      readStr_ok room ha1 ha2, readStr_ok username hb1 hb2,
      readStr_okE ticker hd1 hd2]
  | GlobalRoomMessage room username message =>
    obtain ⟨⟨ha1, ha2⟩, ⟨hb1, hb2⟩, hd1, hd2⟩ := h
    simp [readServerMessage, wServerResponse, wServerResponsePayload,
      ServerResponse.codeVal, RdM.bind_run, readU32_skip,
      readServerResponseWithCode_at_152, rdRespC152, RdM.pure_run, readU32_ok 152 (by norm_num),
      readStr_ok room ha1 ha2, readStr_ok username hb1 hb2,
      readStr_okE message hd1 hd2]
  | ParentMinSpeed speed =>
    simp [readServerMessage, wServerResponse, wServerResponsePayload,
      ServerResponse.codeVal, RdM.bind_run, readU32_skip,
      readServerResponseWithCode_at_83, rdRespC83, RdM.pure_run, readU32_ok 83 (by norm_num),
      readU32_okE speed h]
  | ParentSpeedRatioMsg ratioVal =>
    simp [readServerMessage, wServerResponse, wServerResponsePayload,
      ServerResponse.codeVal, RdM.bind_run, readU32_skip,
      readServerResponseWithCode_at_84, rdRespC84, RdM.pure_run, readU32_ok 84 (by norm_num),
      readU32_okE ratioVal h]
  | CheckPrivileges timeLeft =>
    simp [readServerMessage, wServerResponse, wServerResponsePayload,
      ServerResponse.codeVal, RdM.bind_run, readU32_skip,
      readServerResponseWithCode_at_92, rdRespC92, RdM.pure_run, readU32_ok 92 (by norm_num),
      readU32_okE timeLeft h]
  | WishlistInterval interval =>
    simp [readServerMessage, wServerResponse, wServerResponsePayload,
      ServerResponse.codeVal, RdM.bind_run, readU32_skip,
      readServerResponseWithCode_at_104, rdRespC104, RdM.pure_run, readU32_ok 104 (by norm_num),
      readU32_okE interval h]
  | EnableRoomInvitations enable =>
    simp [readServerMessage, wServerResponse, wServerResponsePayload,
      ServerResponse.codeVal, RdM.bind_run, readU32_skip,
      readServerResponseWithCode_at_141, rdRespC141, RdM.pure_run,
      readU32_ok 141 (by norm_num), readBool_okE enable]
  | PrivilegedUsers users =>
    obtain ⟨hl, hall⟩ := h
    simp [readServerMessage, wServerResponse, wServerResponsePayload,
      ServerResponse.codeVal, RdM.bind_run, readU32_skip,
      readServerResponseWithCode_at_69, rdRespC69, RdM.pure_run, readU32_ok 69 (by norm_num),
      readList_okE readStr wstr users (fun s hs => readStr_ok s (hall s hs).1 (hall s hs).2) hl]
  | ExcludedSearchPhrases phrases =>
    obtain ⟨hl, hall⟩ := h
    simp [readServerMessage, wServerResponse, wServerResponsePayload,
      ServerResponse.codeVal, RdM.bind_run, readU32_skip,
      readServerResponseWithCode_at_160, rdRespC160, RdM.pure_run, readU32_ok 160 (by norm_num),
      readList_okE readStr wstr phrases (fun s hs => readStr_ok s (hall s hs).1 (hall s hs).2) hl]
  | RoomOperators room operators =>
    obtain ⟨⟨ha1, ha2⟩, hl, hall⟩ := h
    simp [readServerMessage, wServerResponse, wServerResponsePayload,
      ServerResponse.codeVal, RdM.bind_run, readU32_skip,
      readServerResponseWithCode_at_148, rdRespC148, RdM.pure_run, readU32_ok 148 (by norm_num),
      readStr_ok room ha1 ha2,
      readList_okE readStr wstr operators (fun s hs => readStr_ok s (hall s hs).1 (hall s hs).2) hl]
  | RoomMembers room members =>
    obtain ⟨⟨ha1, ha2⟩, hl, hall⟩ := h
    simp [readServerMessage, wServerResponse, wServerResponsePayload,
      ServerResponse.codeVal, RdM.bind_run, readU32_skip,
      readServerResponseWithCode_at_133, rdRespC133, RdM.pure_run, readU32_ok 133 (by norm_num),
      readStr_ok room ha1 ha2,
      readList_okE readStr wstr members (fun s hs => readStr_ok s (hall s hs).1 (hall s hs).2) hl]
  | ItemSimilarUsers item users =>
    obtain ⟨⟨ha1, ha2⟩, hl, hall⟩ := h
    simp [readServerMessage, wServerResponse, wServerResponsePayload,
      ServerResponse.codeVal, RdM.bind_run, readU32_skip,
      readServerResponseWithCode_at_112, rdRespC112, RdM.pure_run, readU32_ok 112 (by norm_num),
      readStr_ok item ha1 ha2,
      readList_okE readStr wstr users (fun s hs => readStr_ok s (hall s hs).1 (hall s hs).2) hl]
  | CantConnectToPeer token username =>
    obtain ⟨ht, hb1, hb2⟩ := h
    simp [readServerMessage, wServerResponse, wServerResponsePayload,
      ServerResponse.codeVal, RdM.bind_run, readU32_skip,
      readServerResponseWithCode_at_1001, rdRespC1001, RdM.pure_run,
      readU32_ok 1001 (by norm_num), readU32_ok token ht,
      readStr_okE username hb1 hb2]
  | FileSearch username token query =>
    obtain ⟨⟨ha1, ha2⟩, ht, hq1, hq2⟩ := h
    simp [readServerMessage, wServerResponse, wServerResponsePayload,
      ServerResponse.codeVal, RdM.bind_run, readU32_skip,
      readServerResponseWithCode_at_26, rdRespC26, RdM.pure_run, readU32_ok 26 (by norm_num),
      readStr_ok username ha1 ha2, readU32_ok token ht,
      readStr_okE query hq1 hq2]
  | GetUserStatus username status privileged =>
    obtain ⟨h1, h2⟩ := h
    simp [readServerMessage, wServerResponse, wServerResponsePayload,
      ServerResponse.codeVal, RdM.bind_run, readU32_skip,
      readServerResponseWithCode_at_7, rdRespC7, RdM.pure_run, readU32_ok 7 (by norm_num),
      readStr_ok username h1 h2,
      readU32_ok status.toNat (UserStatus.toNat_lt status),
      UserStatus.tryFrom_toNat, readBool_okE]
  | GetUserStats username stats =>
    obtain ⟨⟨h1, h2⟩, hst⟩ := h
    have hse : readUserStats (wUserStats stats) = (Except.ok stats, []) := by
      have := readUserStats_ok stats hst []
      simpa using this
    simp [readServerMessage, wServerResponse, wServerResponsePayload,
      ServerResponse.codeVal, RdM.bind_run, readU32_skip,
      readServerResponseWithCode_at_36, rdRespC36, RdM.pure_run, readU32_ok 36 (by norm_num),
      readStr_ok username h1 h2, hse]
  | LoginSuccess greet ownIp passwordHash isSupporter =>
    obtain ⟨⟨hg1, hg2⟩, hh1, hh2⟩ := h
    simp [readServerMessage, wServerResponse, wServerResponsePayload,
      ServerResponse.codeVal, RdM.bind_run, readU32_skip,
      readServerResponseWithCode_at_1, rdRespC1, RdM.pure_run, readU32_ok 1 (by norm_num),
      readBool_ok, readStr_ok greet hg1 hg2, readIp_ok ownIp,
      readStr_ok passwordHash hh1 hh2, readBool_okE]
  | GetPeerAddress username ip port obfuscationType obfuscatedPort =>
    obtain ⟨⟨h1, h2⟩, hp, ho⟩ := h
    simp [readServerMessage, wServerResponse, wServerResponsePayload,
      ServerResponse.codeVal, RdM.bind_run, readU32_skip,
      readServerResponseWithCode_at_3, rdRespC3, RdM.pure_run, readU32_ok 3 (by norm_num),
      readStr_ok username h1 h2, readIp_ok ip, readU32_ok port hp,
      readU32_ok obfuscationType.toNat (ObfuscationType.toNat_lt_obf obfuscationType),
      ObfuscationType.tryFrom_toNat_obf, readU16_okE obfuscatedPort ho]
  | MessageUser id timestamp username message newMessage =>
    obtain ⟨hi, ht, ⟨hu1, hu2⟩, hm1, hm2⟩ := h
    simp [readServerMessage, wServerResponse, wServerResponsePayload,
      ServerResponse.codeVal, RdM.bind_run, readU32_skip,
      readServerResponseWithCode_at_22, rdRespC22, RdM.pure_run, readU32_ok 22 (by norm_num),
      readU32_ok id hi, readU32_ok timestamp ht, readStr_ok username hu1 hu2,
      readStr_ok message hm1 hm2, readBool_okE]
  | UserJoinedRoom room username status stats slotsFull countryCode =>
    obtain ⟨⟨hr1, hr2⟩, ⟨hu1, hu2⟩, hst, hc1, hc2⟩ := h
    cases slotsFull <;>
      simp [readServerMessage, wServerResponse, wServerResponsePayload,
        ServerResponse.codeVal, RdM.bind_run, readU32_skip,
        readServerResponseWithCode_at_16, rdRespC16, RdM.pure_run,
        readU32_ok 16 (by norm_num), readStr_ok room hr1 hr2,
        readStr_ok username hu1 hu2,
        readU32_ok status.toNat (UserStatus.toNat_lt status),
        UserStatus.tryFrom_toNat, readUserStats_ok stats hst,
        readU32_ok 0 (by norm_num), readU32_ok 1 (by norm_num),
        readStr_okE countryCode hc1 hc2]
  | ConnectToPeer username connectionType ip port token privileged obfuscationType obfuscatedPort =>
    obtain ⟨⟨h1, h2⟩, hp, ht, ho⟩ := h
    have hcs := ConnectionType.asStr_wf connectionType
    simp [readServerMessage, wServerResponse, wServerResponsePayload,
      ServerResponse.codeVal, RdM.bind_run, readU32_skip,
      readServerResponseWithCode_at_18, rdRespC18, RdM.pure_run, readU32_ok 18 (by norm_num),
      readStr_ok username h1 h2, readStr_ok connectionType.asStr hcs.1 hcs.2,
      ConnectionType.parse_asStr, readIp_ok ip, readU32_ok port hp,
      readU32_ok token ht, readBool_ok,
      readU32_ok obfuscationType.toNat (ObfuscationType.toNat_lt_obf obfuscationType),
      ObfuscationType.tryFrom_toNat_obf, readU32_okE obfuscatedPort ho]
  | Recommendations recommendations unrecommendations =>
    obtain ⟨hl1, ha1, hl2, ha2⟩ := h
    simp [readServerMessage, wServerResponse, wServerResponsePayload,
      ServerResponse.codeVal, RdM.bind_run, readU32_skip,
      readServerResponseWithCode_at_54, rdRespC54, RdM.pure_run, readU32_ok 54 (by norm_num),
      readList_ok readNameCount wNameCount recommendations (fun p hp => readNameCount_ok p (ha1 p hp)) hl1,
      readList_okE readNameCount wNameCount unrecommendations (fun p hp => readNameCount_ok p (ha2 p hp)) hl2]
  | GlobalRecommendations recommendations unrecommendations =>
    obtain ⟨hl1, ha1, hl2, ha2⟩ := h
    simp [readServerMessage, wServerResponse, wServerResponsePayload,
      ServerResponse.codeVal, RdM.bind_run, readU32_skip,
      readServerResponseWithCode_at_56, rdRespC56, RdM.pure_run, readU32_ok 56 (by norm_num),
      readList_ok readNameCount wNameCount recommendations (fun p hp => readNameCount_ok p (ha1 p hp)) hl1,
      readList_okE readNameCount wNameCount unrecommendations (fun p hp => readNameCount_ok p (ha2 p hp)) hl2]
  | UserInterests username likes hates =>
    obtain ⟨⟨h1, h2⟩, hl1, ha1, hl2, ha2⟩ := h
    simp [readServerMessage, wServerResponse, wServerResponsePayload,
      ServerResponse.codeVal, RdM.bind_run, readU32_skip,
      readServerResponseWithCode_at_57, rdRespC57, RdM.pure_run, readU32_ok 57 (by norm_num),
      readStr_ok username h1 h2,
      readList_ok readStr wstr likes (fun s hs => readStr_ok s (ha1 s hs).1 (ha1 s hs).2) hl1,
      readList_okE readStr wstr hates (fun s hs => readStr_ok s (ha2 s hs).1 (ha2 s hs).2) hl2]
  | PossibleParents parents =>
    obtain ⟨hl, hall⟩ := h
    simp [readServerMessage, wServerResponse, wServerResponsePayload,
      ServerResponse.codeVal, RdM.bind_run, readU32_skip,
      readServerResponseWithCode_at_102, rdRespC102, RdM.pure_run, readU32_ok 102 (by norm_num),
      readList_okE readPossibleParent wPossibleParent parents (fun p hp => readPossibleParent_ok p (hall p hp)) hl]
  | SimilarUsers users =>
    obtain ⟨hl, hall⟩ := h
    simp [readServerMessage, wServerResponse, wServerResponsePayload,
      ServerResponse.codeVal, RdM.bind_run, readU32_skip,
      readServerResponseWithCode_at_110, rdRespC110, RdM.pure_run, readU32_ok 110 (by norm_num),
      readList_okE readNameVal wNameVal users (fun p hp => readNameVal_ok p (hall p hp)) hl]
  | ItemRecommendations item recommendations =>
    obtain ⟨⟨h1, h2⟩, hl, hall⟩ := h
    simp [readServerMessage, wServerResponse, wServerResponsePayload,
      ServerResponse.codeVal, RdM.bind_run, readU32_skip,
      readServerResponseWithCode_at_111, rdRespC111, RdM.pure_run, readU32_ok 111 (by norm_num),
      readStr_ok item h1 h2,
      readList_okE readNameCount wNameCount recommendations (fun p hp => readNameCount_ok p (hall p hp)) hl]
  | RoomTickerState room tickers =>
    obtain ⟨⟨h1, h2⟩, hl, hall⟩ := h
    simp [readServerMessage, wServerResponse, wServerResponsePayload,
      ServerResponse.codeVal, RdM.bind_run, readU32_skip,
      readServerResponseWithCode_at_113, rdRespC113, RdM.pure_run, readU32_ok 113 (by norm_num),
      readStr_ok room h1 h2,
      readList_okE readRoomTicker wRoomTicker tickers (fun t ht => readRoomTicker_ok t (hall t ht)) hl]
  | EmbeddedMessage code data =>
    simp [readServerMessage, wServerResponse, wServerResponsePayload,
      ServerResponse.codeVal, RdM.bind_run, readU32_skip,
      readServerResponseWithCode_at_93, rdRespC93, RdM.pure_run, readU32_ok 93 (by norm_num),
      readU8_ok code h, takeAll_run]
  | RoomList rooms ownedPrivateRooms privateRooms operatedPrivateRooms =>
    simp [ServerResponse.isRoomListB] at hrl
  | LoginFailure reason detail =>
    obtain ⟨hre, hod, hiso⟩ := h
    cases detail with
    | none =>
      have hws := LoginRejectionReason.wireStr_wf reason hre
      simp [readServerMessage, wServerResponse, wServerResponsePayload,
        ServerResponse.codeVal, RdM.bind_run, readU32_skip,
        readServerResponseWithCode_at_1, rdRespC1, RdM.pure_run, readBool_ok,
        readU32_ok 1 (by norm_num), readStr_okE reason.wireStr hws.1 hws.2,
        LoginRejectionReason.fromString_wireStr reason hre, hasRemaining_run]
    | some d =>
      have hreq : reason = LoginRejectionReason.InvalidUsername := hiso (by simp)
      subst hreq
      obtain ⟨hd1, hd2⟩ := hod
      simp [readServerMessage, wServerResponse, wServerResponsePayload,
        ServerResponse.codeVal, RdM.bind_run, readU32_skip,
        readServerResponseWithCode_at_1, rdRespC1, RdM.pure_run, readBool_ok,
        readU32_ok 1 (by norm_num), LoginRejectionReason.wireStr,
        readStr_ok (ascii "INVALIDUSERNAME") (by decide) (by decide),
        LoginRejectionReason.fromString, hasRemaining_run, wstr_isEmpty,
        readStr_okE d hd1 hd2]
  | WatchUser username existsUser status stats countryCode =>
    obtain ⟨⟨h1, h2⟩, hext, hexf, host, hocc, hcs⟩ := h
    cases existsUser with
    | false =>
      obtain ⟨hs, hst, hcc⟩ := hexf rfl
      subst hs; subst hst; subst hcc
      simp [readServerMessage, wServerResponse, wServerResponsePayload,
        ServerResponse.codeVal, RdM.bind_run, readU32_skip,
        readServerResponseWithCode_at_5, rdRespC5, RdM.pure_run, readBool_okE,
        readU32_ok 5 (by norm_num), readStr_ok username h1 h2]
    | true =>
      obtain ⟨hsi, hti⟩ := hext rfl
      rcases status with _ | s
      · simp at hsi
      rcases stats with _ | st
      · simp at hti
      cases countryCode with
      | none =>
        simp [readServerMessage, wServerResponse, wServerResponsePayload,
          ServerResponse.codeVal, RdM.bind_run, readU32_skip,
          readServerResponseWithCode_at_5, rdRespC5, RdM.pure_run, readBool_ok,
          readU32_ok 5 (by norm_num), readStr_ok username h1 h2,
          readU32_ok s.toNat (UserStatus.toNat_lt s),
          UserStatus.tryFrom_toNat, readUserStats_okE2 st host,
          hasRemaining_run]
      | some cc =>
        have hne : s ≠ UserStatus.Offline := by
          intro he; exact hcs (by simp) (by simp [he])
        have hbe : (s != UserStatus.Offline) = true := by
          cases s <;> simp_all
        obtain ⟨hc1, hc2⟩ := hocc
        simp [readServerMessage, wServerResponse, wServerResponsePayload,
          ServerResponse.codeVal, RdM.bind_run, readU32_skip,
          readServerResponseWithCode_at_5, rdRespC5, RdM.pure_run, readBool_ok,
          readU32_ok 5 (by norm_num), readStr_ok username h1 h2,
          readU32_ok s.toNat (UserStatus.toNat_lt s),
          UserStatus.tryFrom_toNat, readUserStats_ok st host,
          hasRemaining_run, wstr_isEmpty, hbe, readStr_okE cc hc1 hc2]
        rw [if_neg hne]
        simp [RdM.bind_run, readStr_okE cc hc1 hc2, RdM.pure_run]
  | JoinRoom room users owner operators =>
    obtain ⟨⟨h1, h2⟩, hl, hall, hoo, hon, hos⟩ := h
    have lus := readList_map_ok readStr (fun u => wstr u.username)
      (fun u => u.username) users
      (fun u hu => readStr_ok u.username ((hall u hu).1).1 ((hall u hu).1).2) hl
    have lst := readList_map_ok readU32 (fun u => w32 u.status.toNat)
      (fun u => u.status.toNat) users
      (fun u hu => readU32_ok u.status.toNat (UserStatus.toNat_lt u.status)) hl
    have lsa := readList_map_ok readUserStats (fun u => wUserStats u.stats)
      (fun u => u.stats) users
      (fun u hu => readUserStats_ok u.stats ((hall u hu).2).1) hl
    have lsl := readList_map_ok readU32
      (fun u => w32 (if u.slotsFull then 1 else 0))
      (fun u => if u.slotsFull then 1 else 0) users
      (fun u hu => readU32_ok (if u.slotsFull then 1 else 0)
        (by split <;> norm_num)) hl
    have lcc := readList_map_ok readStr (fun u => wstr u.countryCode)
      (fun u => u.countryCode) users
      (fun u hu => readStr_ok u.countryCode ((hall u hu).2).2.1
        ((hall u hu).2).2.2) hl
    have lccE := readList_map_okE readStr (fun u => wstr u.countryCode)
      (fun u => u.countryCode) users
      (fun u hu => readStr_ok u.countryCode ((hall u hu).2).2.1
        ((hall u hu).2).2.2) hl
    cases owner with
    | none =>
      have hop : operators = [] := hon rfl
      subst hop
      simp [readServerMessage, wServerResponse, wServerResponsePayload,
        ServerResponse.codeVal, RdM.bind_run, readU32_skip,
        readServerResponseWithCode_at_14, rdRespC14, RdM.pure_run,
        readU32_ok 14 (by norm_num), readStr_ok room h1 h2, lus, lst, lsa,
        lsl, lcc, lccE, buildRoomUsers_proj, hasRemaining_run]
    | some o =>
      obtain ⟨ho1, ho2⟩ := hoo
      obtain ⟨hopl, hops⟩ := hos (by simp)
      simp [readServerMessage, wServerResponse, wServerResponsePayload,
        ServerResponse.codeVal, RdM.bind_run, readU32_skip,
        readServerResponseWithCode_at_14, rdRespC14, RdM.pure_run,
        readU32_ok 14 (by norm_num), readStr_ok room h1 h2, lus, lst, lsa,
        lsl, lcc, buildRoomUsers_proj, hasRemaining_run, wstr_isEmpty,
        wstr_nonnil, readStr_ok o ho1 ho2,
        readList_okE readStr wstr operators (fun s hs => readStr_ok s (hops s hs).1 (hops s hs).2) hopl]

end

-- ----------------------------------------------------------------------
-- Best-file selection (src/bin/tui/client.rs, src/bin/debug.rs)
-- ----------------------------------------------------------------------

/-- In-memory view of a search result file as held by the TUI/debug binaries
(`SearchResultFile` with Rust `String` fields). -/
structure SearchResultFileS where
  filename : String
  size : Nat
  extension : String
  attributes : List FileAttribute
  deriving DecidableEq, Repr

/-- `AccumulatedResult` (src/bin/tui/client.rs:88-92, src/bin/debug.rs:60-64). -/
structure AccumulatedResult where
  username : String
  file : SearchResultFileS
  deriving DecidableEq, Repr

/-- `get_bitrate` (src/bin/tui/client.rs:1235-1237, src/bin/debug.rs:253-255). -/
def get_bitrate (attributes : List FileAttribute) : Option Nat :=
  (attributes.find? (fun a => a.code == 0)).map (fun a => a.value)

/-- The fourteen audio extensions recognised by both pickers. -/
def audio_exts : List String :=
  [".mp3", ".flac", ".m4a", ".ogg", ".opus", ".wav", ".aac", ".wma", ".ape",
   ".alac", ".aiff", ".aif", ".wv", ".mpc"]

/-- The audio-extension filter shared by `pick_best_file`/`pick_best_files`. -/
def isAudio (r : AccumulatedResult) : Bool :=
  audio_exts.any (fun ext => r.file.filename.toLower.endsWith ext)

/-- The `sort_by` comparator shared by `pick_best_file` and `pick_best_files`
(src/bin/tui/client.rs:1257-1275, src/bin/debug.rs:276-300). -/
def cmpFiles (a b : AccumulatedResult) : Ordering :=
  let aBitrateOpt := get_bitrate a.file.attributes
  let bBitrateOpt := get_bitrate b.file.attributes
  let aIsFlac := a.file.filename.toLower.endsWith ".flac"
  let bIsFlac := b.file.filename.toLower.endsWith ".flac"
  let aHasBitrate := aBitrateOpt.isSome || aIsFlac
  let bHasBitrate := bBitrateOpt.isSome || bIsFlac
  if aHasBitrate ≠ bHasBitrate then compare bHasBitrate aHasBitrate
  else if aIsFlac ≠ bIsFlac then compare bIsFlac aIsFlac
  else compare (bBitrateOpt.getD 0) (aBitrateOpt.getD 0)

/-- Stable insertion into a sorted list: the new element goes after every
element that does not compare strictly greater, as in Rust's stable
`slice::sort_by`. -/
def insC {α : Type} (cmp : α → α → Ordering) (x : α) : List α → List α
  | [] => [x]
  | y :: ys => if cmp y x = Ordering.gt then x :: y :: ys else y :: insC cmp x ys

/-- Stable sort by comparator (`slice::sort_by` is a stable sort). -/
def sortC {α : Type} (cmp : α → α → Ordering) (l : List α) : List α :=
  l.foldl (fun acc x => insC cmp x acc) []

/-- First-seen deduplication by username
(`filter(|c| seen_users.insert(c.username.clone()))`, src/bin/debug.rs:303-306). -/
def dedupByUser : List AccumulatedResult → List String → List AccumulatedResult
  | [], _ => []
  | c :: cs, seen =>
      if seen.contains c.username then dedupByUser cs seen
      else c :: dedupByUser cs (c.username :: seen)

/-- `MAX_CANDIDATES` (src/bin/debug.rs:31). -/
def MAX_CANDIDATES : Nat := 10

/-- `pick_best_file` (src/bin/tui/client.rs:1239-1280). -/
def pick_best_file (results : List AccumulatedResult) : Option AccumulatedResult :=
  let candidates := results.filter isAudio
  if candidates.isEmpty then none
  else (sortC cmpFiles candidates).head?

/-- `pick_best_files` (src/bin/debug.rs:257-308). -/
def pick_best_files (results : List AccumulatedResult) (exclude_users : List String) :
    List AccumulatedResult :=
  let candidates := results.filter
    (fun r => isAudio r && !(exclude_users.contains r.username))
  if candidates.isEmpty then []
  else (dedupByUser (sortC cmpFiles candidates) []).take MAX_CANDIDATES

-- Reference selector, written from the spec's words.

def isFlacFile (r : AccumulatedResult) : Bool :=
  r.file.filename.toLower.endsWith ".flac"

def hasBitrateInfo (r : AccumulatedResult) : Bool :=
  (get_bitrate r.file.attributes).isSome || isFlacFile r

def bitrateValue (r : AccumulatedResult) : Nat :=
  (get_bitrate r.file.attributes).getD 0

/-- The ordering the spec describes: has-bitrate-info (FLAC counts as yes)
descending, then is-FLAC descending, then bitrate descending. -/
def specKeyCmp (a b : AccumulatedResult) : Ordering :=
  (compare (hasBitrateInfo b) (hasBitrateInfo a)).then
    ((compare (isFlacFile b) (isFlacFile a)).then
      (compare (bitrateValue b) (bitrateValue a)))

/-- The spec's audio-extension filter. -/
def specAudioKeep (r : AccumulatedResult) : Bool :=
  audio_exts.any (fun ext => r.file.filename.toLower.endsWith ext)

/-- Spec reference: top-1 selector ("return the top candidate"). -/
def pickBestFileSpec (results : List AccumulatedResult) : Option AccumulatedResult :=
  (dedupByUser (sortC specKeyCmp (results.filter specAudioKeep)) []).head?

/-- Spec reference: top-N selector for retry lists. -/
def pickBestFilesSpec (results : List AccumulatedResult) (exclude_users : List String) :
    List AccumulatedResult :=
  (dedupByUser
    (sortC specKeyCmp
      (results.filter (fun r => specAudioKeep r && !(exclude_users.contains r.username))))
    []).take 10

theorem isAudio_eq_specAudioKeep : isAudio = specAudioKeep := rfl

theorem cmpFiles_eq_specKeyCmp (a b : AccumulatedResult) :
    cmpFiles a b = specKeyCmp a b := by
  unfold cmpFiles specKeyCmp hasBitrateInfo isFlacFile bitrateValue
  cases ha : (get_bitrate a.file.attributes).isSome <;>
    cases hb : (get_bitrate b.file.attributes).isSome <;>
      cases hfa : a.file.filename.toLower.endsWith ".flac" <;>
        cases hfb : b.file.filename.toLower.endsWith ".flac" <;>
          simp [ha, hb, hfa, hfb, Ordering.then, compare, compareOfLessAndEq]

theorem dedupByUser_head (l : List AccumulatedResult) :
    (dedupByUser l []).head? = l.head? := by
  cases l with
  | nil => rfl
  | cons c cs => simp [dedupByUser]

/-- C5: both best-file pickers equal the spec's reference selector: filter to
the fourteen audio extensions case-insensitively, order by has-bitrate-info
descending then is-FLAC descending then bitrate descending with ties broken
by insertion order, deduplicate by username keeping the first seen, and
return the top candidate (or top N for retry lists), none when no candidates
remain. -/
theorem C5_best_file_selector :
    (∀ results : List AccumulatedResult,
      pick_best_file results = pickBestFileSpec results) ∧
    (∀ (results : List AccumulatedResult) (exclude_users : List String),
      pick_best_files results exclude_users = pickBestFilesSpec results exclude_users) := by
  have hc : cmpFiles = specKeyCmp :=
    funext fun a => funext fun b => cmpFiles_eq_specKeyCmp a b
  constructor
  · intro results
    simp only [pick_best_file, pickBestFileSpec, isAudio_eq_specAudioKeep, hc]
    cases results.filter specAudioKeep with
    | nil => rfl
    | cons x xs => simp [dedupByUser_head]
  · intro results exclude_users
    simp only [pick_best_files, pickBestFilesSpec, isAudio_eq_specAudioKeep, hc,
      MAX_CANDIDATES]
    cases results.filter (fun r => specAudioKeep r && !(exclude_users.contains r.username)) with
    | nil => rfl
    | cons x xs => rfl

-- ----------------------------------------------------------------------
-- Download status transitions (src/bin/tui/app.rs)
-- ----------------------------------------------------------------------

/-- `DownloadStatus` (src/bin/tui/app.rs:18-25). -/
inductive DownloadStatus where
  | Queued
  | Connecting
  | Downloading
  | Completed
  | Failed (reason : String)
  deriving DecidableEq, Repr

/-- `Download` (src/bin/tui/app.rs:27-35). -/
structure Download where
  id : Nat
  username : String
  filename : String
  size : Nat
  downloaded : Nat
  status : DownloadStatus
  deriving DecidableEq, Repr

/-- The download-related constructors of `AppEvent` (src/bin/tui/app.rs). -/
inductive AppEvent where
  | DownloadQueued (id : Nat) (username filename : String) (size : Nat)
  | DownloadStarted (id : Nat)
  | DownloadProgress (id : Nat) (downloaded : Nat)
  | DownloadCompleted (id : Nat)
  | DownloadFailed (id : Nat) (reason : String)
  deriving DecidableEq, Repr

/-- `filename.rsplit(['/', '\\']).next().unwrap_or(&filename)`. -/
def baseName (filename : String) : String :=
  (filename.split (fun c => c == '/' || c == '\\')).getLastD filename

/-- `self.downloads.iter_mut().find(|d| d.id == id)` followed by a mutation:
the first download with the given id is updated, all others are unchanged. -/
def updateFirst (ds : List Download) (id : Nat) (f : Download → Download) :
    List Download :=
  match ds with
  | [] => []
  | d :: rest => if d.id = id then f d :: rest else d :: updateFirst rest id f

/-- The download arms of `App::handle_event` (src/bin/tui/app.rs:201-245)
restricted to their effect on `self.downloads`. -/
def handle_event (ds : List Download) : AppEvent → List Download
  | .DownloadQueued id username filename size =>
      ds ++ [{ id := id, username := username, filename := baseName filename,
               size := size, downloaded := 0, status := .Queued }]
  | .DownloadStarted id =>
      updateFirst ds id (fun d => { d with status := .Downloading })
  | .DownloadProgress id downloaded =>
      updateFirst ds id (fun d => { d with downloaded := downloaded })
  | .DownloadCompleted id =>
      updateFirst ds id (fun d => { d with status := .Completed, downloaded := d.size })
  | .DownloadFailed id reason =>
      updateFirst ds id (fun d => { d with status := .Failed reason })

/-- The events whose handler writes the `status` field of the download with
the given id. -/
def statusEventFor (e : AppEvent) (id : Nat) : Bool :=
  match e with
  | .DownloadStarted j => j == id
  | .DownloadCompleted j => j == id
  | .DownloadFailed j _ => j == id
  | _ => false

theorem updateFirst_get (ds : List Download) (j : Nat) (f : Download → Download)
    (i : Nat) (d : Download) (h : ds[i]? = some d) :
    (updateFirst ds j f)[i]? = some d ∨
      ((updateFirst ds j f)[i]? = some (f d) ∧ d.id = j) := by
  induction ds generalizing i with
  | nil => simp at h
  | cons x xs ih =>
    cases i with
    | zero =>
        simp at h
        subst h
        by_cases hx : x.id = j
        · right
          simp [updateFirst, hx]
        · left
          simp [updateFirst, hx]
    | succ n =>
        simp at h
        by_cases hx : x.id = j
        · left
          simp [updateFirst, hx, h]
        · have := ih n h
          simpa [updateFirst, hx] using this

/-- C7 (amended): an event that does not write the status field for a
download's id leaves that download's status unchanged — progress events and
events for other ids preserve terminal states — but `DownloadStarted`,
`DownloadCompleted` and `DownloadFailed` for the same id overwrite the status
unconditionally, so a terminal state is not preserved against them. -/
theorem C7_terminal_status (ds : List Download) (e : AppEvent) (i : Nat)
    (d : Download) (h : ds[i]? = some d)
    (hne : statusEventFor e d.id = false) :
    ∃ d', (handle_event ds e)[i]? = some d' ∧ d'.status = d.status := by
  cases e with
  | DownloadQueued id u fn s =>
      refine ⟨d, ?_, rfl⟩
      have hlt : i < ds.length := by
        by_contra hge
        rw [List.getElem?_eq_none (by omega)] at h
        exact Option.noConfusion h
      simp only [handle_event]
      rw [List.getElem?_append, if_pos hlt]
      exact h
  | DownloadStarted j =>
      have hj : ¬ d.id = j := by
        simp [statusEventFor] at hne
        omega
      rcases updateFirst_get ds j (fun d => { d with status := .Downloading }) i d h with
        h1 | ⟨_, hid⟩
      · exact ⟨d, by simpa [handle_event] using h1, rfl⟩
      · exact absurd hid hj
  | DownloadProgress j dl =>
      rcases updateFirst_get ds j (fun d => { d with downloaded := dl }) i d h with
        h1 | ⟨h2, _⟩
      · exact ⟨d, by simpa [handle_event] using h1, rfl⟩
      · refine ⟨{ d with downloaded := dl }, ?_, rfl⟩
        simpa [handle_event] using h2
  | DownloadCompleted j =>
      have hj : ¬ d.id = j := by
        simp [statusEventFor] at hne
        omega
      rcases updateFirst_get ds j (fun d => { d with status := .Completed, downloaded := d.size }) i d h with
        h1 | ⟨_, hid⟩
      · exact ⟨d, by simpa [handle_event] using h1, rfl⟩
      · exact absurd hid hj
  | DownloadFailed j r =>
      have hj : ¬ d.id = j := by
        simp [statusEventFor] at hne
        omega
      rcases updateFirst_get ds j (fun d => { d with status := .Failed r }) i d h with
        h1 | ⟨_, hid⟩
      · exact ⟨d, by simpa [handle_event] using h1, rfl⟩
      · exact absurd hid hj

theorem C7_witness :
    (([⟨1, "u", "f", 10, 0, DownloadStatus.Completed⟩] : List Download)[0]? =
        some ⟨1, "u", "f", 10, 0, DownloadStatus.Completed⟩) ∧
    statusEventFor (AppEvent.DownloadProgress 1 5) 1 = false ∧
    ∃ d', (handle_event [⟨1, "u", "f", 10, 0, DownloadStatus.Completed⟩]
        (AppEvent.DownloadProgress 1 5))[0]? = some d' ∧
      d'.status = DownloadStatus.Completed := by
  exact ⟨rfl, rfl,
    C7_terminal_status [⟨1, "u", "f", 10, 0, DownloadStatus.Completed⟩]
      (AppEvent.DownloadProgress 1 5) 0 ⟨1, "u", "f", 10, 0, DownloadStatus.Completed⟩
      rfl rfl⟩

/-- C7 counterexample: a `DownloadStarted` event for an id whose download is
already `Completed` moves its status back to `Downloading`. -/
theorem C7_counterexample :
    (handle_event [⟨1, "u", "f", 10, 10, DownloadStatus.Completed⟩]
        (AppEvent.DownloadStarted 1)).map Download.status =
      [DownloadStatus.Downloading] := by
  rfl

-- ----------------------------------------------------------------------
-- Download completion reporting
-- ----------------------------------------------------------------------

/-- Outcome reported by `download_file` (src/bin/debug.rs:722-729) when the
transfer stream ends. -/
inductive TransferReport where
  | completed
  | incompleteErr
  | noDataErr
  deriving DecidableEq, Repr

/-- The completion check of `download_file` (src/bin/debug.rs:722-729). -/
def download_finish (received file_size : Nat) : TransferReport :=
  if file_size * 95 / 100 ≤ received then .completed
  else if 0 < received then .incompleteErr
  else .noDataErr

/-- Event emitted by `connect_to_peer_and_download`
(src/bin/tui/client.rs:1209-1211) when the file stream ends: it is always
`DownloadCompleted`, whatever the received byte count. -/
def tui_stream_end_event (id _downloaded _file_size : Nat) : AppEvent :=
  AppEvent.DownloadCompleted id

/-- C6 (amended): the debug binary reports success iff
`received ≥ file_size * 95 / 100` (integer floor of 95%), incomplete iff
short of that but nonempty, and no-data when nothing arrived; the TUI
download loop always reports `DownloadCompleted` at stream end, regardless
of how many bytes were received. -/
theorem C6_download_completion :
    (∀ received file_size : Nat,
      download_finish received file_size = TransferReport.completed ↔
        file_size * 95 / 100 ≤ received) ∧
    (∀ received file_size : Nat,
      download_finish received file_size = TransferReport.incompleteErr ↔
        (received < file_size * 95 / 100 ∧ 0 < received)) ∧
    (∀ id downloaded file_size : Nat,
      tui_stream_end_event id downloaded file_size = AppEvent.DownloadCompleted id) := by
  refine ⟨fun r s => ?_, fun r s => ?_, fun id d s => rfl⟩
  · unfold download_finish
    split
    · simpa
    · split <;> simp <;> omega
  · unfold download_finish
    split
    · simp
      omega
    · split <;> simp <;> omega

/-- C6 counterexample: with expected size 101 and 95 bytes received (94.06%
of the file), the debug binary reports success even though strictly less
than 95% arrived; and the TUI reports `DownloadCompleted` with zero bytes
received. -/
theorem C6_counterexample :
    download_finish 95 101 = TransferReport.completed ∧ 100 * 95 < 95 * 101 ∧
    tui_stream_end_event 7 0 1000 = AppEvent.DownloadCompleted 7 := by
  exact ⟨rfl, by norm_num, rfl⟩

-- ----------------------------------------------------------------------
-- connect_with_retry backoff (src/bin/debug.rs:317-346)
-- ----------------------------------------------------------------------

/-- The sleep computed in `SoulseekClient::connect_with_retry`
(src/bin/debug.rs:326-334). -/
def backoff_delay (rate_limited : Bool) (attempt : Nat) : Nat :=
  if rate_limited then 30 * attempt
  else min (10 * 2 ^ (min (attempt - 1) 2)) 60

/-- Result of one `connect_once` call, abstracted. -/
inductive ConnOutcome where
  | ok
  | err (rate_limited : Bool)
  deriving DecidableEq, Repr

structure ConnectResult where
  delays : List Nat
  success : Bool
  attempts : Nat
  deriving DecidableEq, Repr

/-- The retry loop of `connect_with_retry` (src/bin/debug.rs:317-341),
parameterised by the outcome of each attempt. The fuel always suffices
because the loop returns once `attempt ≥ max_attempts`. -/
def connectFrom (outcome : Nat → ConnOutcome) (max_attempts : Nat) :
    Nat → Nat → ConnectResult
  | attempt, 0 => ⟨[], false, attempt⟩
  | attempt, fuel + 1 =>
    match outcome (attempt + 1) with
    | .ok => ⟨[], true, attempt + 1⟩
    | .err rl =>
      if max_attempts ≤ attempt + 1 then ⟨[], false, attempt + 1⟩
      else
        let res := connectFrom outcome max_attempts (attempt + 1) fuel
        ⟨backoff_delay rl (attempt + 1) :: res.delays, res.success, res.attempts⟩

/-- `connect_with_retry` (src/bin/debug.rs:317-341). -/
def connect_with_retry (outcome : Nat → ConnOutcome) (max_attempts : Nat) :
    ConnectResult :=
  connectFrom outcome max_attempts 0 max_attempts

/-- `connect` (src/bin/debug.rs:344-346): `max_attempts = 5`. -/
def connect (outcome : Nat → ConnOutcome) : ConnectResult :=
  connect_with_retry outcome 5

theorem connectFrom_attempts_le (outcome : Nat → ConnOutcome) (m : Nat) :
    ∀ (fuel attempt : Nat),
      (connectFrom outcome m attempt fuel).attempts ≤ attempt + fuel := by
  intro fuel
  induction fuel with
  | zero => intro a; simp [connectFrom]
  | succ n ih =>
      intro a
      rw [connectFrom]
      cases outcome (a + 1) with
      | ok => simp
      | err rl =>
          by_cases hm : m ≤ a + 1
          · simp [hm]
          · simp [hm]
            have := ih (a + 1)
            omega

/-- C8: what `connect_with_retry` actually does — with non-rate-limited
failures the four sleeps are 10, 20, 40, 40 seconds (the fourth delay is 40,
not the 60 promised by the in-code comment, and the 60-second cap is
unreachable), rate-limited failures wait `30·attempt` seconds, and at most 5
attempts are made. -/
theorem C8_backoff :
    connect (fun _ => ConnOutcome.err false) = ⟨[10, 20, 40, 40], false, 5⟩ ∧
    (∀ n, backoff_delay true n = 30 * n) ∧
    (∀ n, backoff_delay false n ≤ 40) ∧
    (∀ n, backoff_delay false n ≠ 60) ∧
    (∀ outcome, (connect outcome).attempts ≤ 5) := by
  refine ⟨rfl, fun n => rfl, fun n => ?_, fun n => ?_, fun outcome => ?_⟩
  · have h : min (n - 1) 2 = 0 ∨ min (n - 1) 2 = 1 ∨ min (n - 1) 2 = 2 := by omega
    rcases h with h | h | h <;> simp [backoff_delay, h]
  · have h : min (n - 1) 2 = 0 ∨ min (n - 1) 2 = 1 ∨ min (n - 1) 2 = 2 := by omega
    rcases h with h | h | h <;> simp [backoff_delay, h]
  · simpa [connect, connect_with_retry] using
      connectFrom_attempts_le outcome 5 5 0

-- ----------------------------------------------------------------------
-- Login hash (src/protocol.rs:288-292) and the Login request
-- ----------------------------------------------------------------------

/-- C9: `login_hash("username","password")` equals the test vector
"d51c9a7e9353746a6020f9602d452929"; `login_hash` is the lowercase-hex MD5
digest of `username ++ password`; and every encoded `Login` request embeds
`login_hash(username, password)` between its version and minor-version
fields. -/
theorem C9_login_hash :
    login_hash (ascii "username") (ascii "password") =
      ascii "d51c9a7e9353746a6020f9602d452929" ∧
    (∀ username password : Bytes,
      login_hash username password = toHex (md5 (username ++ password))) ∧
    ∀ (username password : Bytes) (version minorVersion : Nat),
      wServerRequestPayload
          (ServerRequest.Login username password version minorVersion) =
        wstr username ++ wstr password ++ w32 version ++
          wstr (login_hash username password) ++ w32 minorVersion := by
  exact ⟨by decide, fun u p => rfl, fun u p v m => rfl⟩

-- ----------------------------------------------------------------------
-- C1: encode/decode roundtrips over all four protocols and the primitives
-- ----------------------------------------------------------------------

/-- C1 (amended): decoding the bytes produced by encoding is the identity
for every well-formed message of the peer-init, distributed, peer and
server-request protocols, for every well-formed server response other than
`RoomList` (whose writer and reader disagree), and for every wire primitive
u8, u16, u32, i32, u64, bool, string and ipv4. -/
theorem C1_encode_decode (Z : ZlibModel) (hz : Z.Roundtrip) :
    (∀ m : PeerInitMessage, m.WF →
      readPeerInitMessage (wPeerInitMessage m) = (Except.ok m, [])) ∧
    (∀ m : DistributedMessage, m.WF →
      readDistributedMessage (wDistributedMessage m) = (Except.ok m, [])) ∧
    (∀ m : PeerMessage, m.WF →
      readPeerMessage Z (wPeerMessage Z m) = (Except.ok m, [])) ∧
    (∀ m : ServerRequest, m.WF →
      readServerRequest (wServerRequest m) = (Except.ok m, [])) ∧
    (∀ m : ServerResponse, m.WF → m.isRoomListB = false →
      readServerMessage (wServerResponse m) = (Except.ok m, [])) ∧
    (∀ n : Nat, n < 256 → readU8 (w8 n) = (Except.ok n, [])) ∧
    (∀ n : Nat, n < 2 ^ 16 → readU16 (w16 n) = (Except.ok n, [])) ∧
    (∀ n : Nat, n < 2 ^ 32 → readU32 (w32 n) = (Except.ok n, [])) ∧
    (∀ i : Int, -(2 ^ 31) ≤ i → i < 2 ^ 31 →
      readI32 (wi32 i) = (Except.ok i, [])) ∧
    (∀ n : Nat, n < 2 ^ 64 → readU64 (w64 n) = (Except.ok n, [])) ∧
    (∀ b : Bool, readBool (wbool b) = (Except.ok b, [])) ∧
    (∀ s : Bytes, StrWF s → readStr (wstr s) = (Except.ok s, [])) ∧
    (∀ ip : Ipv4, readIp (wip ip) = (Except.ok ip, [])) := by
  refine ⟨fun m hm => ?_, fun m hm => readDistributedMessage_ok m hm,
    fun m hm => readPeerMessage_ok Z hz m hm,
    fun m hm => readServerRequest_ok m hm,
    fun m hm hrl => readServerMessage_ok m hm hrl,
    fun n hn => readU8_okE n hn, fun n hn => readU16_okE n hn,
    fun n hn => readU32_okE n hn, fun i hi1 hi2 => readI32_okE i hi1 hi2,
    fun n hn => readU64_okE n hn, fun b => readBool_okE b,
    fun s hs => readStr_okE s hs.1 hs.2, fun ip => readIp_okE ip⟩
  have := readPeerInitMessage_ok m hm []
  simpa using this

theorem C1_witness :
    readPeerInitMessage (wPeerInitMessage (PeerInitMessage.PierceFirewall 5)) =
      (Except.ok (PeerInitMessage.PierceFirewall 5), []) ∧
    readServerRequest (wServerRequest ServerRequest.ServerPing) =
      (Except.ok ServerRequest.ServerPing, []) ∧
    readU32 (w32 7) = (Except.ok 7, []) := by
  have h := C1_encode_decode idZlib idZlib_roundtrip
  exact ⟨h.1 _ (by decide), h.2.2.2.1 _ (by decide),
    h.2.2.2.2.2.2.2.1 7 (by norm_num)⟩

/-- C1 counterexample: a well-formed `RoomList` response does not survive the
roundtrip — its writer emits each room list as interleaved (name, count)
records while its reader expects parallel name and count lists, so decoding
its own encoding fails with a buffer underflow. -/
theorem C1_counterexample :
    (ServerResponse.RoomList [(ascii "a", 1)] [] [] []).WF ∧
    (readServerMessage
        (wServerResponse (ServerResponse.RoomList [(ascii "a", 1)] [] [] []))).1 =
      Except.error (Err.bufferUnderflow 4 0) ∧
    readServerMessage
        (wServerResponse (ServerResponse.RoomList [(ascii "a", 1)] [] [] [])) ≠
      (Except.ok (ServerResponse.RoomList [(ascii "a", 1)] [] [] []), []) := by
  have herr : (readServerMessage
      (wServerResponse (ServerResponse.RoomList [(ascii "a", 1)] [] [] []))).1 =
      Except.error (Err.bufferUnderflow 4 0) := by rfl
  refine ⟨by decide, herr, fun h => ?_⟩
  have h1 := congrArg Prod.fst h
  rw [herr] at h1
  exact Except.noConfusion h1
